import Mathlib

/-!
GATT profile of the BlueZ 5 service interface layer.

A shallow embedding of `src/bluez5profilegatt.cpp` / `src/bluez5profilegatt.h`.

* Heap nodes owned through raw pointers (`GattRemoteService*`, ...) are values owned by the
  container that holds the pointer; a write through a pointer obtained from a lookup is a
  replacement of the element the lookup found.
* `std::unordered_map` is an association list (`UMap`); its iteration order is the list order.
* Observer notifications, result callbacks, remote method calls and bus exports are recorded,
  in program order, in a list of `Effect`s returned next to the new state.
* The answers of the remote stack (device directory, synchronous reads and writes) are the
  fields of `Env`.
* An asynchronous registration round trip is split into the method up to the hand-off, which
  returns the captured closure as a `PendingRegistration`, and the closure run at completion.
* An `Option` result is `none` where the source has undefined behaviour (null dereference, store
  past the end of an array).
* `std::map` is an association list kept in increasing key order; a caller's array of C strings
  is a list of slots, `none` for `NULL`.
-/

namespace Bluez5

/-! ## Unordered maps -/

/-- An `std::unordered_map`: an association list, looked up from the front. -/
abbrev UMap (κ : Type) (ν : Type) := List (κ × ν)

namespace UMap

variable {κ ν : Type} [DecidableEq κ]

/-- The mapped value of `find(k)`, or `none` for `end()`. -/
def find : UMap κ ν → κ → Option ν
  | [], _ => none
  | (k', v) :: rest, k => if k' = k then some v else find rest k

/-- The effect of `insert(k, v)`: nothing happens when the key is already present. -/
def insert (m : UMap κ ν) (k : κ) (v : ν) : UMap κ ν :=
  match find m k with
  | some _ => m
  | none => m ++ [(k, v)]

/-- Assignment through a reference to the mapped value, or `m[k] = v`. -/
def set : UMap κ ν → κ → ν → UMap κ ν
  | [], k, v => [(k, v)]
  | (k', v') :: rest, k, v => if k' = k then (k, v) :: rest else (k', v') :: set rest k v

/-- The effect of `erase(k)`. -/
def erase (m : UMap κ ν) (k : κ) : UMap κ ν :=
  m.filter (fun p => decide (p.1 ≠ k))

end UMap

/-- Replaces the first element satisfying `p` by its image under `f`: a write through the
pointer or iterator that a linear search returned. -/
def modifyFirst {α : Type} (p : α → Bool) (f : α → α) : List α → List α
  | [] => []
  | x :: xs => if p x then f x :: xs else x :: modifyFirst p f xs

/-! ## Value types of the service interface API -/

/-- Modelled from the spec: `BluetoothUuid` (declared in the API header, which is not part of
the sources) is an opaque value type with a defined equality. -/
abbrev BluetoothUuid := String

/-- Modelled from the spec: `BluetoothGattValue` is a byte sequence. -/
abbrev BluetoothGattValue := List Nat

/-- Modelled from the spec: the standardized error codes handed to callbacks
(none / failure / invalid-parameter / out-of-memory). -/
inductive BluetoothError where
  | NONE
  | FAIL
  | PARAM_INVALID
  | NOMEM
deriving DecidableEq, Repr

/-- Modelled from the spec: `BluetoothGattDescriptor`, a uuid, a cached value and a permission
bitset. -/
structure BluetoothGattDescriptor where
  uuid : BluetoothUuid := ""
  value : BluetoothGattValue := []
  permissions : Nat := 0
deriving DecidableEq, Repr

/-- Modelled from the spec: `BluetoothGattCharacteristic`, a uuid, a cached value, a property
bitset and the list of its descriptors. -/
structure BluetoothGattCharacteristic where
  uuid : BluetoothUuid := ""
  value : BluetoothGattValue := []
  properties : Nat := 0
  descriptors : List BluetoothGattDescriptor := []
deriving DecidableEq, Repr

/-- Modelled from the spec: `BluetoothGattService`, the service value exposed to callers with
its aggregated characteristic snapshot. -/
structure BluetoothGattService where
  uuid : BluetoothUuid := ""
  isPrimary : Bool := false
  includedServices : List BluetoothUuid := []
  characteristics : List BluetoothGattCharacteristic := []
deriving DecidableEq, Repr

/-- Modelled from the spec: the bit of `BluetoothGattCharacteristic::PROPERTY_READ`. -/
def PROPERTY_READ : Nat := 2

/-- Modelled from the spec: the bit of `BluetoothGattCharacteristic::PROPERTY_WRITE`. -/
def PROPERTY_WRITE : Nat := 8

/-- Modelled from the spec: the bit of `BluetoothGattCharacteristic::PROPERTY_NOTIFY`. -/
def PROPERTY_NOTIFY : Nat := 16

/-- Modelled from the spec: `isPropertySet`, the property bit is set in the bitset. -/
def BluetoothGattCharacteristic.isPropertySet (c : BluetoothGattCharacteristic) (property : Nat) :
    Bool :=
  (c.properties &&& property) != 0

/-- Modelled from the spec: `BluetoothGattCharacteristic::addDescriptor` appends to the
descriptor list. -/
def BluetoothGattCharacteristic.addDescriptor (c : BluetoothGattCharacteristic)
    (d : BluetoothGattDescriptor) : BluetoothGattCharacteristic :=
  { c with descriptors := c.descriptors ++ [d] }

/-- Modelled from the spec: `BluetoothGattCharacteristic::updateDescriptorValue` stores the value
in the descriptor with the given uuid. -/
def BluetoothGattCharacteristic.updateDescriptorValue (c : BluetoothGattCharacteristic)
    (descriptorUuid : BluetoothUuid) (value : BluetoothGattValue) : BluetoothGattCharacteristic :=
  { c with
    descriptors :=
      (modifyFirst (fun d => decide (d.uuid = descriptorUuid))
        (fun d => { d with value := value }) c.descriptors) }

/-- Modelled from the spec: `BluetoothGattService::addCharacteristic` appends to the aggregated
characteristic snapshot. -/
def BluetoothGattService.addCharacteristic (s : BluetoothGattService)
    (c : BluetoothGattCharacteristic) : BluetoothGattService :=
  { s with characteristics := s.characteristics ++ [c] }

/-- Modelled from the spec: `BluetoothGattService::updateCharacteristicValue` stores the value in
the snapshot characteristic with the given uuid. -/
def BluetoothGattService.updateCharacteristicValue (s : BluetoothGattService)
    (characteristicUuid : BluetoothUuid) (value : BluetoothGattValue) : BluetoothGattService :=
  { s with
    characteristics :=
      (modifyFirst (fun c => decide (c.uuid = characteristicUuid))
        (fun c => { c with value := value }) s.characteristics) }

/-! ## Helpers of `utils` -/

/-- Modelled from the spec: `convertAddressToLowerCase` (in `utils`, not part of the sources)
lower-cases every character of a device address. -/
def convertAddressToLowerCase (input : String) : String :=
  String.mk (input.data.map Char.toLower)

/-- Modelled from the spec: `splitInPathAndName` (in `utils`, not part of the sources) splits an
object path at its last slash into the parent path and the name of the object. -/
def splitInPathAndName (objectPath : String) : String × String :=
  let reversed := objectPath.data.reverse
  (String.mk ((reversed.dropWhile (fun ch => ch != '/')).drop 1).reverse,
   String.mk (reversed.takeWhile (fun ch => ch != '/')).reverse)

/-! ## Remote entity mirror: nodes -/

/-- The class `GattRemoteDescriptor` (the proxy handle `mInterface` is the object path). -/
structure GattRemoteDescriptor where
  parentObjectPath : String := ""
  objectPath : String := ""
  descriptor : BluetoothGattDescriptor := {}
deriving DecidableEq, Repr

/-- The class `GattRemoteCharacteristic`. -/
structure GattRemoteCharacteristic where
  parentObjectPath : String := ""
  objectPath : String := ""
  characteristic : BluetoothGattCharacteristic := {}
  gattRemoteDescriptors : List GattRemoteDescriptor := []
deriving DecidableEq, Repr

/-- The class `GattRemoteService`. -/
structure GattRemoteService where
  parentObjectPath : String := ""
  objectPath : String := ""
  service : BluetoothGattService := {}
  gattRemoteCharacteristics : List GattRemoteCharacteristic := []
deriving DecidableEq, Repr

/-! ## Local registry: nodes -/

/-- The class `Bluez5GattLocalDescriptor`; `mDescObject` is the path of the exported object, or
`none` for a null pointer. -/
structure Bluez5GattLocalDescriptor where
  mDescObject : Option String := none
  mInterface : Bool := false
deriving DecidableEq, Repr

/-- The class `Bluez5GattLocalCharacteristic`. -/
structure Bluez5GattLocalCharacteristic where
  mCharObject : Option String := none
  mInterface : Bool := false
  mDescriptors : UMap Nat Bluez5GattLocalDescriptor := []
deriving DecidableEq, Repr

/-- The class `Bluez5GattLocalService`. -/
structure Bluez5GattLocalService where
  mServiceObject : Option String := none
  mCharacteristics : UMap Nat Bluez5GattLocalCharacteristic := []
  mServiceInterface : Bool := false
  serviceId : Nat := 0
deriving DecidableEq, Repr

/-- The class `BluezGattLocalApplication`. -/
structure BluezGattLocalApplication where
  mGattLocalServices : UMap Nat Bluez5GattLocalService := []
deriving DecidableEq, Repr

/-! ## The profile object -/

/-- The state of a `Bluez5ProfileGatt`: its data members and the four function-local static
counters of `nextAppId`, `nextServiceId`, `nextCharId`, `nextDescId` (each a `uint16_t`
initialised to 1). `mObjectManagerGattServer` is the object path of the export root, or `none`
for a null pointer. -/
structure Bluez5ProfileGatt where
  mLastCharId : Nat := 0
  mObjectManagerGattServer : Option String := none
  mConnectedDevices : UMap Nat String := []
  mGattLocalApplications : UMap Nat BluezGattLocalApplication := []
  mDeviceServicesMap : UMap String (List GattRemoteService) := []
  mRemoteDeviceServicesMap : UMap String (List BluetoothGattService) := []
  nextAppIdCounter : Nat := 1
  nextServiceIdCounter : Nat := 1
  nextCharIdCounter : Nat := 1
  nextDescIdCounter : Nat := 1
deriving DecidableEq, Repr

/-- The answers of the collaborators: the device directory of the adapter (a found device is
represented by the address its `getAddress` returns) and the synchronous remote calls made
through the proxies, keyed by the object path of the proxy. -/
structure Env where
  findDeviceByObjectPath : String → Option String
  findDevice : String → Option String
  characteristicReadValue : String → BluetoothGattValue
  characteristicWriteValue : String → BluetoothGattValue → Bool
  descriptorReadValue : String → BluetoothGattValue
  descriptorWriteValue : String → BluetoothGattValue → Bool
  startNotify : String → Bool
  stopNotify : String → Bool

/-- What the profile does to the outside, in program order. -/
inductive Effect where
  | serviceFound (address : String) (service : BluetoothGattService)
  | serviceLost (address : String) (service : BluetoothGattService)
  | propertiesChanged (address : String) (connected : Bool)
  | callCharacteristicReadValue (objectPath : String)
  | callCharacteristicWriteValue (objectPath : String) (value : BluetoothGattValue)
  | callDescriptorReadValue (objectPath : String)
  | callDescriptorWriteValue (objectPath : String) (value : BluetoothGattValue)
  | callStartNotify (objectPath : String)
  | callStopNotify (objectPath : String)
  | resultCallback (error : BluetoothError)
  | readCharacteristicCallback (error : BluetoothError) (value : BluetoothGattCharacteristic)
  | readDescriptorCallback (error : BluetoothError) (value : BluetoothGattDescriptor)
  | addCallback (error : BluetoothError) (id : Int)
  | connectCallback (error : BluetoothError) (id : Int)
  | exportObject (objectPath : String)
  | unexportObject (objectPath : String)
  | callUnregisterApplication (objPath : String)
  | callRegisterApplication (objPath : String)
deriving DecidableEq, Repr

/-! ## Remote entity mirror: operations -/

/-- The method `updateRemoteDeviceServices`: clears the published snapshot and rebuilds it from
every entry of `mDeviceServicesMap`. -/
def updateRemoteDeviceServices (st : Bluez5ProfileGatt) : Bluez5ProfileGatt :=
  { st with
    mRemoteDeviceServicesMap :=
      (st.mDeviceServicesMap.foldl
        (fun snapshot entry => UMap.set snapshot entry.1 (entry.2.map (fun s => s.service))) []) }

/-- The method `addRemoteServiceToDevice`. -/
def addRemoteServiceToDevice (env : Env) (st : Bluez5ProfileGatt)
    (gattService : GattRemoteService) : Bluez5ProfileGatt × List Effect :=
  match env.findDeviceByObjectPath gattService.parentObjectPath with
  | none => (st, [])
  | some deviceAddress =>
    let lowerCaseAddress := convertAddressToLowerCase deviceAddress
    match UMap.find st.mDeviceServicesMap lowerCaseAddress with
    | none =>
      ({ st with mDeviceServicesMap :=
           UMap.insert st.mDeviceServicesMap lowerCaseAddress [gattService] },
       [Effect.serviceFound lowerCaseAddress gattService.service,
        Effect.propertiesChanged lowerCaseAddress true])
    | some servicesList =>
      match servicesList.find? (fun devService =>
          decide (devService.service.uuid = gattService.service.uuid)) with
      | none =>
        (updateRemoteDeviceServices
           { st with mDeviceServicesMap :=
               UMap.set st.mDeviceServicesMap lowerCaseAddress (servicesList ++ [gattService]) },
         [Effect.serviceFound lowerCaseAddress gattService.service])
      | some _ => (st, [])

/-- The method `removeRemoteGattService`. -/
def removeRemoteGattService (env : Env) (st : Bluez5ProfileGatt) (serviceObjectPath : String) :
    Bluez5ProfileGatt × List Effect :=
  match env.findDeviceByObjectPath (splitInPathAndName serviceObjectPath).1 with
  | none => (st, [])
  | some deviceAddress =>
    let lowerCaseAddress := convertAddressToLowerCase deviceAddress
    match UMap.find st.mDeviceServicesMap lowerCaseAddress with
    | none => (st, [])
    | some servicesList =>
      let found := servicesList.find? (fun devService =>
        decide (devService.objectPath = serviceObjectPath))
      let lost : List Effect :=
        match found with
        | some devService => [Effect.serviceLost lowerCaseAddress devService.service]
        | none => []
      let remaining := servicesList.eraseP (fun devService =>
        decide (devService.objectPath = serviceObjectPath))
      if remaining.length = 0 then
        ({ st with mDeviceServicesMap := UMap.erase st.mDeviceServicesMap lowerCaseAddress },
         lost ++ [Effect.propertiesChanged lowerCaseAddress false])
      else
        ({ st with mDeviceServicesMap :=
             UMap.set st.mDeviceServicesMap lowerCaseAddress remaining }, lost)

/-- The method `getRemoteGattService`: the service with the given object path in the entry of
the device that owns the path, or `none` for a null pointer. -/
def getRemoteGattService (env : Env) (st : Bluez5ProfileGatt) (serviceObjectPath : String) :
    Option GattRemoteService :=
  match env.findDeviceByObjectPath (splitInPathAndName serviceObjectPath).1 with
  | none => none
  | some deviceAddress =>
    match UMap.find st.mDeviceServicesMap (convertAddressToLowerCase deviceAddress) with
    | none => none
    | some servicesList =>
      servicesList.find? (fun devService => decide (devService.objectPath = serviceObjectPath))

/-- A write through the pointer returned by `getRemoteGattService`: the node it found is
replaced by `service`. -/
def setRemoteGattService (env : Env) (st : Bluez5ProfileGatt) (serviceObjectPath : String)
    (service : GattRemoteService) : Bluez5ProfileGatt :=
  match env.findDeviceByObjectPath (splitInPathAndName serviceObjectPath).1 with
  | none => st
  | some deviceAddress =>
    match UMap.find st.mDeviceServicesMap (convertAddressToLowerCase deviceAddress) with
    | none => st
    | some servicesList =>
      { st with
        mDeviceServicesMap :=
          (UMap.set st.mDeviceServicesMap (convertAddressToLowerCase deviceAddress)
            (modifyFirst (fun devService => decide (devService.objectPath = serviceObjectPath))
              (fun _ => service) servicesList)) }

/-- The method `addRemoteCharacteristicToService`. -/
def addRemoteCharacteristicToService (env : Env) (st : Bluez5ProfileGatt)
    (gattCharacteristic : GattRemoteCharacteristic) : Bluez5ProfileGatt :=
  match getRemoteGattService env st gattCharacteristic.parentObjectPath with
  | none => st
  | some service =>
    setRemoteGattService env st gattCharacteristic.parentObjectPath
      { service with
        gattRemoteCharacteristics := service.gattRemoteCharacteristics ++ [gattCharacteristic]
        service := service.service.addCharacteristic gattCharacteristic.characteristic }

/-- The method `removeRemoteGattCharacteristic`, as far as the containers go: the characteristic
with the given path leaves the list of its service, the aggregated snapshot of the service keeps
its copy. (The `delete` that follows the `erase` in the source goes through the erased iterator;
which object it frees is not part of this embedding.) -/
def removeRemoteGattCharacteristic (env : Env) (st : Bluez5ProfileGatt)
    (characteristicObjectPath : String) : Bluez5ProfileGatt :=
  let serviceObjectPath := (splitInPathAndName characteristicObjectPath).1
  match getRemoteGattService env st serviceObjectPath with
  | none => st
  | some service =>
    setRemoteGattService env st serviceObjectPath
      { service with
        gattRemoteCharacteristics :=
          (service.gattRemoteCharacteristics.eraseP
            (fun characteristic => decide (characteristic.objectPath = characteristicObjectPath))) }

/-- The method `addRemoteDescriptorToCharacteristic`. The result is `none` when the source
dereferences the end iterator of the characteristic list (the owning service is found, the
characteristic is not): the behaviour is then undefined. -/
def addRemoteDescriptorToCharacteristic (env : Env) (st : Bluez5ProfileGatt)
    (gattDescriptor : GattRemoteDescriptor) : Option (Bluez5ProfileGatt × List Effect) :=
  let characteristicObjectPath := gattDescriptor.parentObjectPath
  let serviceObjectPath := (splitInPathAndName characteristicObjectPath).1
  match getRemoteGattService env st serviceObjectPath with
  | none => some (st, [])
  | some remoteService =>
    match remoteService.gattRemoteCharacteristics.find?
        (fun characteristic => decide (characteristic.objectPath = characteristicObjectPath)) with
    | none => none
    | some characteristic =>
      let readable := characteristic.characteristic.isPropertySet PROPERTY_READ
      let descriptor : BluetoothGattDescriptor :=
        if readable then
          { gattDescriptor.descriptor with
            value := env.descriptorReadValue gattDescriptor.objectPath }
        else gattDescriptor.descriptor
      let seeded : GattRemoteDescriptor := { gattDescriptor with descriptor := descriptor }
      let reads : List Effect :=
        if readable then [Effect.callDescriptorReadValue gattDescriptor.objectPath] else []
      let characteristic1 : GattRemoteCharacteristic :=
        { characteristic with
          gattRemoteDescriptors := characteristic.gattRemoteDescriptors ++ [seeded]
          characteristic := characteristic.characteristic.addDescriptor descriptor }
      let characteristicUuid := characteristic1.characteristic.uuid
      let serviceCharacteristicList := remoteService.service.characteristics
      let service1 : BluetoothGattService :=
        match serviceCharacteristicList.find? (fun c => decide (c.uuid = characteristicUuid)) with
        | some _ =>
          { remoteService.service with
            characteristics :=
              (modifyFirst (fun c => decide (c.uuid = characteristicUuid))
                (fun c => c.addDescriptor descriptor) serviceCharacteristicList) }
        | none => remoteService.service
      some
        (setRemoteGattService env st serviceObjectPath
          { remoteService with
            gattRemoteCharacteristics :=
              (modifyFirst
                (fun c => decide (c.objectPath = characteristicObjectPath))
                (fun _ => characteristic1) remoteService.gattRemoteCharacteristics)
            service := service1 },
         reads)

/-- The method `removeRemoteGattDescriptor`, as far as the containers go: the source copies the
characteristic list and the descriptor list (`auto`, not `auto &`) and erases from the copy, so
no container of the mirror changes; `removeRemoteGattDescriptorCopy` is the copy after the
erase. (The `delete` that follows the `erase` goes through the erased iterator, as in
`removeRemoteGattCharacteristic`; which object it frees is not part of this embedding.) -/
def removeRemoteGattDescriptor (_env : Env) (st : Bluez5ProfileGatt)
    (_descriptorObjectPath : String) : Bluez5ProfileGatt :=
  st

/-! ## Connection registry -/

/-- The method `getAddress`: the empty string when the connection id has no mapping. -/
def getAddress (st : Bluez5ProfileGatt) (connId : Nat) : String :=
  match UMap.find st.mConnectedDevices connId with
  | none => ""
  | some deviceAddress => deviceAddress

/-- The method `getConnectId`: a linear scan by value, 0 when no id is mapped to the address. -/
def getConnectId (st : Bluez5ProfileGatt) (address : String) : Nat :=
  match st.mConnectedDevices.find?
      (fun entry => decide (convertAddressToLowerCase address = entry.2)) with
  | some entry => entry.1
  | none => 0

/-! ## Lookups in the mirror and read-only accessors -/

/-- The method `findService`. -/
def findService (st : Bluez5ProfileGatt) (address : String) (service : BluetoothUuid) :
    Option GattRemoteService :=
  match UMap.find st.mDeviceServicesMap address with
  | none => none
  | some servicesList => servicesList.find? (fun serviceIt => decide (serviceIt.service.uuid = service))

/-- A write through the pointer returned by `findService`. -/
def setFoundService (st : Bluez5ProfileGatt) (address : String) (service : BluetoothUuid)
    (node : GattRemoteService) : Bluez5ProfileGatt :=
  match UMap.find st.mDeviceServicesMap address with
  | none => st
  | some servicesList =>
    { st with
      mDeviceServicesMap :=
        (UMap.set st.mDeviceServicesMap address
          (modifyFirst (fun serviceIt => decide (serviceIt.service.uuid = service))
            (fun _ => node) servicesList)) }

/-- The method `findCharacteristic`. -/
def findCharacteristic (service : GattRemoteService) (characteristic : BluetoothUuid) :
    Option GattRemoteCharacteristic :=
  service.gattRemoteCharacteristics.find?
    (fun charIt => decide (charIt.characteristic.uuid = characteristic))

/-- A write through the pointer returned by `findCharacteristic`. -/
def setFoundCharacteristic (service : GattRemoteService) (characteristic : BluetoothUuid)
    (node : GattRemoteCharacteristic) : GattRemoteService :=
  { service with
    gattRemoteCharacteristics :=
      (modifyFirst (fun charIt => decide (charIt.characteristic.uuid = characteristic))
        (fun _ => node) service.gattRemoteCharacteristics) }

/-- The method `findDescriptor`. -/
def findDescriptor (characteristic : GattRemoteCharacteristic) (descriptor : BluetoothUuid) :
    Option GattRemoteDescriptor :=
  characteristic.gattRemoteDescriptors.find?
    (fun descIt => decide (descIt.descriptor.uuid = descriptor))

/-- The method `getProperty`: the value of the property handed to the callback. -/
def getProperty (st : Bluez5ProfileGatt) (address : String) : Bool :=
  (UMap.find st.mDeviceServicesMap address).isSome

/-- The method `discoverServices(callback)`. -/
def discoverServices (st : Bluez5ProfileGatt) : List Effect :=
  if st.mRemoteDeviceServicesMap.length ≠ 0 then [Effect.resultCallback BluetoothError.NONE]
  else [Effect.resultCallback BluetoothError.FAIL]

/-- The method `discoverServices(address, callback)`: the per-device refresh. -/
def discoverServicesAddress (st : Bluez5ProfileGatt) (address : String) :
    Bluez5ProfileGatt × List Effect :=
  let snapshot : UMap String (List BluetoothGattService) :=
    match UMap.find st.mDeviceServicesMap address with
    | some servicesList => UMap.set [] address (servicesList.map (fun devService => devService.service))
    | none => []
  ({ st with mRemoteDeviceServicesMap := snapshot },
   if snapshot.length ≠ 0 then [Effect.resultCallback BluetoothError.NONE]
   else [Effect.resultCallback BluetoothError.FAIL])

/-- The method `getService`. -/
def getService (st : Bluez5ProfileGatt) (address : String) (uuid : BluetoothUuid) :
    BluetoothGattService :=
  match UMap.find st.mRemoteDeviceServicesMap (convertAddressToLowerCase address) with
  | none => {}
  | some services =>
    match services.find? (fun service => decide (service.uuid = uuid)) with
    | some service => service
    | none => {}

/-- The method `getServices`. -/
def getServices (st : Bluez5ProfileGatt) (address : String) : List BluetoothGattService :=
  match UMap.find st.mRemoteDeviceServicesMap (convertAddressToLowerCase address) with
  | none => []
  | some services => services

/-! ## Operation dispatcher -/

/-- The method `readCharacteristic(address, ...)`. -/
def readCharacteristic (env : Env) (st : Bluez5ProfileGatt) (address : String)
    (service : BluetoothUuid) (characteristic : BluetoothUuid) :
    Bluez5ProfileGatt × List Effect :=
  let readCharacteristicValue : BluetoothGattCharacteristic := {}
  match findService st address service with
  | none => (st, [Effect.readCharacteristicCallback BluetoothError.FAIL readCharacteristicValue])
  | some remoteService =>
    match findCharacteristic remoteService characteristic with
    | none => (st, [Effect.readCharacteristicCallback BluetoothError.FAIL readCharacteristicValue])
    | some remoteChar =>
      if remoteChar.characteristic.isPropertySet PROPERTY_READ then
        let charValue := env.characteristicReadValue remoteChar.objectPath
        (setFoundService st address service
          { remoteService with
            service := remoteService.service.updateCharacteristicValue characteristic charValue },
         [Effect.callCharacteristicReadValue remoteChar.objectPath,
          Effect.readCharacteristicCallback BluetoothError.NONE
            { readCharacteristicValue with uuid := characteristic, value := charValue }])
      else (st, [Effect.readCharacteristicCallback BluetoothError.FAIL readCharacteristicValue])

/-- The method `readCharacteristic(connId, ...)`: after the address is resolved the body is that
of the address-addressed overload. -/
def readCharacteristicByConnId (env : Env) (st : Bluez5ProfileGatt) (connId : Nat)
    (service : BluetoothUuid) (characteristics : BluetoothUuid) :
    Bluez5ProfileGatt × List Effect :=
  let deviceAddress := getAddress st connId
  if deviceAddress = "" then (st, [Effect.readCharacteristicCallback BluetoothError.FAIL {}])
  else readCharacteristic env st deviceAddress service characteristics

/-- The method `writeCharacteristic(address, ...)`. -/
def writeCharacteristic (env : Env) (st : Bluez5ProfileGatt) (address : String)
    (service : BluetoothUuid) (characteristic : BluetoothGattCharacteristic) :
    Bluez5ProfileGatt × List Effect :=
  match findService st address service with
  | none => (st, [Effect.resultCallback BluetoothError.FAIL])
  | some remoteService =>
    match findCharacteristic remoteService characteristic.uuid with
    | none => (st, [Effect.resultCallback BluetoothError.FAIL])
    | some remoteChar =>
      if remoteChar.characteristic.isPropertySet PROPERTY_WRITE then
        if env.characteristicWriteValue remoteChar.objectPath characteristic.value then
          (setFoundService st address service
            { remoteService with
              service :=
                remoteService.service.updateCharacteristicValue characteristic.uuid
                  characteristic.value },
           [Effect.callCharacteristicWriteValue remoteChar.objectPath characteristic.value,
            Effect.resultCallback BluetoothError.NONE])
        else
          (st, [Effect.callCharacteristicWriteValue remoteChar.objectPath characteristic.value,
                Effect.resultCallback BluetoothError.FAIL])
      else (st, [Effect.resultCallback BluetoothError.FAIL])

/-- The method `writeCharacteristic(connId, ...)`. -/
def writeCharacteristicByConnId (env : Env) (st : Bluez5ProfileGatt) (connId : Nat)
    (service : BluetoothUuid) (characteristic : BluetoothGattCharacteristic) :
    Bluez5ProfileGatt × List Effect :=
  let deviceAddress := getAddress st connId
  if deviceAddress = "" then (st, [Effect.resultCallback BluetoothError.FAIL])
  else writeCharacteristic env st deviceAddress service characteristic

/-- The method `readDescriptor(address, ...)`. -/
def readDescriptor (env : Env) (st : Bluez5ProfileGatt) (address : String)
    (service : BluetoothUuid) (characteristic : BluetoothUuid) (descriptor : BluetoothUuid) :
    Bluez5ProfileGatt × List Effect :=
  let readDescriptorValue : BluetoothGattDescriptor := {}
  match findService st address service with
  | none => (st, [Effect.readDescriptorCallback BluetoothError.FAIL readDescriptorValue])
  | some remoteService =>
    match findCharacteristic remoteService characteristic with
    | none => (st, [Effect.readDescriptorCallback BluetoothError.FAIL readDescriptorValue])
    | some remoteChar =>
      if remoteChar.characteristic.isPropertySet PROPERTY_READ then
        match findDescriptor remoteChar descriptor with
        | none => (st, [Effect.readDescriptorCallback BluetoothError.FAIL readDescriptorValue])
        | some remoteDesc =>
          let descValue := env.descriptorReadValue remoteDesc.objectPath
          (setFoundService st address service
            (setFoundCharacteristic remoteService characteristic
              { remoteChar with
                characteristic :=
                  remoteChar.characteristic.updateDescriptorValue descriptor descValue }),
           [Effect.callDescriptorReadValue remoteDesc.objectPath,
            Effect.readDescriptorCallback BluetoothError.NONE
              { readDescriptorValue with uuid := descriptor, value := descValue }])
      else (st, [Effect.readDescriptorCallback BluetoothError.FAIL readDescriptorValue])

/-- The method `readDescriptor(connId, ...)`. -/
def readDescriptorByConnId (env : Env) (st : Bluez5ProfileGatt) (connId : Nat)
    (service : BluetoothUuid) (characteristic : BluetoothUuid) (descriptor : BluetoothUuid) :
    Bluez5ProfileGatt × List Effect :=
  let deviceAddress := getAddress st connId
  if deviceAddress = "" then (st, [Effect.readDescriptorCallback BluetoothError.FAIL {}])
  else readDescriptor env st deviceAddress service characteristic descriptor

/-- The method `writeDescriptor(address, ...)`. -/
def writeDescriptor (env : Env) (st : Bluez5ProfileGatt) (address : String)
    (service : BluetoothUuid) (characteristic : BluetoothUuid)
    (descriptor : BluetoothGattDescriptor) : Bluez5ProfileGatt × List Effect :=
  match findService st address service with
  | none => (st, [Effect.resultCallback BluetoothError.FAIL])
  | some remoteService =>
    match findCharacteristic remoteService characteristic with
    | none => (st, [Effect.resultCallback BluetoothError.FAIL])
    | some remoteChar =>
      if remoteChar.characteristic.isPropertySet PROPERTY_WRITE then
        match findDescriptor remoteChar descriptor.uuid with
        | none => (st, [Effect.resultCallback BluetoothError.FAIL])
        | some remoteDesc =>
          if env.descriptorWriteValue remoteDesc.objectPath descriptor.value then
            (setFoundService st address service
              (setFoundCharacteristic remoteService characteristic
                { remoteChar with
                  characteristic :=
                    remoteChar.characteristic.updateDescriptorValue descriptor.uuid
                      descriptor.value }),
             [Effect.callDescriptorWriteValue remoteDesc.objectPath descriptor.value,
              Effect.resultCallback BluetoothError.NONE])
          else
            (st, [Effect.callDescriptorWriteValue remoteDesc.objectPath descriptor.value,
                  Effect.resultCallback BluetoothError.FAIL])
      else (st, [Effect.resultCallback BluetoothError.FAIL])

/-- The method `writeDescriptor(connId, ...)`. -/
def writeDescriptorByConnId (env : Env) (st : Bluez5ProfileGatt) (connId : Nat)
    (service : BluetoothUuid) (characteristic : BluetoothUuid)
    (descriptor : BluetoothGattDescriptor) : Bluez5ProfileGatt × List Effect :=
  let deviceAddress := getAddress st connId
  if deviceAddress = "" then (st, [Effect.resultCallback BluetoothError.FAIL])
  else writeDescriptor env st deviceAddress service characteristic descriptor

/-- The loop of `changeCharacteristicWatchStatus` over the services of the device: `acc.1` is the
local `result`, `acc.2` the remote calls made so far. -/
def watchStatusLoop (env : Env) (service : BluetoothUuid) (characteristic : BluetoothUuid)
    (enabled : Bool) (acc : Bool × List Effect) (serviceIt : GattRemoteService) :
    Bool × List Effect :=
  if serviceIt.service.uuid = service then
    match serviceIt.gattRemoteCharacteristics.find?
        (fun charIt => decide (charIt.characteristic.uuid = characteristic)) with
    | some charIt =>
      if enabled then
        (env.startNotify charIt.objectPath, acc.2 ++ [Effect.callStartNotify charIt.objectPath])
      else
        (env.stopNotify charIt.objectPath, acc.2 ++ [Effect.callStopNotify charIt.objectPath])
    | none => acc
  else acc

/-- The method `changeCharacteristicWatchStatus`. The local `bool result` is declared without an
initialiser; `uninitialised` is the value it happens to hold. -/
def changeCharacteristicWatchStatus (env : Env) (st : Bluez5ProfileGatt) (address : String)
    (service : BluetoothUuid) (characteristic : BluetoothUuid) (enabled : Bool)
    (uninitialised : Bool) : List Effect :=
  match UMap.find st.mDeviceServicesMap address with
  | none => [Effect.resultCallback BluetoothError.FAIL]
  | some servicesList =>
    let outcome :=
      servicesList.foldl (watchStatusLoop env service characteristic enabled) (uninitialised, [])
    outcome.2 ++
      [Effect.resultCallback (if outcome.1 then BluetoothError.NONE else BluetoothError.FAIL)]

/-! ## Identifier allocator -/

/-- The method `nextAppId`: returns the static `uint16_t` counter and post-increments it. -/
def nextAppId (st : Bluez5ProfileGatt) : Nat × Bluez5ProfileGatt :=
  (st.nextAppIdCounter, { st with nextAppIdCounter := (st.nextAppIdCounter + 1) % 65536 })

/-- The method `nextServiceId`. -/
def nextServiceId (st : Bluez5ProfileGatt) : Nat × Bluez5ProfileGatt :=
  (st.nextServiceIdCounter,
   { st with nextServiceIdCounter := (st.nextServiceIdCounter + 1) % 65536 })

/-- The method `nextCharId`. -/
def nextCharId (st : Bluez5ProfileGatt) : Nat × Bluez5ProfileGatt :=
  (st.nextCharIdCounter, { st with nextCharIdCounter := (st.nextCharIdCounter + 1) % 65536 })

/-- The method `nextDescId`. -/
def nextDescId (st : Bluez5ProfileGatt) : Nat × Bluez5ProfileGatt :=
  (st.nextDescIdCounter, { st with nextDescIdCounter := (st.nextDescIdCounter + 1) % 65536 })

/-! ## Registration coordinator -/

/-- The closure handed to `registerLocalApplication`, with what it captured. It runs when the
asynchronous register call completes. -/
inductive PendingRegistration where
  | addService (appId : Nat) (serviceId : Nat) (object : String)
  | removeService
  | addCharacteristic (appId : Nat) (serviceId : Nat) (charId : Nat) (object : String)
  | addDescriptor (descs : Option (Nat × Nat × Nat)) (descId : Nat) (object : String)
  | removeApplication
deriving DecidableEq, Repr

/-- The method `registerLocalApplication`, up to the start of the asynchronous register call. -/
def registerLocalApplication (objPath : String) (unRegisterFirst : Bool) : List Effect :=
  (if unRegisterFirst then [Effect.callUnregisterApplication objPath] else []) ++
    [Effect.callRegisterApplication objPath]

/-- The error that the completion lambda of `registerLocalApplication` hands to the pending
closure: `registered` says whether the register call finished without error. -/
def registrationError (registered : Bool) : BluetoothError :=
  if registered then BluetoothError.NONE else BluetoothError.FAIL

/-! ## Local GATT registry -/

/-- The export root created by `createObjectManagers`. -/
def BLUEZ5_GATT_OBJECT_SERVER_PATH : String := "/org/bluez/gattApp/server"

/-- The application type passed to `addApplication` and `removeApplication`. -/
inductive ApplicationType where
  | CLIENT
  | SERVER
deriving DecidableEq, Repr

/-- The method `addApplication`. -/
def addApplication (st : Bluez5ProfileGatt) (type : ApplicationType) : Nat × Bluez5ProfileGatt :=
  let (appId, st1) := nextAppId st
  match type with
  | ApplicationType.CLIENT => (appId, st1)
  | ApplicationType.SERVER =>
    (appId,
     { st1 with
       mGattLocalApplications := UMap.insert st1.mGattLocalApplications appId {} })

/-- The method `addService`, up to the hand-off to the registration coordinator. -/
def addService (st : Bluez5ProfileGatt) (appId : Nat) (_service : BluetoothGattService) :
    Bluez5ProfileGatt × List Effect × Option PendingRegistration :=
  match st.mObjectManagerGattServer with
  | none => (st, [Effect.addCallback BluetoothError.FAIL (-1)], none)
  | some objPath =>
    let (serviceId, st1) := nextServiceId st
    let serviceObjPath := objPath ++ "/App" ++ toString appId ++ "/Service" ++ toString serviceId
    (st1, Effect.exportObject serviceObjPath :: registerLocalApplication objPath true,
     some (PendingRegistration.addService appId serviceId serviceObjPath))

/-- The lambda `registerCallback` of `addService`. -/
def addServiceRegisterCallback (st : Bluez5ProfileGatt) (appId : Nat) (serviceId : Nat)
    (object : String) (error : BluetoothError) : Bluez5ProfileGatt × List Effect :=
  if error = BluetoothError.NONE then
    match UMap.find st.mGattLocalApplications appId with
    | none => (st, [])
    | some application =>
      ({ st with
         mGattLocalApplications :=
           (UMap.set st.mGattLocalApplications appId
             { application with
               mGattLocalServices :=
                 (UMap.insert application.mGattLocalServices serviceId
                   { mServiceObject := some object, mServiceInterface := true,
                     serviceId := serviceId }) }) },
       [Effect.addCallback BluetoothError.NONE serviceId])
  else (st, [Effect.addCallback BluetoothError.FAIL (-1)])

/-- The method `removeLocalDescriptors`. -/
def removeLocalDescriptors (characteristic : Bluez5GattLocalCharacteristic) :
    Bluez5GattLocalCharacteristic × List Effect :=
  ({ characteristic with mDescriptors := [] },
   characteristic.mDescriptors.filterMap
     (fun it => it.2.mDescObject.map (fun path => Effect.unexportObject path)))

/-- The body of the loop of `removeLocalCharacteristics` for one characteristic. -/
def removeLocalCharacteristic (characteristic : Bluez5GattLocalCharacteristic) : List Effect :=
  (removeLocalDescriptors characteristic).2 ++
    (match characteristic.mCharObject with
     | some path => [Effect.unexportObject path]
     | none => [])

/-- The method `removeLocalCharacteristics`. -/
def removeLocalCharacteristics (service : Bluez5GattLocalService) :
    Bluez5GattLocalService × List Effect :=
  ({ service with mCharacteristics := [] },
   (service.mCharacteristics.map (fun it => removeLocalCharacteristic it.2)).flatten)

/-- The method `removeLocalServices`. -/
def removeLocalServices (service : Bluez5GattLocalService) :
    Bluez5GattLocalService × List Effect :=
  match service.mServiceObject with
  | none => (service, [])
  | some path =>
    let cleared := removeLocalCharacteristics service
    ({ cleared.1 with mServiceInterface := false, mServiceObject := none },
     cleared.2 ++ [Effect.unexportObject path])

/-- The method `removeService`, up to the hand-off to the registration coordinator. -/
def removeService (st : Bluez5ProfileGatt) (appId : Nat) (serviceId : Nat) :
    Bluez5ProfileGatt × List Effect × Option PendingRegistration :=
  match st.mObjectManagerGattServer with
  | none => (st, [Effect.resultCallback BluetoothError.FAIL], none)
  | some objPath =>
    match UMap.find st.mGattLocalApplications appId with
    | none => (st, [Effect.resultCallback BluetoothError.FAIL], none)
    | some application =>
      match UMap.find application.mGattLocalServices serviceId with
      | none => (st, [Effect.resultCallback BluetoothError.FAIL], none)
      | some service =>
        ({ st with
           mGattLocalApplications :=
             (UMap.set st.mGattLocalApplications appId
               { application with
                 mGattLocalServices := UMap.erase application.mGattLocalServices serviceId }) },
         (removeLocalServices service).2 ++ registerLocalApplication objPath true,
         some PendingRegistration.removeService)

/-- The lambda `registerCallback` of `removeService`. -/
def removeServiceRegisterCallback (st : Bluez5ProfileGatt) (error : BluetoothError) :
    Bluez5ProfileGatt × List Effect :=
  (st, [Effect.resultCallback error])

/-- The method `getLocalDescriptorList`: the descriptor map of the characteristic, or `none` for
a null pointer. -/
def getLocalDescriptorList (st : Bluez5ProfileGatt) (appId : Nat) (serviceId : Nat)
    (charId : Nat) : Option (UMap Nat Bluez5GattLocalDescriptor) :=
  match UMap.find st.mGattLocalApplications appId with
  | none => none
  | some application =>
    match UMap.find application.mGattLocalServices serviceId with
    | none => none
    | some service =>
      match UMap.find service.mCharacteristics charId with
      | none => none
      | some characteristic => some characteristic.mDescriptors

/-- The method `addDescriptor`, up to the hand-off to the registration coordinator.
`skeletonAllocated` and `objectAllocated` say whether the two allocations returned non-null.
The result is `none` when the source builds a `std::string` from the null path of an absent
export root. -/
def addDescriptor (st : Bluez5ProfileGatt) (appId : Nat) (serviceId : Nat)
    (_descriptor : BluetoothGattDescriptor) (skeletonAllocated : Bool) (objectAllocated : Bool) :
    Option (Bluez5ProfileGatt × List Effect × Option PendingRegistration) :=
  let descs := getLocalDescriptorList st appId serviceId st.mLastCharId
  let notFound : List Effect :=
    if descs.isNone then [Effect.addCallback BluetoothError.PARAM_INVALID (-1)] else []
  if !skeletonAllocated then
    some (st, notFound ++ [Effect.addCallback BluetoothError.NOMEM (-1)], none)
  else
    let (descId, st1) := nextDescId st
    match st.mObjectManagerGattServer with
    | none => none
    | some objPath =>
      let serviceObjPath :=
        objPath ++ "/App" ++ toString appId ++ "/Service" ++ toString serviceId
      let charObjPath := serviceObjPath ++ "/Char" ++ toString st.mLastCharId
      let descObjPath := charObjPath ++ "/Desc" ++ toString descId
      if !objectAllocated then
        some (st1, notFound ++ [Effect.addCallback BluetoothError.FAIL (-1)], none)
      else
        some (st1,
          notFound ++ Effect.exportObject descObjPath :: registerLocalApplication objPath true,
          some (PendingRegistration.addDescriptor
            (descs.map (fun _ => (appId, serviceId, st.mLastCharId))) descId descObjPath))

/-- The lambda `registerCallback` of `addDescriptor`. `descs` is the captured pointer: `none` for
a null pointer, otherwise the place of the descriptor map in the registry. The result is `none`
when the source inserts through a null pointer or through a pointer whose map is gone. -/
def addDescriptorRegisterCallback (st : Bluez5ProfileGatt) (descs : Option (Nat × Nat × Nat))
    (descId : Nat) (object : String) (error : BluetoothError) :
    Option (Bluez5ProfileGatt × List Effect) :=
  if error = BluetoothError.NONE then
    match descs with
    | none => none
    | some (appId, serviceId, charId) =>
      match UMap.find st.mGattLocalApplications appId with
      | none => none
      | some application =>
        match UMap.find application.mGattLocalServices serviceId with
        | none => none
        | some service =>
          match UMap.find service.mCharacteristics charId with
          | none => none
          | some characteristic =>
            some
              ({ st with
                 mGattLocalApplications :=
                   (UMap.set st.mGattLocalApplications appId
                     { application with
                       mGattLocalServices :=
                         (UMap.set application.mGattLocalServices serviceId
                           { service with
                             mCharacteristics :=
                               (UMap.set service.mCharacteristics charId
                                 { characteristic with
                                   mDescriptors :=
                                     (UMap.insert characteristic.mDescriptors descId
                                       { mDescObject := some object,
                                         mInterface := true }) }) }) }) },
               [Effect.addCallback BluetoothError.NONE descId])
  else some (st, [Effect.addCallback BluetoothError.FAIL (-1)])

/-! ## Event sequences of the remote mirror -/

/-- The profile right after construction. -/
def initial : Bluez5ProfileGatt := {}

/-- The method `createObjectManagers`. -/
def createObjectManagers (st : Bluez5ProfileGatt) : Bluez5ProfileGatt :=
  { st with mObjectManagerGattServer := some BLUEZ5_GATT_OBJECT_SERVER_PATH }

/-- A service-added event (the node built by `createRemoteGattService`, handed to
`addRemoteServiceToDevice`) or a service-removed event (`removeRemoteGattService`). -/
inductive ServiceEvent where
  | added (gattService : GattRemoteService)
  | removed (serviceObjectPath : String)
deriving DecidableEq, Repr

/-- The handler of one service event. -/
def serviceEventStep (env : Env) (st : Bluez5ProfileGatt) :
    ServiceEvent → Bluez5ProfileGatt × List Effect
  | ServiceEvent.added gattService => addRemoteServiceToDevice env st gattService
  | ServiceEvent.removed serviceObjectPath => removeRemoteGattService env st serviceObjectPath

/-- The handlers of a sequence of service events, run in order; the effects are concatenated. -/
def runServiceEvents (env : Env) (st : Bluez5ProfileGatt) :
    List ServiceEvent → Bluez5ProfileGatt × List Effect
  | [] => (st, [])
  | e :: rest =>
    ((runServiceEvents env (serviceEventStep env st e).1 rest).1,
     (serviceEventStep env st e).2 ++ (runServiceEvents env (serviceEventStep env st e).1 rest).2)

/-- The key of `mDeviceServicesMap` that the handler of the event works on: the lower-cased
address of the device the event resolves to, if it resolves. -/
def ServiceEvent.deviceKey (env : Env) : ServiceEvent → Option String
  | ServiceEvent.added gattService =>
    (env.findDeviceByObjectPath gattService.parentObjectPath).map convertAddressToLowerCase
  | ServiceEvent.removed serviceObjectPath =>
    (env.findDeviceByObjectPath (splitInPathAndName serviceObjectPath).1).map
      convertAddressToLowerCase

/-- The event is the removal of the service with object path `path`. -/
def ServiceEvent.isRemovalOf (path : String) : ServiceEvent → Bool
  | ServiceEvent.added _ => false
  | ServiceEvent.removed serviceObjectPath => decide (serviceObjectPath = path)

/-- At least one service-added event of the sequence has no later service-removed event for the
same object path. -/
def hasUnmatchedAdd : List ServiceEvent → Bool
  | [] => false
  | ServiceEvent.added gattService :: rest =>
    !(rest.any (ServiceEvent.isRemovalOf gattService.objectPath)) || hasUnmatchedAdd rest
  | ServiceEvent.removed _ :: rest => hasUnmatchedAdd rest

/-- Until the service `g` is removed, no service with its uuid or its object path is added. -/
def noClashUntilRemoved (g : GattRemoteService) : List ServiceEvent → Bool
  | [] => true
  | ServiceEvent.added h :: rest =>
    decide (h.service.uuid ≠ g.service.uuid) && decide (h.objectPath ≠ g.objectPath) &&
      noClashUntilRemoved g rest
  | ServiceEvent.removed serviceObjectPath :: rest =>
    decide (serviceObjectPath = g.objectPath) || noClashUntilRemoved g rest

/-- No service is added while a service added earlier and not yet removed has the same uuid or
the same object path. -/
def freshAdds : List ServiceEvent → Bool
  | [] => true
  | ServiceEvent.added g :: rest => noClashUntilRemoved g rest && freshAdds rest
  | ServiceEvent.removed _ :: rest => freshAdds rest

/-- The number of services mirrored for the device with the given key. -/
def servicesCount (st : Bluez5ProfileGatt) (key : String) : Nat :=
  match UMap.find st.mDeviceServicesMap key with
  | none => 0
  | some servicesList => servicesList.length

/-- The values of the CONNECTED property that the effects announce for the device, in order. -/
def connectedNotifications (key : String) : List Effect → List Bool
  | [] => []
  | Effect.propertiesChanged address connected :: rest =>
    if address = key then connected :: connectedNotifications key rest
    else connectedNotifications key rest
  | _ :: rest => connectedNotifications key rest

/-- The list alternates `expected`, `!expected`, `expected`, ... -/
def alternates : Bool → List Bool → Bool
  | _, [] => true
  | expected, b :: rest => decide (b = expected) && alternates (!expected) rest

/-! ## Definitions used in the statements and proofs about service events -/

/-- The services mirrored for the device with the given key; empty when it has no entry. -/
def servicesOf (st : Bluez5ProfileGatt) (key : String) : List GattRemoteService :=
  match UMap.find st.mDeviceServicesMap key with
  | none => []
  | some servicesList => servicesList

/-- What the handler of a service event does to the service list of the device the event
resolves to. -/
def entryStep (l : List GattRemoteService) : ServiceEvent → List GattRemoteService
  | ServiceEvent.added g =>
    if l.any (fun d => decide (d.service.uuid = g.service.uuid)) then l else l ++ [g]
  | ServiceEvent.removed p => l.eraseP (fun d => decide (d.objectPath = p))

/-- No entry of `mDeviceServicesMap` holds an empty service list. -/
def NoEmptyEntry (st : Bluez5ProfileGatt) : Prop :=
  ∀ key, UMap.find st.mDeviceServicesMap key ≠ some []

/-- The CONNECTED notifications due when the service list of a device changes from `before` to
`after`: `true` when it becomes non-empty, `false` when it becomes empty. -/
def connectedDue (before after : List GattRemoteService) : List Bool :=
  if before = [] ∧ after ≠ [] then [true]
  else if before ≠ [] ∧ after = [] then [false]
  else []

/-- Two mirrored services differ in their object path and in their uuid. -/
def DistinctServices (a b : GattRemoteService) : Prop :=
  a.objectPath ≠ b.objectPath ∧ a.service.uuid ≠ b.service.uuid

/-! ## Concrete inputs -/

/-- A remote stack that knows one device, at `/org/bluez/hci0/dev_AA_BB`, with address `AA:BB`, and
whose reads return no bytes and whose writes and notify calls succeed. -/
def exampleEnv : Env :=
  { findDeviceByObjectPath := fun path =>
      if path = "/org/bluez/hci0/dev_AA_BB" then some "AA:BB" else none
    findDevice := fun address =>
      if convertAddressToLowerCase address = "aa:bb" then some "AA:BB" else none
    characteristicReadValue := fun _ => []
    characteristicWriteValue := fun _ _ => true
    descriptorReadValue := fun _ => []
    descriptorWriteValue := fun _ _ => true
    startNotify := fun _ => true
    stopNotify := fun _ => true }

/-- A service of the device, uuid `1801`. -/
def exampleServiceA : GattRemoteService :=
  { parentObjectPath := "/org/bluez/hci0/dev_AA_BB"
    objectPath := "/org/bluez/hci0/dev_AA_BB/service0001"
    service := { uuid := "1801" } }

/-- A second service object of the device with the same uuid `1801` at another path. -/
def exampleServiceB : GattRemoteService :=
  { parentObjectPath := "/org/bluez/hci0/dev_AA_BB"
    objectPath := "/org/bluez/hci0/dev_AA_BB/service0002"
    service := { uuid := "1801" } }

/-- A service of the device with another uuid, `180d`. -/
def exampleServiceC : GattRemoteService :=
  { parentObjectPath := "/org/bluez/hci0/dev_AA_BB"
    objectPath := "/org/bluez/hci0/dev_AA_BB/service0003"
    service := { uuid := "180d" } }

/-- A characteristic of `exampleServiceA`, uuid `2a05`, that advertises notify only. -/
def exampleNotifyOnlyCharacteristic : GattRemoteCharacteristic :=
  { parentObjectPath := "/org/bluez/hci0/dev_AA_BB/service0001"
    objectPath := "/org/bluez/hci0/dev_AA_BB/service0001/char0002"
    characteristic := { uuid := "2a05", properties := PROPERTY_NOTIFY } }

/-- The mirror after the device announced `exampleServiceA` and its notify-only characteristic,
with connection id 1 mapped to the device. -/
def exampleNotifyOnlyState : Bluez5ProfileGatt :=
  { addRemoteCharacteristicToService exampleEnv
      (addRemoteServiceToDevice exampleEnv initial exampleServiceA).1
      exampleNotifyOnlyCharacteristic with
    mConnectedDevices := [(1, "aa:bb")] }

/-- The node of `exampleServiceA` in `exampleNotifyOnlyState`: the characteristic is in the list
of the service and in its aggregated snapshot. -/
def exampleServiceAWithCharacteristic : GattRemoteService :=
  { exampleServiceA with
    service := { uuid := "1801", characteristics := [exampleNotifyOnlyCharacteristic.characteristic] }
    gattRemoteCharacteristics := [exampleNotifyOnlyCharacteristic] }

/-! ## Reachable states of the mirror -/

/-- The states the profile can be in, as far as `mDeviceServicesMap` goes: the state after
construction, closed under every method that changes the mirror. A service node enters through
`createRemoteGattService`, which hands a node without characteristics to
`addRemoteServiceToDevice`. Every other method (connection registry, local registry, the two
refreshes, `changeCharacteristicWatchStatus`, ...) leaves `mDeviceServicesMap` as it is and is
covered by `other`. The answers of the remote stack may differ from step to step. -/
inductive Reachable : Bluez5ProfileGatt → Prop where
  | initial : Reachable initial
  | addRemoteServiceToDevice (env : Env) (st : Bluez5ProfileGatt) (g : GattRemoteService) :
      Reachable st → g.gattRemoteCharacteristics = [] → g.service.characteristics = [] →
      Reachable (addRemoteServiceToDevice env st g).1
  | removeRemoteGattService (env : Env) (st : Bluez5ProfileGatt) (serviceObjectPath : String) :
      Reachable st → Reachable (removeRemoteGattService env st serviceObjectPath).1
  | addRemoteCharacteristicToService (env : Env) (st : Bluez5ProfileGatt)
      (c : GattRemoteCharacteristic) :
      Reachable st → Reachable (addRemoteCharacteristicToService env st c)
  | removeRemoteGattCharacteristic (env : Env) (st : Bluez5ProfileGatt)
      (characteristicObjectPath : String) :
      Reachable st → Reachable (removeRemoteGattCharacteristic env st characteristicObjectPath)
  | addRemoteDescriptorToCharacteristic (env : Env) (st : Bluez5ProfileGatt)
      (d : GattRemoteDescriptor) (result : Bluez5ProfileGatt × List Effect) :
      Reachable st → addRemoteDescriptorToCharacteristic env st d = some result →
      Reachable result.1
  | readCharacteristic (env : Env) (st : Bluez5ProfileGatt) (address : String)
      (service characteristic : BluetoothUuid) :
      Reachable st → Reachable (readCharacteristic env st address service characteristic).1
  | writeCharacteristic (env : Env) (st : Bluez5ProfileGatt) (address : String)
      (service : BluetoothUuid) (characteristic : BluetoothGattCharacteristic) :
      Reachable st → Reachable (writeCharacteristic env st address service characteristic).1
  | readDescriptor (env : Env) (st : Bluez5ProfileGatt) (address : String)
      (service characteristic descriptor : BluetoothUuid) :
      Reachable st →
      Reachable (readDescriptor env st address service characteristic descriptor).1
  | writeDescriptor (env : Env) (st : Bluez5ProfileGatt) (address : String)
      (service characteristic : BluetoothUuid) (descriptor : BluetoothGattDescriptor) :
      Reachable st →
      Reachable (writeDescriptor env st address service characteristic descriptor).1
  | other (st st' : Bluez5ProfileGatt) :
      Reachable st → st'.mDeviceServicesMap = st.mDeviceServicesMap → Reachable st'

/-- Every characteristic in the list of the service has a copy with the same uuid in the
aggregated snapshot of the service. -/
def ServiceSynced (s : GattRemoteService) : Prop :=
  ∀ rc ∈ s.gattRemoteCharacteristics,
    rc.characteristic.uuid ∈ s.service.characteristics.map (fun c => c.uuid)

/-- The keys of the index are lower-cased addresses and every mirrored service is synced with
its snapshot. -/
def IndexInv (m : UMap String (List GattRemoteService)) : Prop :=
  ∀ p ∈ m, convertAddressToLowerCase p.1 = p.1 ∧ ∀ s ∈ p.2, ServiceSynced s

/-- The value cached for the characteristic with the given uuid in a service value handed to a
caller. -/
def cachedCharacteristicValue (service : BluetoothGattService) (uuid : BluetoothUuid) :
    Option BluetoothGattValue :=
  (service.characteristics.find? (fun c => decide (c.uuid = uuid))).map (fun c => c.value)

/-- A characteristic node of `exampleServiceA`, uuid `2a05`, readable and writable, as handed
to `addRemoteCharacteristicToService`. The flag loop of `createRemoteGattCharacteristic` reads
the first flag only, so it builds nodes with at most one property bit; the states built through
it are `exampleWriteOnlyState` and `exampleReadOnlyState`. -/
def exampleWritableCharacteristic : GattRemoteCharacteristic :=
  { parentObjectPath := "/org/bluez/hci0/dev_AA_BB/service0001"
    objectPath := "/org/bluez/hci0/dev_AA_BB/service0001/char0002"
    characteristic := { uuid := "2a05", properties := PROPERTY_READ ||| PROPERTY_WRITE } }

/-- The mirror after the device announced `exampleServiceA` and its readable and writable
characteristic `2a05`. -/
def exampleWritableState : Bluez5ProfileGatt :=
  addRemoteCharacteristicToService exampleEnv
    (addRemoteServiceToDevice exampleEnv initial exampleServiceA).1 exampleWritableCharacteristic

/-- A descriptor of the characteristic `2a05`, uuid `2902`. -/
def exampleDescriptor : GattRemoteDescriptor :=
  { parentObjectPath := "/org/bluez/hci0/dev_AA_BB/service0001/char0002"
    objectPath := "/org/bluez/hci0/dev_AA_BB/service0001/char0002/desc0004"
    descriptor := { uuid := "2902" } }

/-- The mirror after the device also announced the descriptor `2902` of the characteristic. -/
def exampleDescriptorState : Bluez5ProfileGatt :=
  match addRemoteDescriptorToCharacteristic exampleEnv exampleWritableState exampleDescriptor with
  | some result => result.1
  | none => exampleWritableState

/-- The value cached for the descriptor with uuid `descriptor` of the characteristic with uuid
`characteristic` in a service value handed to a caller. -/
def cachedDescriptorValue (service : BluetoothGattService) (characteristic : BluetoothUuid)
    (descriptor : BluetoothUuid) : Option BluetoothGattValue :=
  match service.characteristics.find? (fun c => decide (c.uuid = characteristic)) with
  | none => none
  | some c => (c.descriptors.find? (fun d => decide (d.uuid = descriptor))).map (fun d => d.value)

/-! ## Call sequences on the local registry -/

/-- A call of `addService` or `removeService` together with the outcome of the registration
round trip it starts (`registered`: the register call finished without error). -/
inductive ServiceCall where
  | addService (appId : Nat) (service : BluetoothGattService) (registered : Bool)
  | removeService (appId : Nat) (serviceId : Nat) (registered : Bool)
deriving DecidableEq, Repr

/-- A call run to the completion of its round trip: the new state, the effects, and the service
id that `addService` took from `nextServiceId`, if it took one. -/
def serviceCallStep (st : Bluez5ProfileGatt) :
    ServiceCall → Bluez5ProfileGatt × List Effect × Option Nat
  | ServiceCall.addService appId service registered =>
    match addService st appId service with
    | (st1, effects, some (PendingRegistration.addService capturedAppId serviceId object)) =>
      ((addServiceRegisterCallback st1 capturedAppId serviceId object
          (registrationError registered)).1,
       effects ++
         (addServiceRegisterCallback st1 capturedAppId serviceId object
           (registrationError registered)).2,
       some serviceId)
    | (st1, effects, _) => (st1, effects, none)
  | ServiceCall.removeService appId serviceId registered =>
    match removeService st appId serviceId with
    | (st1, effects, some _) =>
      ((removeServiceRegisterCallback st1 (registrationError registered)).1,
       effects ++ (removeServiceRegisterCallback st1 (registrationError registered)).2, none)
    | (st1, effects, none) => (st1, effects, none)

/-- The service ids issued by the `addService` calls of a sequence, in order. -/
def issuedServiceIds (st : Bluez5ProfileGatt) : List ServiceCall → List Nat
  | [] => []
  | call :: rest =>
    match (serviceCallStep st call).2.2 with
    | some serviceId => serviceId :: issuedServiceIds (serviceCallStep st call).1 rest
    | none => issuedServiceIds (serviceCallStep st call).1 rest

/-- The number of `addService` calls in a sequence. -/
def countAddService : List ServiceCall → Nat
  | [] => 0
  | ServiceCall.addService _ _ _ :: rest => countAddService rest + 1
  | ServiceCall.removeService _ _ _ :: rest => countAddService rest

/-- The profile with its export root and one server application, whose id is 1. -/
def exampleServerState : Bluez5ProfileGatt :=
  (addApplication (createObjectManagers initial) ApplicationType.SERVER).2

/-- The server application 1 after its first `addService` completed with success: it owns the
service 1 and no characteristic has been added. -/
def exampleServiceAddedState : Bluez5ProfileGatt :=
  (serviceCallStep exampleServerState (ServiceCall.addService 1 {} true)).1

/-! ## Connection registry: connecting -/

/-- The method `connectGatt`, up to the call of the `connect` method of the device. The third
component is the lambda `isConnectCallback` handed to the device, with the application id and the
lower-cased address it captured, or `none` when no connect was started. -/
def connectGatt (env : Env) (st : Bluez5ProfileGatt) (appId : Nat) (address : String) :
    Bluez5ProfileGatt × List Effect × Option (Nat × String) :=
  match env.findDevice address with
  | none => (st, [Effect.connectCallback BluetoothError.PARAM_INVALID (-1)], none)
  | some deviceAddress => (st, [], some (appId, convertAddressToLowerCase deviceAddress))

/-- The lambda `isConnectCallback` of `connectGatt`, run by the device with the outcome of the
connect. -/
def isConnectCallback (st : Bluez5ProfileGatt) (appId : Nat) (lowerCaseAddress : String)
    (error : BluetoothError) : Bluez5ProfileGatt × List Effect :=
  if error ≠ BluetoothError.NONE then (st, [Effect.connectCallback error (-1)])
  else
    match UMap.find st.mConnectedDevices appId with
    | none =>
      ({ st with mConnectedDevices := UMap.insert st.mConnectedDevices appId lowerCaseAddress },
       [Effect.connectCallback BluetoothError.NONE appId])
    | some _ => (st, [])

/-- A call of `connectGatt` together with the outcome `error` of the connect of the device, run
until the device has reported the outcome. -/
def connectGattCompleted (env : Env) (st : Bluez5ProfileGatt) (appId : Nat) (address : String)
    (error : BluetoothError) : Bluez5ProfileGatt × List Effect :=
  match connectGatt env st appId address with
  | (st1, effects, some (capturedAppId, lowerCaseAddress)) =>
    ((isConnectCallback st1 capturedAppId lowerCaseAddress error).1,
     effects ++ (isConnectCallback st1 capturedAppId lowerCaseAddress error).2)
  | (st1, effects, none) => (st1, effects)

/-- The number of invocations of the connect callback among the effects. -/
def connectCallbackCount : List Effect → Nat
  | [] => 0
  | Effect.connectCallback _ _ :: rest => connectCallbackCount rest + 1
  | _ :: rest => connectCallbackCount rest

/-! ## Local GATT registry: characteristics and applications -/

/-- The `serviceObjPath` built by `addService`, `addCharacteristic` and `addDescriptor`. -/
def localServiceObjPath (objPath : String) (appId : Nat) (serviceId : Nat) : String :=
  objPath ++ "/App" ++ toString appId ++ "/Service" ++ toString serviceId

/-- The `charObjPath` built by `addCharacteristic` and `addDescriptor`. -/
def localCharObjPath (objPath : String) (appId : Nat) (serviceId : Nat) (charId : Nat) : String :=
  localServiceObjPath objPath appId serviceId ++ "/Char" ++ toString charId

/-- The `descObjPath` built by `addDescriptor`. -/
def localDescObjPath (objPath : String) (appId : Nat) (serviceId : Nat) (charId : Nat)
    (descId : Nat) : String :=
  localCharObjPath objPath appId serviceId charId ++ "/Desc" ++ toString descId

/-- The method `addCharacteristic`, up to the hand-off to the registration coordinator.
`skeletonAllocated`, `objectAllocated` and `builderAllocated` say whether the three allocations
returned non-null. The exported characteristic declares `serviceObjPath` as its service
(`bluez_gatt_characteristic1_set_service`). The result is `none` when the source builds a
`std::string` from the null path of an absent export root. -/
def addCharacteristic (st : Bluez5ProfileGatt) (appId : Nat) (serviceId : Nat)
    (_characteristic : BluetoothGattCharacteristic) (skeletonAllocated : Bool)
    (objectAllocated : Bool) (builderAllocated : Bool) :
    Option (Bluez5ProfileGatt × List Effect × Option PendingRegistration) :=
  match UMap.find st.mGattLocalApplications appId with
  | none => some (st, [Effect.addCallback BluetoothError.PARAM_INVALID (-1)], none)
  | some application =>
    match UMap.find application.mGattLocalServices serviceId with
    | none => some (st, [Effect.addCallback BluetoothError.PARAM_INVALID (-1)], none)
    | some _ =>
      if !skeletonAllocated then
        some (st, [Effect.addCallback BluetoothError.NOMEM (-1)], none)
      else
        let (charId, st1) := nextCharId st
        match st.mObjectManagerGattServer with
        | none => none
        | some objPath =>
          let charObjPath := localCharObjPath objPath appId serviceId charId
          if !objectAllocated then
            some (st1, [Effect.addCallback BluetoothError.NOMEM (-1)], none)
          else if !builderAllocated then
            some (st1, [Effect.addCallback BluetoothError.NOMEM (-1)], none)
          else
            some (st1, Effect.exportObject charObjPath :: registerLocalApplication objPath true,
              some (PendingRegistration.addCharacteristic appId serviceId charId charObjPath))

/-- The lambda `registerCallback` of `addCharacteristic`. It captured a reference to the
characteristic map of the service `serviceId` of the application `appId`; the result is `none`
when that map is gone. -/
def addCharacteristicRegisterCallback (st : Bluez5ProfileGatt) (appId : Nat) (serviceId : Nat)
    (charId : Nat) (object : String) (error : BluetoothError) :
    Option (Bluez5ProfileGatt × List Effect) :=
  if error = BluetoothError.NONE then
    match UMap.find st.mGattLocalApplications appId with
    | none => none
    | some application =>
      match UMap.find application.mGattLocalServices serviceId with
      | none => none
      | some service =>
        some
          ({ st with
             mGattLocalApplications :=
               (UMap.set st.mGattLocalApplications appId
                 { application with
                   mGattLocalServices :=
                     (UMap.set application.mGattLocalServices serviceId
                       { service with
                         mCharacteristics :=
                           (UMap.insert service.mCharacteristics charId
                             { mCharObject := some object, mInterface := true }) }) })
             mLastCharId := charId },
           [Effect.addCallback BluetoothError.NONE charId])
  else some (st, [Effect.addCallback BluetoothError.FAIL (-1)])

/-- The method `removeApplication`, up to the hand-off to the registration coordinator. The
result is `none` when, for a server application, the source builds a `std::string` from the null
path of an absent export root. -/
def removeApplication (st : Bluez5ProfileGatt) (appId : Nat) (type : ApplicationType) :
    Option (Bluez5ProfileGatt × List Effect × Option PendingRegistration) :=
  match type with
  | ApplicationType.CLIENT => some (st, [], none)
  | ApplicationType.SERVER =>
    match st.mObjectManagerGattServer with
    | none => none
    | some objPath =>
      match UMap.find st.mGattLocalApplications appId with
      | none => some (st, [], none)
      | some application =>
        some
          ({ st with
             mGattLocalApplications :=
               (UMap.set st.mGattLocalApplications appId
                 { application with
                   mGattLocalServices :=
                     (application.mGattLocalServices.map
                       (fun serviceIt => (serviceIt.1, (removeLocalServices serviceIt.2).1))) }) },
           (application.mGattLocalServices.map
               (fun serviceIt => (removeLocalServices serviceIt.2).2)).flatten ++
             registerLocalApplication objPath true,
           some PendingRegistration.removeApplication)

/-- The pending closure run at the completion of its registration round trip with the error
handed over by `registerLocalApplication`. -/
def completeRegistration (st : Bluez5ProfileGatt) (pending : PendingRegistration)
    (error : BluetoothError) : Option (Bluez5ProfileGatt × List Effect) :=
  match pending with
  | PendingRegistration.addService appId serviceId object =>
    some (addServiceRegisterCallback st appId serviceId object error)
  | PendingRegistration.removeService => some (removeServiceRegisterCallback st error)
  | PendingRegistration.addCharacteristic appId serviceId charId object =>
    addCharacteristicRegisterCallback st appId serviceId charId object error
  | PendingRegistration.addDescriptor descs descId object =>
    addDescriptorRegisterCallback st descs descId object error
  | PendingRegistration.removeApplication => some (st, [])

/-- The connection registry after `connectGatt(1, "AA:BB")` succeeded from the state after
construction: the application id 1 is mapped to `aa:bb`. -/
def exampleConnectedState : Bluez5ProfileGatt :=
  (connectGattCompleted exampleEnv initial 1 "AA:BB" BluetoothError.NONE).1

/-- The state after a sequence of `addService` and `removeService` calls, each run to the
completion of its round trip. -/
def runServiceCalls (st : Bluez5ProfileGatt) : List ServiceCall → Bluez5ProfileGatt
  | [] => st
  | call :: rest => runServiceCalls (serviceCallStep st call).1 rest

/-- The application 1 owns the service 1 and `addService` has since been called 65535 more times
with a failing round trip: the counter of `nextServiceId` has wrapped. -/
def exampleWrappedServiceState : Bluez5ProfileGatt :=
  runServiceCalls exampleServiceAddedState
    (List.replicate 65535 (ServiceCall.addService 1 {} false))

/-! ## Reachable states of the local registry -/

/-- The states the profile can be in, as far as the local registry and the export root go, each
with the closures whose registration round trip has not completed yet: the state after
construction, closed under every method that changes the registry, the export root or the
identifier counters, and under the completion of a pending round trip (with either outcome).
Every other method leaves `mGattLocalApplications` and `mObjectManagerGattServer` as they are and
is covered by `other`. -/
inductive RegistryReachable : Bluez5ProfileGatt → List PendingRegistration → Prop where
  | initial : RegistryReachable initial []
  | createObjectManagers (st : Bluez5ProfileGatt) (ps : List PendingRegistration) :
      RegistryReachable st ps → RegistryReachable (createObjectManagers st) ps
  | addApplication (st : Bluez5ProfileGatt) (ps : List PendingRegistration)
      (type : ApplicationType) :
      RegistryReachable st ps → RegistryReachable (addApplication st type).2 ps
  | addService (st : Bluez5ProfileGatt) (ps : List PendingRegistration) (appId : Nat)
      (service : BluetoothGattService) :
      RegistryReachable st ps →
      RegistryReachable (addService st appId service).1
        (ps ++ (addService st appId service).2.2.toList)
  | removeService (st : Bluez5ProfileGatt) (ps : List PendingRegistration)
      (appId serviceId : Nat) :
      RegistryReachable st ps →
      RegistryReachable (removeService st appId serviceId).1
        (ps ++ (removeService st appId serviceId).2.2.toList)
  | addCharacteristic (st : Bluez5ProfileGatt) (ps : List PendingRegistration)
      (appId serviceId : Nat) (characteristic : BluetoothGattCharacteristic)
      (skeletonAllocated objectAllocated builderAllocated : Bool)
      (result : Bluez5ProfileGatt × List Effect × Option PendingRegistration) :
      RegistryReachable st ps →
      addCharacteristic st appId serviceId characteristic skeletonAllocated objectAllocated
        builderAllocated = some result →
      RegistryReachable result.1 (ps ++ result.2.2.toList)
  | addDescriptor (st : Bluez5ProfileGatt) (ps : List PendingRegistration)
      (appId serviceId : Nat) (descriptor : BluetoothGattDescriptor)
      (skeletonAllocated objectAllocated : Bool)
      (result : Bluez5ProfileGatt × List Effect × Option PendingRegistration) :
      RegistryReachable st ps →
      addDescriptor st appId serviceId descriptor skeletonAllocated objectAllocated =
        some result →
      RegistryReachable result.1 (ps ++ result.2.2.toList)
  | removeApplication (st : Bluez5ProfileGatt) (ps : List PendingRegistration) (appId : Nat)
      (type : ApplicationType)
      (result : Bluez5ProfileGatt × List Effect × Option PendingRegistration) :
      RegistryReachable st ps → removeApplication st appId type = some result →
      RegistryReachable result.1 (ps ++ result.2.2.toList)
  | completed (st : Bluez5ProfileGatt) (ps : List PendingRegistration)
      (pending : PendingRegistration) (registered : Bool)
      (result : Bluez5ProfileGatt × List Effect) :
      RegistryReachable st ps → pending ∈ ps →
      completeRegistration st pending (registrationError registered) = some result →
      RegistryReachable result.1 (ps.erase pending)
  | other (st st' : Bluez5ProfileGatt) (ps : List PendingRegistration) :
      RegistryReachable st ps →
      st'.mGattLocalApplications = st.mGattLocalApplications →
      st'.mObjectManagerGattServer = st.mObjectManagerGattServer → RegistryReachable st' ps

/-- The export root exists as soon as a round trip is pending or an application owns a
service. -/
def RootInv (st : Bluez5ProfileGatt) (ps : List PendingRegistration) : Prop :=
  st.mObjectManagerGattServer.isSome = true ∨
    (ps = [] ∧ ∀ p ∈ st.mGattLocalApplications, p.2.mGattLocalServices = [])

/-! ## Teardown of a local service -/

/-- The object paths that the effects unexport, in order. -/
def unexportedPaths : List Effect → List String
  | [] => []
  | Effect.unexportObject objectPath :: rest => objectPath :: unexportedPaths rest
  | _ :: rest => unexportedPaths rest

/-- The exported objects of the descriptors of a local characteristic. -/
def descriptorObjects (characteristic : Bluez5GattLocalCharacteristic) : List String :=
  characteristic.mDescriptors.filterMap (fun it => it.2.mDescObject)

/-- Every exported object of the subtree of a local service, parents first: the object of the
service, then for each characteristic its object followed by the objects of its descriptors.
These are the objects a teardown of the service has to unexport. -/
def subtreeObjects (service : Bluez5GattLocalService) : List String :=
  service.mServiceObject.toList ++
    (service.mCharacteristics.map
      (fun it => it.2.mCharObject.toList ++ descriptorObjects it.2)).flatten

/-- In the list `l`, an occurrence of `a` comes before an occurrence of `b`. -/
def OccursBefore (a b : String) (l : List String) : Prop :=
  ∃ l1 l2 l3, l = l1 ++ a :: (l2 ++ b :: l3)

/-- The registry after `removeApplication(1, SERVER)` on `exampleServiceAddedState`: the object
of the service 1 is unexported and released, its record is still in the service map. -/
def exampleTornDownState : Bluez5ProfileGatt :=
  match removeApplication exampleServiceAddedState 1 ApplicationType.SERVER with
  | some result => result.1
  | none => exampleServiceAddedState

/-- The registry after a following `addCharacteristic(1, 1, ...)` whose round trip succeeds: the
characteristic 1 hangs under the service record whose own object is gone. -/
def exampleOrphanCharacteristicState : Bluez5ProfileGatt :=
  match addCharacteristic exampleTornDownState 1 1 {} true true true with
  | some (st1, _, some pending) =>
    match completeRegistration st1 pending BluetoothError.NONE with
    | some result => result.1
    | none => st1
  | _ => exampleTornDownState

/-- The registry after `addCharacteristic(1, 1, ...)` completed with success on
`exampleServiceAddedState`: the service 1 owns the characteristic 1. -/
def exampleCharacteristicAddedState : Bluez5ProfileGatt :=
  match addCharacteristic exampleServiceAddedState 1 1 {} true true true with
  | some (st1, _, some pending) =>
    match completeRegistration st1 pending BluetoothError.NONE with
    | some result => result.1
    | none => st1
  | _ => exampleServiceAddedState

/-- The registry after a following `addDescriptor(1, 1, ...)` completed with success: the
characteristic 1 owns the descriptor 1. -/
def exampleDescriptorAddedState : Bluez5ProfileGatt :=
  match addDescriptor exampleCharacteristicAddedState 1 1 {} true true with
  | some (st1, _, some pending) =>
    match completeRegistration st1 pending BluetoothError.NONE with
    | some result => result.1
    | none => st1
  | _ => exampleCharacteristicAddedState

/-- The record of the service 1 in `exampleDescriptorAddedState`. -/
def exampleFullService : Bluez5GattLocalService :=
  { mServiceObject := some "/org/bluez/gattApp/server/App1/Service1"
    mCharacteristics :=
      [(1, { mCharObject := some "/org/bluez/gattApp/server/App1/Service1/Char1"
             mInterface := true
             mDescriptors :=
               [(1, { mDescObject :=
                        some "/org/bluez/gattApp/server/App1/Service1/Char1/Desc1"
                      mInterface := true })] })]
    mServiceInterface := true
    serviceId := 1 }

/-! ## Layout of the exported object paths -/

/-- The object paths that the effects export, in order. -/
def exportedPaths : List Effect → List String
  | [] => []
  | Effect.exportObject objectPath :: rest => objectPath :: exportedPaths rest
  | _ :: rest => exportedPaths rest

/-- The service path that `addCharacteristic` declares on the characteristic skeleton
(`bluez_gatt_characteristic1_set_service`): its `serviceObjPath`. -/
def characteristicDeclaredService (objPath : String) (appId : Nat) (serviceId : Nat) : String :=
  localServiceObjPath objPath appId serviceId

/-- The characteristic path that `addDescriptor` declares on the descriptor skeleton
(`bluez_gatt_descriptor1_set_characteristic`): its `charObjPath`, built from `mLastCharId`. -/
def descriptorDeclaredCharacteristic (st : Bluez5ProfileGatt) (objPath : String) (appId : Nat)
    (serviceId : Nat) : String :=
  localCharObjPath objPath appId serviceId st.mLastCharId

/-- The decimal rendering of an identifier, as the specification words it: the string of its
base-10 digits. -/
def decimalDigits (n : Nat) : String :=
  String.mk (Nat.toDigits 10 n)

/-- The layout of the specification for a service: `<root>/App<appId>/Service<serviceId>`. -/
def layoutServicePath (root : String) (appId : Nat) (serviceId : Nat) : String :=
  root ++ "/App" ++ decimalDigits appId ++ "/Service" ++ decimalDigits serviceId

/-- The layout of the specification for a characteristic:
`<root>/App<appId>/Service<serviceId>/Char<charId>`. -/
def layoutCharPath (root : String) (appId : Nat) (serviceId : Nat) (charId : Nat) : String :=
  root ++ "/App" ++ decimalDigits appId ++ "/Service" ++ decimalDigits serviceId ++ "/Char" ++
    decimalDigits charId

/-- The layout of the specification for a descriptor:
`<root>/App<appId>/Service<serviceId>/Char<charId>/Desc<descId>`. -/
def layoutDescPath (root : String) (appId : Nat) (serviceId : Nat) (charId : Nat)
    (descId : Nat) : String :=
  root ++ "/App" ++ decimalDigits appId ++ "/Service" ++ decimalDigits serviceId ++ "/Char" ++
    decimalDigits charId ++ "/Desc" ++ decimalDigits descId

/-- The path `parent` is a proper initial segment of the path `child`. -/
def ProperlyStarts (parent : String) (child : String) : Prop :=
  parent.data <+: child.data ∧ parent ≠ child

instance (parent child : String) : Decidable (ProperlyStarts parent child) :=
  inferInstanceAs (Decidable (parent.data <+: child.data ∧ parent ≠ child))

/-- The record of the service 1 in `exampleCharacteristicAddedState`. -/
def exampleCharacteristicService : Bluez5GattLocalService :=
  { mServiceObject := some "/org/bluez/gattApp/server/App1/Service1"
    mCharacteristics :=
      [(1, { mCharObject := some "/org/bluez/gattApp/server/App1/Service1/Char1"
             mInterface := true })]
    mServiceInterface := true
    serviceId := 1 }

/-! ## Flag helpers -/

/-- Modelled from the spec: the bit of `BluetoothGattCharacteristic::PROPERTY_BROADCAST`. -/
def PROPERTY_BROADCAST : Nat := 1

/-- Modelled from the spec: the bit of
`BluetoothGattCharacteristic::PROPERTY_WRITE_WITHOUT_RESPONSE`. -/
def PROPERTY_WRITE_WITHOUT_RESPONSE : Nat := 4

/-- Modelled from the spec: the bit of `BluetoothGattCharacteristic::PROPERTY_INDICATE`. -/
def PROPERTY_INDICATE : Nat := 32

/-- Modelled from the spec: the bit of
`BluetoothGattCharacteristic::PROPERTY_AUTHENTICATED_SIGNED_WRITES`. -/
def PROPERTY_AUTHENTICATED_SIGNED_WRITES : Nat := 64

/-- Modelled from the spec: the bit of `PERMISSION_READ`. -/
def PERMISSION_READ : Nat := 1

/-- Modelled from the spec: the bit of `PERMISSION_READ_ENCRYPTED`. -/
def PERMISSION_READ_ENCRYPTED : Nat := 2

/-- Modelled from the spec: the bit of `PERMISSION_READ_ENCRYPTED_MITM`. -/
def PERMISSION_READ_ENCRYPTED_MITM : Nat := 4

/-- Modelled from the spec: the bit of `PERMISSION_WRITE`. -/
def PERMISSION_WRITE : Nat := 16

/-- Modelled from the spec: the bit of `PERMISSION_WRITE_ENCRYPTED`. -/
def PERMISSION_WRITE_ENCRYPTED : Nat := 32

/-- Modelled from the spec: the bit of `PERMISSION_WRITE_ENCRYPTED_MITM`. -/
def PERMISSION_WRITE_ENCRYPTED_MITM : Nat := 64

/-- Modelled from the spec: the bit of `PERMISSION_WRITE_SIGNED`. -/
def PERMISSION_WRITE_SIGNED : Nat := 128

/-- Modelled from the spec: `isPermissionSet`, the permission bit is set in the bitset. -/
def BluetoothGattDescriptor.isPermissionSet (d : BluetoothGattDescriptor) (permission : Nat) :
    Bool :=
  (d.permissions &&& permission) != 0

/-- The insertion of one entry into a `std::map`: the entries are kept in increasing key order
and an entry whose key is already present is dropped. -/
def stdMapInsert (m : List (Nat × String)) (entry : Nat × String) : List (Nat × String) :=
  match m with
  | [] => [entry]
  | head :: rest =>
    if entry.1 < head.1 then entry :: head :: rest
    else if entry.1 = head.1 then head :: rest
    else head :: stdMapInsert rest entry

/-- The `std::map` built from an initializer list; its iteration order is the list order. -/
def stdMapOf (entries : List (Nat × String)) : List (Nat × String) :=
  entries.foldl stdMapInsert []

/-- The table `characteristicPropertyMap`. -/
def characteristicPropertyMap : List (Nat × String) :=
  stdMapOf
    [(PROPERTY_BROADCAST, "broadcast"),
     (PROPERTY_READ, "read"),
     (PROPERTY_WRITE_WITHOUT_RESPONSE, "write-without-response"),
     (PROPERTY_WRITE, "write"),
     (PROPERTY_NOTIFY, "notify"),
     (PROPERTY_INDICATE, "indicate"),
     (PROPERTY_AUTHENTICATED_SIGNED_WRITES, "authenticated-signed-writes")]

/-- The table `descriptorPermissionMap`. -/
def descriptorPermissionMap : List (Nat × String) :=
  stdMapOf
    [(PERMISSION_READ, "read"),
     (PERMISSION_READ_ENCRYPTED, "encrypt-read"),
     (PERMISSION_READ_ENCRYPTED_MITM, "encrypt-authenticated-read"),
     (PERMISSION_WRITE, "write"),
     (PERMISSION_WRITE_ENCRYPTED, "encrypt-write"),
     (PERMISSION_WRITE_ENCRYPTED_MITM, "encrypt-authenticated-write"),
     (PERMISSION_WRITE_SIGNED, "secure-write")]

/-- The store `flags[index] = value` into the caller's array; `none` when the index is past the
end of the array. -/
def storeFlag (flags : List (Option String)) (index : Nat) (value : Option String) :
    Option (List (Option String)) :=
  if index < flags.length then some (flags.set index value) else none

/-- The body of the loops of `updatePropertyFlags` and `updatePermissionFlags`, on the array and
`index`: `flags[index++] = propIt.second.c_str()` when the bit `propIt.first` is set. -/
def flagLoopStep (isSet : Nat → Bool) (state : Option (List (Option String) × Nat))
    (propIt : Nat × String) : Option (List (Option String) × Nat) :=
  match state with
  | none => none
  | some (flags, index) =>
    if isSet propIt.1 then
      match storeFlag flags index (some propIt.2) with
      | none => none
      | some written => some (written, index + 1)
    else some (flags, index)

/-- The method `updatePropertyFlags`. `propertyflags` is the caller's array of C strings (a slot
holding `none` is `NULL`), or `none` for a null pointer. The result is the array after the call;
it is `none` when the source stores past the end of the array. -/
def updatePropertyFlags (characteristic : BluetoothGattCharacteristic)
    (propertyflags : Option (List (Option String))) : Option (Option (List (Option String))) :=
  match propertyflags with
  | none => some none
  | some flags =>
    match characteristicPropertyMap.foldl
        (flagLoopStep (fun property => characteristic.isPropertySet property))
        (some (flags, 0)) with
    | none => none
    | some (written, index) => (storeFlag written index none).map some

/-- The method `updatePermissionFlags`, with the array modelled as in `updatePropertyFlags`. -/
def updatePermissionFlags (descriptor : BluetoothGattDescriptor)
    (permissionflags : Option (List (Option String))) : Option (Option (List (Option String))) :=
  match permissionflags with
  | none => some none
  | some flags =>
    match descriptorPermissionMap.foldl
        (flagLoopStep (fun permission => descriptor.isPermissionSet permission))
        (some (flags, 0)) with
    | none => none
    | some (written, index) => (storeFlag written index none).map some

/-- The order of the property flags in the words of the specification. -/
def propertyFlagOrder : List (Nat × String) :=
  [(PROPERTY_BROADCAST, "broadcast"),
   (PROPERTY_READ, "read"),
   (PROPERTY_WRITE_WITHOUT_RESPONSE, "write-without-response"),
   (PROPERTY_WRITE, "write"),
   (PROPERTY_NOTIFY, "notify"),
   (PROPERTY_INDICATE, "indicate"),
   (PROPERTY_AUTHENTICATED_SIGNED_WRITES, "authenticated-signed-writes")]

/-- The order of the permission flags in the words of the specification. -/
def permissionFlagOrder : List (Nat × String) :=
  [(PERMISSION_READ, "read"),
   (PERMISSION_READ_ENCRYPTED, "encrypt-read"),
   (PERMISSION_READ_ENCRYPTED_MITM, "encrypt-authenticated-read"),
   (PERMISSION_WRITE, "write"),
   (PERMISSION_WRITE_ENCRYPTED, "encrypt-write"),
   (PERMISSION_WRITE_ENCRYPTED_MITM, "encrypt-authenticated-write"),
   (PERMISSION_WRITE_SIGNED, "secure-write")]

/-- The strings of the set bits of a table, in table order. -/
def setFlags (table : List (Nat × String)) (isSet : Nat → Bool) : List String :=
  (table.filter (fun entry => isSet entry.1)).map Prod.snd

/-! ## Remote entity mirror: refreshes and removal of a descriptor -/

/-- The flattening of an entry of `mDeviceServicesMap`: the aggregated service values of the
mirrored services, in list order. -/
def flattenServices (servicesList : List GattRemoteService) : List BluetoothGattService :=
  servicesList.map (fun devService => devService.service)

/-- What `removeRemoteGattDescriptor` computes in its local `descriptorsList`: the copy of the
descriptor list of the characteristic that owns the path, after the `erase` of the descriptor
with the path; `none` when the service, the characteristic or the descriptor is not found and
nothing is erased. -/
def removeRemoteGattDescriptorCopy (env : Env) (st : Bluez5ProfileGatt)
    (descriptorObjectPath : String) : Option (List GattRemoteDescriptor) :=
  let characteristicObjectPath := (splitInPathAndName descriptorObjectPath).1
  let serviceObjectPath := (splitInPathAndName characteristicObjectPath).1
  match getRemoteGattService env st serviceObjectPath with
  | none => none
  | some service =>
    let characteristicList := service.gattRemoteCharacteristics
    match characteristicList.find?
        (fun characteristic => decide (characteristic.objectPath = characteristicObjectPath)) with
    | none => none
    | some characteristic =>
      let descriptorsList := characteristic.gattRemoteDescriptors
      match descriptorsList.find?
          (fun descriptor => decide (descriptor.objectPath = descriptorObjectPath)) with
      | none => none
      | some _ =>
        some (descriptorsList.eraseP
          (fun descriptor => decide (descriptor.objectPath = descriptorObjectPath)))

/-- The descriptor list (`gattRemoteDescriptors`) of the mirrored characteristic with the given
object path, looked up through the owning service; `none` when it is not mirrored. -/
def mirroredDescriptors (env : Env) (st : Bluez5ProfileGatt) (characteristicObjectPath : String) :
    Option (List GattRemoteDescriptor) :=
  match getRemoteGattService env st (splitInPathAndName characteristicObjectPath).1 with
  | none => none
  | some service =>
    (service.gattRemoteCharacteristics.find?
      (fun characteristic => decide (characteristic.objectPath = characteristicObjectPath))).map
      (fun characteristic => characteristic.gattRemoteDescriptors)

/-- A remote stack that knows two devices, at `/org/bluez/hci0/dev_AA_BB` with address `AA:BB`
and at `/org/bluez/hci0/dev_CC_DD` with address `CC:DD`. -/
def exampleTwoDeviceEnv : Env :=
  { exampleEnv with
    findDeviceByObjectPath := fun path =>
      if path = "/org/bluez/hci0/dev_AA_BB" then some "AA:BB"
      else if path = "/org/bluez/hci0/dev_CC_DD" then some "CC:DD"
      else none }

/-- A service of the second device, uuid `180f`. -/
def exampleServiceD : GattRemoteService :=
  { parentObjectPath := "/org/bluez/hci0/dev_CC_DD"
    objectPath := "/org/bluez/hci0/dev_CC_DD/service0001"
    service := { uuid := "180f" } }

/-- The mirror after the first device announced `exampleServiceA`, the second device announced
`exampleServiceD` and the first device announced `exampleServiceC` (the second service of a
device runs the global refresh): the index and the snapshot hold both devices. -/
def exampleTwoDeviceState : Bluez5ProfileGatt :=
  (runServiceEvents exampleTwoDeviceEnv initial
    [ServiceEvent.added exampleServiceA, ServiceEvent.added exampleServiceD,
      ServiceEvent.added exampleServiceC]).1

/-! ## Well-formedness of the mirror index -/

/-- The keys of an `std::unordered_map` are pairwise distinct. -/
def UMap.KeysDistinct {κ ν : Type} (m : UMap κ ν) : Prop :=
  (m.map Prod.fst).Nodup

instance {κ ν : Type} [DecidableEq κ] (m : UMap κ ν) : Decidable (UMap.KeysDistinct m) :=
  inferInstanceAs (Decidable (m.map Prod.fst).Nodup)

/-- Every device entry of the index has a non-empty service list whose services have pairwise
distinct uuids. -/
def WellFormedIndex (m : UMap String (List GattRemoteService)) : Prop :=
  ∀ entry ∈ m, entry.2 ≠ [] ∧ (entry.2.map (fun devService => devService.service.uuid)).Nodup

/-- The mirror after the two devices announced one service each; no refresh has run yet, the
snapshot is empty. -/
def exampleStaleSnapshotState : Bluez5ProfileGatt :=
  (runServiceEvents exampleTwoDeviceEnv initial
    [ServiceEvent.added exampleServiceA, ServiceEvent.added exampleServiceD]).1

/-- The invariant of the mirror index: distinct keys, and every entry well formed. -/
def MirrorInv (m : UMap String (List GattRemoteService)) : Prop :=
  UMap.KeysDistinct m ∧ WellFormedIndex m

/-- The mirror after the device announced `exampleServiceA`, then `exampleServiceB` (same uuid,
not taken) and `exampleServiceC`. -/
def exampleDedupState : Bluez5ProfileGatt :=
  (addRemoteServiceToDevice exampleEnv
    (addRemoteServiceToDevice exampleEnv
      (addRemoteServiceToDevice exampleEnv initial exampleServiceA).1 exampleServiceB).1
    exampleServiceC).1

/-! ## Connection registry: disconnecting and reachable states -/

/-- The method `disconnectGatt`, up to the call of the `disconnect` method of the device. The
third component is the iterator `deviceInfo` captured by the lambda `isDisconnectCallback`,
represented by the key of the entry it points to, or `none` when no disconnect was started. -/
def disconnectGatt (env : Env) (st : Bluez5ProfileGatt) (appId : Nat) (_connectId : Nat)
    (_address : String) : Bluez5ProfileGatt × List Effect × Option Nat :=
  match UMap.find st.mConnectedDevices appId with
  | none => (st, [Effect.resultCallback BluetoothError.FAIL], none)
  | some deviceAddress =>
    match env.findDevice deviceAddress with
    | none => (st, [Effect.resultCallback BluetoothError.PARAM_INVALID], none)
    | some _ => (st, [], some appId)

/-- The lambda `isDisconnectCallback` of `disconnectGatt`, run by the device with the outcome of
the disconnect. The result is `none` when the source erases through the captured iterator after
its entry has left the map. -/
def isDisconnectCallback (st : Bluez5ProfileGatt) (deviceInfo : Nat) (error : BluetoothError) :
    Option (Bluez5ProfileGatt × List Effect) :=
  if error ≠ BluetoothError.NONE then some (st, [Effect.resultCallback error])
  else
    match UMap.find st.mConnectedDevices deviceInfo with
    | none => none
    | some _ =>
      some ({ st with mConnectedDevices := UMap.erase st.mConnectedDevices deviceInfo },
        [Effect.resultCallback BluetoothError.NONE])

/-- The states the profile can be in, as far as the connection registry goes: the state after
construction, closed under the completion of a connect started by `connectGatt` (the lambda
`isConnectCallback` with the lower-cased address of a device the adapter knows) and of a
disconnect started by `disconnectGatt` (the lambda `isDisconnectCallback`), with either outcome,
at any later time. Every other method leaves `mConnectedDevices` as it is and is covered by
`other`. -/
inductive ConnectionReachable : Bluez5ProfileGatt → Prop where
  | initial : ConnectionReachable initial
  | connectGatt (env : Env) (st : Bluez5ProfileGatt) (appId : Nat)
      (address deviceAddress : String) (error : BluetoothError) :
      ConnectionReachable st → env.findDevice address = some deviceAddress →
      ConnectionReachable
        (isConnectCallback st appId (convertAddressToLowerCase deviceAddress) error).1
  | disconnectGatt (st : Bluez5ProfileGatt) (deviceInfo : Nat) (error : BluetoothError)
      (result : Bluez5ProfileGatt × List Effect) :
      ConnectionReachable st → isDisconnectCallback st deviceInfo error = some result →
      ConnectionReachable result.1
  | other (st st' : Bluez5ProfileGatt) :
      ConnectionReachable st → st'.mConnectedDevices = st.mConnectedDevices →
      ConnectionReachable st'

/-- The invariant of the connection registry: distinct keys and lower-cased addresses. -/
def ConnectionInv (m : UMap Nat String) : Prop :=
  UMap.KeysDistinct m ∧ ∀ entry ∈ m, convertAddressToLowerCase entry.2 = entry.2

/-- The connection registry after `connectGatt(1, "AA:BB")` and `connectGatt(2, "AA:BB")` both
succeeded: the application ids 1 and 2 are mapped to `aa:bb`. -/
def exampleSharedDeviceState : Bluez5ProfileGatt :=
  (connectGattCompleted exampleEnv exampleConnectedState 2 "AA:BB" BluetoothError.NONE).1

/-! ## Remote entity mirror: creation of a characteristic node -/

/-- Modelled from the spec: the bit of
`BluetoothGattCharacteristic::PROPERTY_EXTENDED_PROPERTIES`. -/
def PROPERTY_EXTENDED_PROPERTIES : Nat := 128

/-- What the getters of a `BluezGattCharacteristic1` proxy return: the uuid, the advertised flag
list (a `NULL`-terminated array of C strings) and the object path of the owning service, each
`none` for a null pointer. -/
structure CharacteristicProxy where
  uuid : Option String := none
  flags : Option (List String) := none
  service : Option String := none
deriving DecidableEq, Repr

/-- The chain of `strcmp` tests in the loop body of `createRemoteGattCharacteristic`: the
property bit that one flag contributes. -/
def characteristicFlagProperty (flag : String) : Nat :=
  if flag = "broadcast" then PROPERTY_BROADCAST
  else if flag = "read" then PROPERTY_READ
  else if flag = "write-without-response" then PROPERTY_WRITE_WITHOUT_RESPONSE
  else if flag = "write" then PROPERTY_WRITE
  else if flag = "notify" then PROPERTY_NOTIFY
  else if flag = "indicate" then PROPERTY_INDICATE
  else if flag = "authenticated-signed-writes" then PROPERTY_AUTHENTICATED_SIGNED_WRITES
  else if flag = "indicate" then PROPERTY_EXTENDED_PROPERTIES
  else 0

/-- The flag loop of `createRemoteGattCharacteristic`. Its bound is
`sizeof(characteristicFlags)/sizeof(char*)`, the size of a pointer divided by the size of a
pointer, which is 1. The result is `none` when the source hands the terminating `NULL` of the
array to `strcmp`. -/
def parseCharacteristicFlags (characteristicFlags : List String) : Option Nat :=
  let len := 1
  (List.range len).foldl
    (fun properties n =>
      match properties, characteristicFlags[n]? with
      | some bits, some flag => some (bits ||| characteristicFlagProperty flag)
      | _, _ => none)
    (some 0)

/-- The method `createRemoteGattCharacteristic`. `proxy` is the proxy created for the object
path, or `none` when its creation failed; `allocated` says whether the node allocation returned
non-null. The result is `none` where `parseCharacteristicFlags` is. -/
def createRemoteGattCharacteristic (env : Env) (st : Bluez5ProfileGatt)
    (characteristicObjectPath : String) (proxy : Option CharacteristicProxy)
    (allocated : Bool) : Option (Bluez5ProfileGatt × List Effect) :=
  match proxy with
  | none => some (st, [])
  | some interface =>
    let gattCharacteristic : BluetoothGattCharacteristic :=
      match interface.uuid with
      | some uuid => { uuid := uuid }
      | none => {}
    let parsed : Option BluetoothGattCharacteristic :=
      match interface.flags with
      | none => some gattCharacteristic
      | some characteristicFlags =>
        (parseCharacteristicFlags characteristicFlags).map
          (fun properties => { gattCharacteristic with properties := properties })
    match parsed with
    | none => none
    | some gattCharacteristic1 =>
      if !allocated then some (st, [])
      else
        let gattRemoteCharacteristic : GattRemoteCharacteristic :=
          { objectPath := characteristicObjectPath
            parentObjectPath := interface.service.getD ""
            characteristic := gattCharacteristic1 }
        if gattRemoteCharacteristic.characteristic.isPropertySet PROPERTY_READ then
          some
            (addRemoteCharacteristicToService env st
              { gattRemoteCharacteristic with
                characteristic :=
                  { gattRemoteCharacteristic.characteristic with
                    value := env.characteristicReadValue characteristicObjectPath } },
             [Effect.callCharacteristicReadValue characteristicObjectPath])
        else some (addRemoteCharacteristicToService env st gattRemoteCharacteristic, [])

/-- The remote stack of `exampleEnv`, whose characteristic reads return the byte 7. -/
def exampleReadingEnv : Env :=
  { exampleEnv with characteristicReadValue := fun _ => [7] }

/-- The proxy of a characteristic of `exampleServiceA`, uuid `2a05`, that advertises the flags
`notify` and `read`, in this order. -/
def exampleNotifyReadProxy : CharacteristicProxy :=
  { uuid := some "2a05"
    flags := some ["notify", "read"]
    service := some "/org/bluez/hci0/dev_AA_BB/service0001" }

/-- The same characteristic advertising `read` first. -/
def exampleReadNotifyProxy : CharacteristicProxy :=
  { exampleNotifyReadProxy with flags := some ["read", "notify"] }

/-- The live characteristic nodes of the service with the given object path. -/
def mirroredCharacteristics (env : Env) (st : Bluez5ProfileGatt) (serviceObjectPath : String) :
    List GattRemoteCharacteristic :=
  match getRemoteGattService env st serviceObjectPath with
  | none => []
  | some service => service.gattRemoteCharacteristics

/-! ## Remote entity mirror: descriptors in the live tree and in the snapshot -/

/-- The descriptor uuids of each live characteristic node of a service, in list order. -/
def liveDescriptorUuids (service : GattRemoteService) : List (List BluetoothUuid) :=
  service.gattRemoteCharacteristics.map
    (fun characteristic =>
      characteristic.gattRemoteDescriptors.map (fun descriptor => descriptor.descriptor.uuid))

/-- The descriptor uuids of each characteristic of the aggregated characteristic snapshot of a
service, in list order. -/
def snapshotDescriptorUuids (service : GattRemoteService) : List (List BluetoothUuid) :=
  service.service.characteristics.map
    (fun characteristic => characteristic.descriptors.map (fun descriptor => descriptor.uuid))

/-- A second characteristic of `exampleServiceA` with the uuid `2a05` of
`exampleWritableCharacteristic`, at another object path. -/
def exampleTwinCharacteristic : GattRemoteCharacteristic :=
  { parentObjectPath := "/org/bluez/hci0/dev_AA_BB/service0001"
    objectPath := "/org/bluez/hci0/dev_AA_BB/service0001/char0005"
    characteristic := { uuid := "2a05", properties := PROPERTY_READ ||| PROPERTY_WRITE } }

/-- A descriptor of `exampleTwinCharacteristic`, uuid `2902`. -/
def exampleTwinDescriptor : GattRemoteDescriptor :=
  { parentObjectPath := "/org/bluez/hci0/dev_AA_BB/service0001/char0005"
    objectPath := "/org/bluez/hci0/dev_AA_BB/service0001/char0005/desc0007"
    descriptor := { uuid := "2902" } }

/-- The mirror after the device announced `exampleServiceA`, its characteristic `char0002` and
its characteristic `char0005`, both with the uuid `2a05`. -/
def exampleTwinState : Bluez5ProfileGatt :=
  addRemoteCharacteristicToService exampleEnv exampleWritableState exampleTwinCharacteristic

/-- A second descriptor of the characteristic `2a05`, uuid `2901`. -/
def exampleSecondDescriptor : GattRemoteDescriptor :=
  { parentObjectPath := "/org/bluez/hci0/dev_AA_BB/service0001/char0002"
    objectPath := "/org/bluez/hci0/dev_AA_BB/service0001/char0002/desc0006"
    descriptor := { uuid := "2901" } }

/-- The mirror after the device announced the descriptors `2902` and `2901` of the
characteristic. -/
def exampleTwoDescriptorState : Bluez5ProfileGatt :=
  match addRemoteDescriptorToCharacteristic exampleEnv exampleDescriptorState
      exampleSecondDescriptor with
  | some result => result.1
  | none => exampleDescriptorState

/-! ## Remote entity mirror: creation of a descriptor node, mirrors built from bus events -/

/-- What the getters of a `BluezGattDescriptor1` proxy return: the uuid and the object path of
the owning characteristic, each `none` for a null pointer. -/
structure DescriptorProxy where
  uuid : Option String := none
  characteristic : Option String := none
deriving DecidableEq, Repr

/-- The method `createRemoteGattDescriptor`. `proxy` is the proxy created for the object path,
or `none` when its creation failed; `allocated` says whether the node allocation returned
non-null. The result is `none` where `addRemoteDescriptorToCharacteristic` is. -/
def createRemoteGattDescriptor (env : Env) (st : Bluez5ProfileGatt)
    (descriptorObjectPath : String) (proxy : Option DescriptorProxy) (allocated : Bool) :
    Option (Bluez5ProfileGatt × List Effect) :=
  match proxy with
  | none => some (st, [])
  | some interface =>
    let gattDescriptor : BluetoothGattDescriptor :=
      match interface.uuid with
      | some uuid => { uuid := uuid }
      | none => {}
    if !allocated then some (st, [])
    else
      addRemoteDescriptorToCharacteristic env st
        { objectPath := descriptorObjectPath
          parentObjectPath := interface.characteristic.getD ""
          descriptor := gattDescriptor }

/-- The handlers of the bus events that announce one characteristic and then one descriptor,
run in this order on a mirror; `none` where one of the handlers has no result. -/
def announceCharacteristicAndDescriptor (env : Env) (st : Bluez5ProfileGatt)
    (characteristicObjectPath : String) (characteristic : CharacteristicProxy)
    (descriptorObjectPath : String) (descriptor : DescriptorProxy) : Option Bluez5ProfileGatt :=
  match createRemoteGattCharacteristic env st characteristicObjectPath (some characteristic)
      true with
  | none => none
  | some result =>
    (createRemoteGattDescriptor env result.1 descriptorObjectPath (some descriptor) true).map
      (fun result1 => result1.1)

/-- The mirror built by the bus events of the device `AA:BB`: its service `service0001` (uuid
`1801`), the characteristic `char0002` (uuid `2a05`) that advertises the flag `write`, and the
descriptor `desc0004` (uuid `2902`) of the characteristic. -/
def exampleWriteOnlyState : Bluez5ProfileGatt :=
  match announceCharacteristicAndDescriptor exampleEnv
      (addRemoteServiceToDevice exampleEnv initial exampleServiceA).1
      "/org/bluez/hci0/dev_AA_BB/service0001/char0002"
      { uuid := some "2a05", flags := some ["write"],
        service := some "/org/bluez/hci0/dev_AA_BB/service0001" }
      "/org/bluez/hci0/dev_AA_BB/service0001/char0002/desc0004"
      { uuid := some "2902",
        characteristic := some "/org/bluez/hci0/dev_AA_BB/service0001/char0002" } with
  | some st => st
  | none => initial

/-- The mirror built by the bus events of the device `AA:BB`: its service `service0001` (uuid
`1801`) and the characteristic `char0002` (uuid `2a05`) that advertises the flag `read`. -/
def exampleReadOnlyState : Bluez5ProfileGatt :=
  match createRemoteGattCharacteristic exampleEnv
      (addRemoteServiceToDevice exampleEnv initial exampleServiceA).1
      "/org/bluez/hci0/dev_AA_BB/service0001/char0002"
      (some { uuid := some "2a05", flags := some ["read"],
              service := some "/org/bluez/hci0/dev_AA_BB/service0001" }) true with
  | some result => result.1
  | none => initial

/-! ## Local registry: calls run to the completion of their round trip -/

/-- A call of `addCharacteristic` (all allocations succeeding) together with the outcome `error`
of the registration round trip it starts, run to the completion of the round trip. -/
def addCharacteristicCompleted (st : Bluez5ProfileGatt) (appId : Nat) (serviceId : Nat)
    (characteristic : BluetoothGattCharacteristic) (error : BluetoothError) :
    Option (Bluez5ProfileGatt × List Effect) :=
  match addCharacteristic st appId serviceId characteristic true true true with
  | none => none
  | some (st1, effects, none) => some (st1, effects)
  | some (st1, effects, some pending) =>
    (completeRegistration st1 pending error).map (fun result => (result.1, effects ++ result.2))

/-- A call of `addDescriptor` (all allocations succeeding) together with the outcome `error` of
the registration round trip it starts, run to the completion of the round trip. -/
def addDescriptorCompleted (st : Bluez5ProfileGatt) (appId : Nat) (serviceId : Nat)
    (descriptor : BluetoothGattDescriptor) (error : BluetoothError) :
    Option (Bluez5ProfileGatt × List Effect) :=
  match addDescriptor st appId serviceId descriptor true true with
  | none => none
  | some (st1, effects, none) => some (st1, effects)
  | some (st1, effects, some pending) =>
    (completeRegistration st1 pending error).map (fun result => (result.1, effects ++ result.2))

/-- The state after a call of `addCharacteristic` whose round trip fails. -/
def afterFailedCharacteristic (appId : Nat) (serviceId : Nat) (st : Bluez5ProfileGatt) :
    Bluez5ProfileGatt :=
  match addCharacteristicCompleted st appId serviceId {} BluetoothError.FAIL with
  | some result => result.1
  | none => st

/-- The state after a call of `addDescriptor` whose round trip fails. -/
def afterFailedDescriptor (appId : Nat) (serviceId : Nat) (st : Bluez5ProfileGatt) :
    Bluez5ProfileGatt :=
  match addDescriptorCompleted st appId serviceId {} BluetoothError.FAIL with
  | some result => result.1
  | none => st

/-- The application 1 owns the service 1 with the characteristic 1 and its descriptor 1;
`addCharacteristic(1, 1)` and `addDescriptor(1, 1)` have since been called 65535 times each with
a failing round trip: the counters of `nextCharId` and `nextDescId` have wrapped. -/
def exampleWrappedDescriptorState : Bluez5ProfileGatt :=
  Nat.iterate (afterFailedDescriptor 1 1) 65535
    (Nat.iterate (afterFailedCharacteristic 1 1) 65535 exampleDescriptorAddedState)

/-! ## Local registry: the objects that the add calls export -/

/-- An object of the local registry by what its path is built from: its level and the
identifiers that `addService`, `addCharacteristic` and `addDescriptor` put into
`serviceObjPath`, `charObjPath` and `descObjPath`. -/
inductive LocalEntity where
  | service (appId : Nat) (serviceId : Nat)
  | characteristic (appId : Nat) (serviceId : Nat) (charId : Nat)
  | descriptor (appId : Nat) (serviceId : Nat) (charId : Nat) (descId : Nat)
deriving DecidableEq, Repr

/-- The path under the export root `objPath` that the add call of its level builds for the
entity. -/
def LocalEntity.objectPath (objPath : String) : LocalEntity → String
  | LocalEntity.service appId serviceId => localServiceObjPath objPath appId serviceId
  | LocalEntity.characteristic appId serviceId charId =>
    localCharObjPath objPath appId serviceId charId
  | LocalEntity.descriptor appId serviceId charId descId =>
    localDescObjPath objPath appId serviceId charId descId

/-- A call of one of the three methods that export a local object (`addService`,
`addCharacteristic`, `addDescriptor`), with its arguments and with whether each of its
allocations returns non-null. -/
inductive ExportCall where
  | serviceCall (appId : Nat) (service : BluetoothGattService)
  | characteristicCall (appId : Nat) (serviceId : Nat)
      (characteristic : BluetoothGattCharacteristic) (skeletonAllocated : Bool)
      (objectAllocated : Bool) (builderAllocated : Bool)
  | descriptorCall (appId : Nat) (serviceId : Nat) (descriptor : BluetoothGattDescriptor)
      (skeletonAllocated : Bool) (objectAllocated : Bool)

/-- The object paths that the call exports from the state `st` (none when the call has no
defined result). -/
def ExportCall.exports (st : Bluez5ProfileGatt) : ExportCall → List String
  | ExportCall.serviceCall appId service => exportedPaths (addService st appId service).2.1
  | ExportCall.characteristicCall appId serviceId characteristic skeletonAllocated objectAllocated
      builderAllocated =>
    match addCharacteristic st appId serviceId characteristic skeletonAllocated objectAllocated
        builderAllocated with
    | some result => exportedPaths result.2.1
    | none => []
  | ExportCall.descriptorCall appId serviceId descriptor skeletonAllocated objectAllocated =>
    match addDescriptor st appId serviceId descriptor skeletonAllocated objectAllocated with
    | some result => exportedPaths result.2.1
    | none => []

/-- The entity that the call builds a path for from the state `st`: the identifiers given by the
caller, the identifier that `nextServiceId`, `nextCharId` or `nextDescId` issues and, for a
descriptor, `mLastCharId`. -/
def ExportCall.entity (st : Bluez5ProfileGatt) : ExportCall → LocalEntity
  | ExportCall.serviceCall appId _ => LocalEntity.service appId (nextServiceId st).1
  | ExportCall.characteristicCall appId serviceId _ _ _ _ =>
    LocalEntity.characteristic appId serviceId (nextCharId st).1
  | ExportCall.descriptorCall appId serviceId _ _ _ =>
    LocalEntity.descriptor appId serviceId st.mLastCharId (nextDescId st).1

/-! # Proofs -/

/-! ## Lemmas on unordered maps and list searches -/

namespace UMap

variable {κ ν : Type} [DecidableEq κ]

theorem find_append_single (m : UMap κ ν) (k k' : κ) (v : ν) :
    find (m ++ [(k, v)]) k' = match find m k' with
      | some w => some w
      | none => if k = k' then some v else none := by
  induction m with
  | nil => simp [find]
  | cons p rest ih =>
    obtain ⟨a, b⟩ := p
    by_cases h : a = k'
    · simp [find, h]
    · simp [find, h, ih]

theorem find_insert_self (m : UMap κ ν) (k : κ) (v : ν) (h : find m k = none) :
    find (insert m k v) k = some v := by
  simp [insert, h, find_append_single]

theorem find_insert_ne (m : UMap κ ν) (k k' : κ) (v : ν) (hne : k ≠ k') :
    find (insert m k v) k' = find m k' := by
  unfold insert
  cases h : find m k with
  | some w => rfl
  | none =>
    simp only [find_append_single, hne, if_false]
    cases find m k' <;> rfl

theorem find_set_self (m : UMap κ ν) (k : κ) (v : ν) : find (set m k v) k = some v := by
  induction m with
  | nil => simp [set, find]
  | cons p rest ih =>
    obtain ⟨a, b⟩ := p
    by_cases h : a = k
    · simp [set, find, h]
    · simp [set, find, h, ih]

theorem find_set_ne (m : UMap κ ν) (k k' : κ) (v : ν) (hne : k ≠ k') :
    find (set m k v) k' = find m k' := by
  induction m with
  | nil => simp [set, find, hne]
  | cons p rest ih =>
    obtain ⟨a, b⟩ := p
    by_cases h : a = k
    · subst h
      simp [set, find, hne]
    · by_cases h' : a = k'
      · subst h'
        simp [set, find, h]
      · simp [set, find, h, h', ih]

theorem find_erase_self (m : UMap κ ν) (k : κ) : find (erase m k) k = none := by
  induction m with
  | nil => simp [erase, find]
  | cons p rest ih =>
    obtain ⟨a, b⟩ := p
    by_cases h : a = k
    · simpa [erase, List.filter_cons, h] using ih
    · simpa [erase, List.filter_cons, h, find] using ih

theorem find_erase_ne (m : UMap κ ν) (k k' : κ) (hne : k ≠ k') :
    find (erase m k) k' = find m k' := by
  induction m with
  | nil => simp [erase, find]
  | cons p rest ih =>
    obtain ⟨a, b⟩ := p
    by_cases h : a = k
    · subst h
      simpa [erase, List.filter_cons, find, hne] using ih
    · by_cases h' : a = k'
      · subst h'
        simp [erase, List.filter_cons, find, h]
      · simpa [erase, List.filter_cons, find, h, h'] using ih

end UMap

/-! ## Service events: one step -/

theorem servicesCount_eq (st : Bluez5ProfileGatt) (key : String) :
    servicesCount st key = (servicesOf st key).length := by
  unfold servicesCount servicesOf
  cases UMap.find st.mDeviceServicesMap key <;> rfl

theorem updateRemoteDeviceServices_index (st : Bluez5ProfileGatt) :
    (updateRemoteDeviceServices st).mDeviceServicesMap = st.mDeviceServicesMap := rfl

theorem noEmptyEntry_initial : NoEmptyEntry initial := by
  intro key
  simp [initial, UMap.find]

theorem servicesOf_ne_nil {st : Bluez5ProfileGatt} (h : NoEmptyEntry st) (key : String)
    (l : List GattRemoteService) (hl : UMap.find st.mDeviceServicesMap key = some l) : l ≠ [] := by
  intro hnil
  subst hnil
  exact h key hl

theorem find_isSome_iff {st : Bluez5ProfileGatt} (h : NoEmptyEntry st) (key : String) :
    (UMap.find st.mDeviceServicesMap key).isSome = true ↔ servicesOf st key ≠ [] := by
  unfold servicesOf
  cases hf : UMap.find st.mDeviceServicesMap key with
  | none => simp
  | some l => simpa using servicesOf_ne_nil h key l hf

theorem addRemoteServiceToDevice_spec (env : Env) (st : Bluez5ProfileGatt)
    (g : GattRemoteService) (key : String) (h : NoEmptyEntry st) :
    NoEmptyEntry (addRemoteServiceToDevice env st g).1 ∧
    servicesOf (addRemoteServiceToDevice env st g).1 key =
      (if (ServiceEvent.added g).deviceKey env = some key
        then entryStep (servicesOf st key) (ServiceEvent.added g) else servicesOf st key) ∧
    connectedNotifications key (addRemoteServiceToDevice env st g).2 =
      (if (ServiceEvent.added g).deviceKey env = some key
        then connectedDue (servicesOf st key) (entryStep (servicesOf st key) (ServiceEvent.added g))
        else []) := by
  have hdk : (ServiceEvent.added g).deviceKey env =
      (env.findDeviceByObjectPath g.parentObjectPath).map convertAddressToLowerCase := rfl
  rw [hdk]
  unfold addRemoteServiceToDevice
  cases hdev : env.findDeviceByObjectPath g.parentObjectPath with
  | none => simp [h, connectedNotifications]
  | some addr =>
    simp only [Option.map_some', Option.some.injEq]
    cases hf : UMap.find st.mDeviceServicesMap (convertAddressToLowerCase addr) with
    | none =>
      simp only []
      refine ⟨?_, ?_, ?_⟩
      · intro key'
        by_cases hk : convertAddressToLowerCase addr = key'
        · subst hk
          simp [UMap.find_insert_self _ _ _ hf]
        · simpa [UMap.find_insert_ne _ _ _ _ hk] using h key'
      · by_cases hk : convertAddressToLowerCase addr = key
        · subst hk
          simp [servicesOf, UMap.find_insert_self _ _ _ hf, hf, entryStep]
        · simp [servicesOf, UMap.find_insert_ne _ _ _ _ hk, hk]
      · by_cases hk : convertAddressToLowerCase addr = key
        · subst hk
          simp [servicesOf, hf, entryStep, connectedNotifications, connectedDue]
        · simp [hk, connectedNotifications]
    | some l =>
      have hl : l ≠ [] := servicesOf_ne_nil h _ l hf
      dsimp only
      cases hu : l.find? (fun d => decide (d.service.uuid = g.service.uuid)) with
      | none =>
        have hany : l.any (fun d => decide (d.service.uuid = g.service.uuid)) = false := by
          rw [List.find?_eq_none] at hu
          simpa [List.any_eq_false] using hu
        simp only []
        refine ⟨?_, ?_, ?_⟩
        · intro key'
          by_cases hk : convertAddressToLowerCase addr = key'
          · subst hk
            simp [updateRemoteDeviceServices_index, UMap.find_set_self]
          · simpa [updateRemoteDeviceServices_index, UMap.find_set_ne _ _ _ _ hk] using h key'
        · by_cases hk : convertAddressToLowerCase addr = key
          · subst hk
            simp [servicesOf, updateRemoteDeviceServices_index, UMap.find_set_self, hf,
              entryStep, hany]
          · simp [servicesOf, updateRemoteDeviceServices_index, UMap.find_set_ne _ _ _ _ hk, hk]
        · by_cases hk : convertAddressToLowerCase addr = key
          · subst hk
            simp [servicesOf, hf, entryStep, hany, connectedNotifications, connectedDue, hl]
          · simp [hk, connectedNotifications]
      | some d =>
        have hany : l.any (fun d => decide (d.service.uuid = g.service.uuid)) = true := by
          have := List.find?_some hu
          have hm := List.mem_of_find?_eq_some hu
          exact List.any_eq_true.mpr ⟨d, hm, this⟩
        simp only []
        refine ⟨h, ?_, ?_⟩
        · by_cases hk : convertAddressToLowerCase addr = key
          · subst hk
            simp [servicesOf, hf, entryStep, hany]
          · simp [hk]
        · by_cases hk : convertAddressToLowerCase addr = key
          · subst hk
            simp [servicesOf, hf, entryStep, hany, connectedNotifications, connectedDue]
          · simp [hk, connectedNotifications]
theorem connectedNotifications_append (key : String) (xs ys : List Effect) :
    connectedNotifications key (xs ++ ys) =
      connectedNotifications key xs ++ connectedNotifications key ys := by
  induction xs with
  | nil => rfl
  | cons x rest ih =>
    cases x <;> simp [connectedNotifications, ih]
    split <;> simp

theorem removeRemoteGattService_spec (env : Env) (st : Bluez5ProfileGatt)
    (p : String) (key : String) (h : NoEmptyEntry st) :
    NoEmptyEntry (removeRemoteGattService env st p).1 ∧
    servicesOf (removeRemoteGattService env st p).1 key =
      (if (ServiceEvent.removed p).deviceKey env = some key
        then entryStep (servicesOf st key) (ServiceEvent.removed p) else servicesOf st key) ∧
    connectedNotifications key (removeRemoteGattService env st p).2 =
      (if (ServiceEvent.removed p).deviceKey env = some key
        then connectedDue (servicesOf st key)
          (entryStep (servicesOf st key) (ServiceEvent.removed p))
        else []) := by
  have hdk : (ServiceEvent.removed p).deviceKey env =
      (env.findDeviceByObjectPath (splitInPathAndName p).1).map convertAddressToLowerCase := rfl
  rw [hdk]
  unfold removeRemoteGattService
  cases hdev : env.findDeviceByObjectPath (splitInPathAndName p).1 with
  | none => simp [h, connectedNotifications]
  | some addr =>
    simp only [Option.map_some', Option.some.injEq]
    cases hf : UMap.find st.mDeviceServicesMap (convertAddressToLowerCase addr) with
    | none =>
      dsimp only
      refine ⟨h, ?_, ?_⟩
      · by_cases hk : convertAddressToLowerCase addr = key
        · subst hk
          simp [servicesOf, hf, entryStep]
        · simp [hk]
      · by_cases hk : convertAddressToLowerCase addr = key
        · subst hk
          simp [servicesOf, hf, entryStep, connectedNotifications, connectedDue]
        · simp [hk, connectedNotifications]
    | some l =>
      have hl : l ≠ [] := servicesOf_ne_nil h _ l hf
      dsimp only
      have hlost : ∀ k', connectedNotifications k'
          (match l.find? (fun devService => decide (devService.objectPath = p)) with
            | some devService =>
              [Effect.serviceLost (convertAddressToLowerCase addr) devService.service]
            | none => []) = [] := by
        intro k'
        cases l.find? (fun devService => decide (devService.objectPath = p)) <;>
          simp [connectedNotifications]
      by_cases hrem : (l.eraseP (fun devService => decide (devService.objectPath = p))).length = 0
      · have hnil : l.eraseP (fun devService => decide (devService.objectPath = p)) = [] :=
          List.length_eq_zero.mp hrem
        rw [if_pos hrem]
        refine ⟨?_, ?_, ?_⟩
        · intro key'
          by_cases hk : convertAddressToLowerCase addr = key'
          · subst hk
            simp [UMap.find_erase_self]
          · simpa [UMap.find_erase_ne _ _ _ hk] using h key'
        · by_cases hk : convertAddressToLowerCase addr = key
          · subst hk
            simp [servicesOf, UMap.find_erase_self, hf, entryStep, hnil]
          · simp [servicesOf, UMap.find_erase_ne _ _ _ hk, hk]
        · by_cases hk : convertAddressToLowerCase addr = key
          · subst hk
            simp [servicesOf, hf, entryStep, hnil, connectedNotifications_append, hlost,
              connectedNotifications, connectedDue, hl]
          · simp [hk, connectedNotifications_append, hlost, connectedNotifications]
      · have hne : l.eraseP (fun devService => decide (devService.objectPath = p)) ≠ [] := by
          intro hnil
          exact hrem (by simp [hnil])
        rw [if_neg hrem]
        refine ⟨?_, ?_, ?_⟩
        · intro key'
          by_cases hk : convertAddressToLowerCase addr = key'
          · subst hk
            simpa [UMap.find_set_self] using hne
          · simpa [UMap.find_set_ne _ _ _ _ hk] using h key'
        · by_cases hk : convertAddressToLowerCase addr = key
          · subst hk
            simp [servicesOf, UMap.find_set_self, hf, entryStep]
          · simp [servicesOf, UMap.find_set_ne _ _ _ _ hk, hk]
        · by_cases hk : convertAddressToLowerCase addr = key
          · subst hk
            simp [servicesOf, hf, entryStep, hlost, connectedDue, hl, hne]
          · simp [hk, hlost]

theorem serviceEventStep_spec (env : Env) (st : Bluez5ProfileGatt) (e : ServiceEvent)
    (key : String) (h : NoEmptyEntry st) :
    NoEmptyEntry (serviceEventStep env st e).1 ∧
    servicesOf (serviceEventStep env st e).1 key =
      (if e.deviceKey env = some key then entryStep (servicesOf st key) e
        else servicesOf st key) ∧
    connectedNotifications key (serviceEventStep env st e).2 =
      (if e.deviceKey env = some key
        then connectedDue (servicesOf st key) (entryStep (servicesOf st key) e) else []) := by
  cases e with
  | added g => exact addRemoteServiceToDevice_spec env st g key h
  | removed p => exact removeRemoteGattService_spec env st p key h

theorem noEmptyEntry_run (env : Env) (evs : List ServiceEvent) :
    ∀ st, NoEmptyEntry st → NoEmptyEntry (runServiceEvents env st evs).1 := by
  induction evs with
  | nil => intro st h; exact h
  | cons e rest ih =>
    intro st h
    exact ih _ (serviceEventStep_spec env st e "" h).1

/-! ## Service events: connection notifications -/

theorem entryStep_length (l : List GattRemoteService) (e : ServiceEvent) :
    (entryStep l e).length = l.length ∨ (entryStep l e).length = l.length + 1 ∨
      (entryStep l e).length + 1 = l.length := by
  cases e with
  | added g =>
    simp only [entryStep]
    by_cases hany : l.any (fun d => decide (d.service.uuid = g.service.uuid)) = true
    · rw [if_pos hany]
      exact Or.inl rfl
    · rw [if_neg hany]
      exact Or.inr (Or.inl (by simp))
  | removed p =>
    simp only [entryStep]
    rw [List.length_eraseP]
    split
    · rename_i hany
      have hpos : 0 < l.length := by
        cases l with
        | nil => simp at hany
        | cons a t => simp
      exact Or.inr (Or.inr (by omega))
    · exact Or.inl rfl

theorem connectedDue_eq_length (l : List GattRemoteService) (e : ServiceEvent) :
    connectedDue l (entryStep l e) =
      (if l.length = 0 ∧ (entryStep l e).length = 1 then [true]
       else if l.length = 1 ∧ (entryStep l e).length = 0 then [false]
       else []) := by
  have hlen := entryStep_length l e
  have h0 : ∀ (x : List GattRemoteService), x = [] ↔ x.length = 0 :=
    fun x => List.length_eq_zero.symm
  unfold connectedDue
  generalize entryStep l e = l' at *
  by_cases h1 : l = [] <;> by_cases h2 : l' = []
  · have a1 := (h0 _).mp h1
    have a2 := (h0 _).mp h2
    simp [h1, h2, a2]
  · have a1 := (h0 _).mp h1
    have a2 : l'.length ≠ 0 := fun hh => h2 ((h0 _).mpr hh)
    have a3 : l'.length = 1 := by omega
    simp [h1, h2, a1, a3]
  · have a1 : l.length ≠ 0 := fun hh => h1 ((h0 _).mpr hh)
    have a2 := (h0 _).mp h2
    have a3 : l.length = 1 := by omega
    simp [h1, h2, a2, a3]
  · have a1 : l.length ≠ 0 := fun hh => h1 ((h0 _).mpr hh)
    have a2 : l'.length ≠ 0 := fun hh => h2 ((h0 _).mpr hh)
    simp [h1, h2, a1, a2]

theorem alternates_run (env : Env) (key : String) (evs : List ServiceEvent) :
    ∀ st, NoEmptyEntry st →
      alternates (decide (servicesOf st key = []))
        (connectedNotifications key (runServiceEvents env st evs).2) = true := by
  induction evs with
  | nil => intro st _; rfl
  | cons e rest ih =>
    intro st h
    obtain ⟨hinv, hentry, hnotif⟩ := serviceEventStep_spec env st e key h
    have hrest := ih _ hinv
    simp only [runServiceEvents, connectedNotifications_append]
    rw [hnotif]
    rw [hentry] at hrest
    by_cases hk : e.deviceKey env = some key
    · simp only [hk, if_true] at hrest ⊢
      unfold connectedDue
      generalize entryStep (servicesOf st key) e = l' at hrest ⊢
      generalize servicesOf st key = l at hrest ⊢
      by_cases h1 : l = [] <;> by_cases h2 : l' = []
      · simpa [h1, h2] using hrest
      · simpa [h1, h2, alternates] using hrest
      · simpa [h1, h2, alternates] using hrest
      · simpa [h1, h2] using hrest
    · simpa [hk] using hrest

/-- C2. Whatever service-added and service-removed events have been handled since the profile
was created, the handler of the next event emits `CONNECTED = true` for a device exactly once
when the number of services mirrored for the device goes from 0 to 1, `CONNECTED = false`
exactly once when it goes from 1 to 0, and no CONNECTED notification for the device otherwise;
the notifications emitted for a device over a whole sequence alternate true, false, true, ...
starting with true. -/
theorem connected_notifications_follow_transitions (env : Env) (evs : List ServiceEvent)
    (e : ServiceEvent) (key : String) :
    connectedNotifications key
        (serviceEventStep env (runServiceEvents env initial evs).1 e).2 =
      (if servicesCount (runServiceEvents env initial evs).1 key = 0 ∧
          servicesCount (serviceEventStep env (runServiceEvents env initial evs).1 e).1 key = 1
        then [true]
       else if servicesCount (runServiceEvents env initial evs).1 key = 1 ∧
          servicesCount (serviceEventStep env (runServiceEvents env initial evs).1 e).1 key = 0
        then [false]
       else []) ∧
    alternates true (connectedNotifications key (runServiceEvents env initial evs).2) = true := by
  constructor
  · have hreach := noEmptyEntry_run env evs initial noEmptyEntry_initial
    obtain ⟨_, hentry, hnotif⟩ :=
      serviceEventStep_spec env (runServiceEvents env initial evs).1 e key hreach
    rw [hnotif, servicesCount_eq, servicesCount_eq, hentry]
    by_cases hk : e.deviceKey env = some key
    · simp only [hk, if_true]
      exact connectedDue_eq_length _ e
    · simp only [hk, if_false]
      have : ¬ ((servicesOf (runServiceEvents env initial evs).1 key).length = 0 ∧
          (servicesOf (runServiceEvents env initial evs).1 key).length = 1) := by omega
      have h' : ¬ ((servicesOf (runServiceEvents env initial evs).1 key).length = 1 ∧
          (servicesOf (runServiceEvents env initial evs).1 key).length = 0) := by omega
      rw [if_neg this, if_neg h']
  · have h := alternates_run env key evs initial noEmptyEntry_initial
    have hinit : servicesOf initial key = [] := by simp [servicesOf, initial, UMap.find]
    simpa [hinit] using h

/-! ## Service events: when the device entry exists -/

theorem servicesOf_run (env : Env) (key : String) (evs : List ServiceEvent) :
    ∀ st, NoEmptyEntry st → (∀ e ∈ evs, e.deviceKey env = some key) →
      servicesOf (runServiceEvents env st evs).1 key = evs.foldl entryStep (servicesOf st key) := by
  induction evs with
  | nil => intro st _ _; rfl
  | cons e rest ih =>
    intro st h hall
    obtain ⟨hinv, hentry, _⟩ := serviceEventStep_spec env st e key h
    have hk : e.deviceKey env = some key := hall e (List.mem_cons_self _ _)
    simp only [runServiceEvents, List.foldl_cons]
    rw [ih _ hinv (fun e' he' => hall e' (List.mem_cons_of_mem _ he')), hentry, if_pos hk]

theorem not_removed_of_mem_eraseP (p : String) (l : List GattRemoteService)
    (hd : l.Pairwise DistinctServices) (s : GattRemoteService)
    (hs : s ∈ l.eraseP (fun d => decide (d.objectPath = p))) : s.objectPath ≠ p := by
  induction l with
  | nil => simp at hs
  | cons a t ih =>
    rw [List.pairwise_cons] at hd
    by_cases ha : a.objectPath = p
    · rw [List.eraseP_cons_of_pos (by simpa using ha)] at hs
      intro hsp
      exact (hd.1 s hs).1 (ha.trans hsp.symm)
    · rw [List.eraseP_cons_of_neg (by simpa using ha)] at hs
      rcases List.mem_cons.mp hs with rfl | hmem
      · exact ha
      · exact ih hd.2 hmem

theorem entry_fold_ne_nil (evs : List ServiceEvent) :
    ∀ l : List GattRemoteService, l.Pairwise DistinctServices →
      (∀ s ∈ l, noClashUntilRemoved s evs = true) → freshAdds evs = true →
      (evs.foldl entryStep l ≠ [] ↔
        (∃ s ∈ l, evs.any (ServiceEvent.isRemovalOf s.objectPath) = false) ∨
          hasUnmatchedAdd evs = true) := by
  induction evs with
  | nil =>
    intro l _ _ _
    cases l with
    | nil => simp [hasUnmatchedAdd]
    | cons a t => simp [hasUnmatchedAdd]
  | cons e rest ih =>
    intro l hd hclash hfresh
    cases e with
    | added g =>
      simp only [freshAdds, Bool.and_eq_true] at hfresh
      have hcl : ∀ s ∈ l, g.service.uuid ≠ s.service.uuid ∧ g.objectPath ≠ s.objectPath ∧
          noClashUntilRemoved s rest = true := by
        intro s hs
        have := hclash s hs
        simp only [noClashUntilRemoved, Bool.and_eq_true, decide_eq_true_eq] at this
        exact ⟨this.1.1, this.1.2, this.2⟩
      have hany : l.any (fun d => decide (d.service.uuid = g.service.uuid)) = false := by
        rw [List.any_eq_false]
        intro s hs
        have := (hcl s hs).1
        simpa using fun hh => this hh.symm
      have hstep : entryStep l (ServiceEvent.added g) = l ++ [g] := by
        simp [entryStep, hany]
      have hd' : (l ++ [g]).Pairwise DistinctServices := by
        rw [List.pairwise_append]
        refine ⟨hd, List.pairwise_singleton _ _, ?_⟩
        intro a ha b hb
        rw [List.mem_singleton] at hb
        subst hb
        exact ⟨fun hh => (hcl a ha).2.1 hh.symm, fun hh => (hcl a ha).1 hh.symm⟩
      have hclash' : ∀ s ∈ l ++ [g], noClashUntilRemoved s rest = true := by
        intro s hs
        rcases List.mem_append.mp hs with h1 | h1
        · exact (hcl s h1).2.2
        · rw [List.mem_singleton] at h1
          subst h1
          exact hfresh.1
      rw [List.foldl_cons, hstep, ih _ hd' hclash' hfresh.2]
      simp only [List.mem_append, List.mem_singleton, List.any_cons, ServiceEvent.isRemovalOf,
        Bool.false_or, hasUnmatchedAdd, Bool.or_eq_true, Bool.not_eq_true']
      constructor
      · rintro (⟨s, hs | rfl, hsurv⟩ | hu)
        · exact Or.inl ⟨s, hs, hsurv⟩
        · exact Or.inr (Or.inl hsurv)
        · exact Or.inr (Or.inr hu)
      · rintro (⟨s, hs, hsurv⟩ | hsurv | hu)
        · exact Or.inl ⟨s, Or.inl hs, hsurv⟩
        · exact Or.inl ⟨g, Or.inr rfl, hsurv⟩
        · exact Or.inr hu
    | removed p =>
      simp only [freshAdds] at hfresh
      have hstep : entryStep l (ServiceEvent.removed p) =
          l.eraseP (fun d => decide (d.objectPath = p)) := rfl
      have hd' : (l.eraseP (fun d => decide (d.objectPath = p))).Pairwise DistinctServices :=
        hd.sublist (List.eraseP_sublist l)
      have hclash' : ∀ s ∈ l.eraseP (fun d => decide (d.objectPath = p)),
          noClashUntilRemoved s rest = true := by
        intro s hs
        have hne := not_removed_of_mem_eraseP p l hd s hs
        have := hclash s (List.mem_of_mem_eraseP hs)
        simp only [noClashUntilRemoved, Bool.or_eq_true, decide_eq_true_eq] at this
        rcases this with h1 | h1
        · exact absurd h1.symm hne
        · exact h1
      rw [List.foldl_cons, hstep, ih _ hd' hclash' hfresh]
      simp only [List.any_cons, ServiceEvent.isRemovalOf, hasUnmatchedAdd, Bool.or_eq_false_iff,
        decide_eq_false_iff_not]
      constructor
      · rintro (⟨s, hs, hsurv⟩ | hu)
        · exact Or.inl ⟨s, List.mem_of_mem_eraseP hs,
            fun hh => not_removed_of_mem_eraseP p l hd s hs hh.symm, hsurv⟩
        · exact Or.inr hu
      · rintro (⟨s, hs, hne, hsurv⟩ | hu)
        · refine Or.inl ⟨s, ?_, hsurv⟩
          exact (List.mem_eraseP_of_neg (by simpa using fun hh => hne hh.symm)).mpr hs
        · exact Or.inr hu

/-- C1, as stated, fails: the device announces two service objects with the same uuid and then
removes the first. The second add was dropped as a duplicate, so the removal empties the list and
erases the entry, although the second service-added event has no later removal. -/
theorem device_entry_iff_unmatched_add_counterexample :
    (∀ e ∈ [ServiceEvent.added exampleServiceA, ServiceEvent.added exampleServiceB,
        ServiceEvent.removed exampleServiceA.objectPath],
      e.deviceKey exampleEnv = some "aa:bb") ∧
    (UMap.find
      (runServiceEvents exampleEnv initial
        [ServiceEvent.added exampleServiceA, ServiceEvent.added exampleServiceB,
          ServiceEvent.removed exampleServiceA.objectPath]).1.mDeviceServicesMap
      "aa:bb").isSome = false ∧
    hasUnmatchedAdd
      [ServiceEvent.added exampleServiceA, ServiceEvent.added exampleServiceB,
        ServiceEvent.removed exampleServiceA.objectPath] = true := by
  decide

/-- C1, amended. For every sequence of service-added and service-removed events that all resolve
to one device, and in which no service is added while a service added earlier and not yet removed
has the same uuid or the same object path, `mDeviceServicesMap` has an entry for the lower-cased
address of the device after the sequence if and only if at least one service-added event has no
later service-removed event for the same object path. -/
theorem device_entry_iff_unmatched_add (env : Env) (key : String) (evs : List ServiceEvent)
    (hdev : ∀ e ∈ evs, e.deviceKey env = some key) (hfresh : freshAdds evs = true) :
    (UMap.find (runServiceEvents env initial evs).1.mDeviceServicesMap key).isSome = true ↔
      hasUnmatchedAdd evs = true := by
  have hinv := noEmptyEntry_run env evs initial noEmptyEntry_initial
  rw [find_isSome_iff hinv, servicesOf_run env key evs initial noEmptyEntry_initial hdev]
  have hinit : servicesOf initial key = [] := by simp [servicesOf, initial, UMap.find]
  rw [hinit, entry_fold_ne_nil evs [] List.Pairwise.nil (by simp) hfresh]
  simp

/-- C1, amended, at a concrete sequence: two services with different uuids are added and the
first is removed; the entry is still there. -/
theorem device_entry_iff_unmatched_add_witness :
    (UMap.find
      (runServiceEvents exampleEnv initial
        [ServiceEvent.added exampleServiceA, ServiceEvent.added exampleServiceC,
          ServiceEvent.removed exampleServiceA.objectPath]).1.mDeviceServicesMap
      "aa:bb").isSome = true ↔
    hasUnmatchedAdd
      [ServiceEvent.added exampleServiceA, ServiceEvent.added exampleServiceC,
        ServiceEvent.removed exampleServiceA.objectPath] = true :=
  device_entry_iff_unmatched_add exampleEnv "aa:bb"
    [ServiceEvent.added exampleServiceA, ServiceEvent.added exampleServiceC,
      ServiceEvent.removed exampleServiceA.objectPath] (by decide) (by decide)

/-- C3. When the device that owns the service resolves and its entry already holds a service
with the same uuid, `addRemoteServiceToDevice` changes nothing (in particular the service list of
the device gets no duplicate) and emits nothing (in particular no `serviceFound`), whatever the
object path of the new service. -/
theorem add_service_same_uuid_idempotent (env : Env) (st : Bluez5ProfileGatt)
    (g existing : GattRemoteService) (address : String) (servicesList : List GattRemoteService)
    (hdev : env.findDeviceByObjectPath g.parentObjectPath = some address)
    (hentry : UMap.find st.mDeviceServicesMap (convertAddressToLowerCase address) =
      some servicesList)
    (hmem : existing ∈ servicesList) (huuid : existing.service.uuid = g.service.uuid) :
    addRemoteServiceToDevice env st g = (st, []) := by
  unfold addRemoteServiceToDevice
  simp only [hdev, hentry]
  cases hu : servicesList.find? (fun d => decide (d.service.uuid = g.service.uuid)) with
  | some d => rfl
  | none =>
    rw [List.find?_eq_none] at hu
    have := hu existing hmem
    simp [huuid] at this

/-- C3 at a concrete state: the device mirrors the service with uuid `1801`; a second service
object with that uuid at another path is added. -/
theorem add_service_same_uuid_idempotent_witness :
    addRemoteServiceToDevice exampleEnv
        (addRemoteServiceToDevice exampleEnv initial exampleServiceA).1 exampleServiceB =
      ((addRemoteServiceToDevice exampleEnv initial exampleServiceA).1, []) :=
  add_service_same_uuid_idempotent exampleEnv
    (addRemoteServiceToDevice exampleEnv initial exampleServiceA).1 exampleServiceB
    exampleServiceA "AA:BB" [exampleServiceA] (by decide) (by decide) (by decide) (by decide)

/-! ## Operation dispatcher: property bits -/

/-- C4. In every state, when the service and the characteristic resolve and the characteristic
lacks `PROPERTY_READ`, `readCharacteristic` (by address and by connection id) only invokes its
callback with `FAIL`; when it lacks `PROPERTY_WRITE`, `writeCharacteristic` (by address and by
connection id) only invokes its callback with `FAIL`. No remote read or write call is made and
the state, with every cached value of the mirror, is unchanged. -/
theorem operation_without_property_bit_fails (env : Env) (st : Bluez5ProfileGatt)
    (address : String) (connId : Nat) (service : BluetoothUuid)
    (characteristic : BluetoothGattCharacteristic) :
    (∀ rs rc, findService st address service = some rs →
      findCharacteristic rs characteristic.uuid = some rc →
      rc.characteristic.isPropertySet PROPERTY_READ = false →
      readCharacteristic env st address service characteristic.uuid =
        (st, [Effect.readCharacteristicCallback BluetoothError.FAIL {}])) ∧
    (∀ rs rc, findService st (getAddress st connId) service = some rs →
      findCharacteristic rs characteristic.uuid = some rc →
      rc.characteristic.isPropertySet PROPERTY_READ = false →
      readCharacteristicByConnId env st connId service characteristic.uuid =
        (st, [Effect.readCharacteristicCallback BluetoothError.FAIL {}])) ∧
    (∀ rs rc, findService st address service = some rs →
      findCharacteristic rs characteristic.uuid = some rc →
      rc.characteristic.isPropertySet PROPERTY_WRITE = false →
      writeCharacteristic env st address service characteristic =
        (st, [Effect.resultCallback BluetoothError.FAIL])) ∧
    (∀ rs rc, findService st (getAddress st connId) service = some rs →
      findCharacteristic rs characteristic.uuid = some rc →
      rc.characteristic.isPropertySet PROPERTY_WRITE = false →
      writeCharacteristicByConnId env st connId service characteristic =
        (st, [Effect.resultCallback BluetoothError.FAIL])) := by
  refine ⟨?_, ?_, ?_, ?_⟩
  · intro rs rc hs hc hp
    simp [readCharacteristic, hs, hc, hp]
  · intro rs rc hs hc hp
    unfold readCharacteristicByConnId
    by_cases he : getAddress st connId = ""
    · simp [he]
    · simp [he, readCharacteristic, hs, hc, hp]
  · intro rs rc hs hc hp
    simp [writeCharacteristic, hs, hc, hp]
  · intro rs rc hs hc hp
    unfold writeCharacteristicByConnId
    by_cases he : getAddress st connId = ""
    · simp [he]
    · simp [he, writeCharacteristic, hs, hc, hp]

/-- C4 at a concrete state: the characteristic `2a05` of service `1801` advertises notify only;
all four operations report `FAIL` and leave the state alone. -/
theorem operation_without_property_bit_fails_witness :
    readCharacteristic exampleEnv exampleNotifyOnlyState "aa:bb" "1801" "2a05" =
      (exampleNotifyOnlyState, [Effect.readCharacteristicCallback BluetoothError.FAIL {}]) ∧
    readCharacteristicByConnId exampleEnv exampleNotifyOnlyState 1 "1801" "2a05" =
      (exampleNotifyOnlyState, [Effect.readCharacteristicCallback BluetoothError.FAIL {}]) ∧
    writeCharacteristic exampleEnv exampleNotifyOnlyState "aa:bb" "1801"
        { uuid := "2a05", value := [1, 2] } =
      (exampleNotifyOnlyState, [Effect.resultCallback BluetoothError.FAIL]) ∧
    writeCharacteristicByConnId exampleEnv exampleNotifyOnlyState 1 "1801"
        { uuid := "2a05", value := [1, 2] } =
      (exampleNotifyOnlyState, [Effect.resultCallback BluetoothError.FAIL]) :=
  have h := operation_without_property_bit_fails exampleEnv exampleNotifyOnlyState "aa:bb" 1
    "1801" { uuid := "2a05", value := [1, 2] }
  ⟨h.1 exampleServiceAWithCharacteristic exampleNotifyOnlyCharacteristic (by decide) (by decide) (by decide),
   h.2.1 exampleServiceAWithCharacteristic exampleNotifyOnlyCharacteristic (by decide) (by decide) (by decide),
   h.2.2.1 exampleServiceAWithCharacteristic exampleNotifyOnlyCharacteristic (by decide) (by decide) (by decide),
   h.2.2.2 exampleServiceAWithCharacteristic exampleNotifyOnlyCharacteristic (by decide) (by decide) (by decide)⟩

/-! ## Lower-casing is idempotent -/

theorem toLower_toLower (c : Char) : c.toLower.toLower = c.toLower := by
  by_cases h : c.toNat ≥ 65 ∧ c.toNat ≤ 90
  · have hlow : c.toLower = Char.ofNat (c.toNat + 32) := by
      simp [Char.toLower, h]
    have hval : (Char.ofNat (c.toNat + 32)).toNat = c.toNat + 32 := by
      have hv : (c.toNat + 32).isValidChar := by
        left
        omega
      have hv' : (c.val.toNat + 32).isValidChar := hv
      simp only [Char.ofNat, Char.toNat, dif_pos hv', Char.ofNatAux]
      rfl
    rw [hlow]
    have hnot : ¬ ((Char.ofNat (c.toNat + 32)).toNat ≥ 65 ∧ (Char.ofNat (c.toNat + 32)).toNat ≤ 90) := by
      rw [hval]
      omega
    simp only [Char.toLower]
    rw [if_neg hnot]
  · have hlow : c.toLower = c := by
      simp only [Char.toLower]
      rw [if_neg h]
    rw [hlow, hlow]

theorem convertAddressToLowerCase_idem (address : String) :
    convertAddressToLowerCase (convertAddressToLowerCase address) =
      convertAddressToLowerCase address := by
  have hcomp : Char.toLower ∘ Char.toLower = Char.toLower := by
    funext c
    exact toLower_toLower c
  simp [convertAddressToLowerCase, hcomp]

/-! ## The invariant of the mirror index -/

namespace UMap

variable {κ ν : Type} [DecidableEq κ]

theorem mem_of_find {m : UMap κ ν} {k : κ} {v : ν} (h : find m k = some v) : (k, v) ∈ m := by
  induction m with
  | nil => simp [find] at h
  | cons p rest ih =>
    obtain ⟨a, b⟩ := p
    by_cases hk : a = k
    · simp [find, hk] at h
      subst hk
      subst h
      exact List.mem_cons_self _ _
    · simp [find, hk] at h
      exact List.mem_cons_of_mem _ (ih h)

theorem mem_set {m : UMap κ ν} {k : κ} {v : ν} {p : κ × ν} (h : p ∈ set m k v) :
    p ∈ m ∨ p = (k, v) := by
  induction m with
  | nil =>
    simp [set] at h
    exact Or.inr h
  | cons q rest ih =>
    obtain ⟨a, b⟩ := q
    by_cases hk : a = k
    · simp [set, hk] at h
      rcases h with h | h
      · exact Or.inr h
      · exact Or.inl (List.mem_cons_of_mem _ h)
    · simp [set, hk] at h
      rcases h with h | h
      · exact Or.inl (by rw [h]; exact List.mem_cons_self _ _)
      · rcases ih h with h' | h'
        · exact Or.inl (List.mem_cons_of_mem _ h')
        · exact Or.inr h'

theorem mem_insert {m : UMap κ ν} {k : κ} {v : ν} {p : κ × ν} (h : p ∈ insert m k v) :
    p ∈ m ∨ p = (k, v) := by
  unfold insert at h
  cases hf : find m k with
  | some w =>
    rw [hf] at h
    exact Or.inl h
  | none =>
    rw [hf] at h
    simpa using h

theorem mem_erase {m : UMap κ ν} {k : κ} {p : κ × ν} (h : p ∈ erase m k) : p ∈ m :=
  (List.mem_filter.mp h).1

end UMap

theorem mem_modifyFirst {α : Type} {p : α → Bool} {f : α → α} {l : List α} {y : α}
    (h : y ∈ modifyFirst p f l) : y ∈ l ∨ ∃ x ∈ l, p x = true ∧ y = f x := by
  induction l with
  | nil => simp [modifyFirst] at h
  | cons a t ih =>
    by_cases hp : p a = true
    · simp [modifyFirst, hp] at h
      rcases h with h | h
      · exact Or.inr ⟨a, List.mem_cons_self _ _, hp, h⟩
      · exact Or.inl (List.mem_cons_of_mem _ h)
    · simp [modifyFirst, hp] at h
      rcases h with h | h
      · exact Or.inl (by rw [h]; exact List.mem_cons_self _ _)
      · rcases ih h with h' | ⟨x, hx, hpx, hy⟩
        · exact Or.inl (List.mem_cons_of_mem _ h')
        · exact Or.inr ⟨x, List.mem_cons_of_mem _ hx, hpx, hy⟩

theorem map_modifyFirst {α β : Type} (p : α → Bool) (f : α → α) (g : α → β)
    (hg : ∀ x, g (f x) = g x) (l : List α) : (modifyFirst p f l).map g = l.map g := by
  induction l with
  | nil => rfl
  | cons a t ih =>
    by_cases hp : p a = true
    · simp [modifyFirst, hp, hg]
    · simp [modifyFirst, hp, ih]

theorem find?_modifyFirst {α : Type} (p : α → Bool) (f : α → α)
    (hf : ∀ x, p x = true → p (f x) = true) (l : List α) :
    (modifyFirst p f l).find? p = (l.find? p).map f := by
  induction l with
  | nil => rfl
  | cons a t ih =>
    by_cases hp : p a = true
    · simp [modifyFirst, hp, hf a hp]
    · simp [modifyFirst, hp, ih]

theorem indexInv_set {m : UMap String (List GattRemoteService)} (h : IndexInv m) (k : String)
    (l : List GattRemoteService) (hk : convertAddressToLowerCase k = k)
    (hl : ∀ s ∈ l, ServiceSynced s) : IndexInv (UMap.set m k l) := by
  intro p hp
  rcases UMap.mem_set hp with h' | h'
  · exact h p h'
  · subst h'
    exact ⟨hk, hl⟩

theorem indexInv_find {m : UMap String (List GattRemoteService)} (h : IndexInv m) {k : String}
    {l : List GattRemoteService} (hf : UMap.find m k = some l) :
    convertAddressToLowerCase k = k ∧ ∀ s ∈ l, ServiceSynced s :=
  h (k, l) (UMap.mem_of_find hf)

theorem indexInv_replace {m : UMap String (List GattRemoteService)} (h : IndexInv m)
    {k : String} {l : List GattRemoteService} (hf : UMap.find m k = some l)
    (p : GattRemoteService → Bool) (s' : GattRemoteService) (hs : ServiceSynced s') :
    IndexInv (UMap.set m k (modifyFirst p (fun _ => s') l)) := by
  obtain ⟨hk, hl⟩ := indexInv_find h hf
  refine indexInv_set h k _ hk ?_
  intro s hsm
  rcases mem_modifyFirst hsm with h1 | ⟨x, _, _, h1⟩
  · exact hl s h1
  · rw [h1]
    exact hs

theorem serviceSynced_of {s s' : GattRemoteService} (h : ServiceSynced s)
    (hlive : ∀ rc ∈ s'.gattRemoteCharacteristics,
      ∃ rc0 ∈ s.gattRemoteCharacteristics, rc0.characteristic.uuid = rc.characteristic.uuid)
    (hsnap : ∀ u ∈ s.service.characteristics.map (fun c => c.uuid),
      u ∈ s'.service.characteristics.map (fun c => c.uuid)) : ServiceSynced s' := by
  intro rc hrc
  obtain ⟨rc0, hrc0, hu⟩ := hlive rc hrc
  rw [← hu]
  exact hsnap _ (h rc0 hrc0)

theorem indexInv_addRemoteServiceToDevice (env : Env) (st : Bluez5ProfileGatt)
    (g : GattRemoteService) (h : IndexInv st.mDeviceServicesMap)
    (hfresh : g.gattRemoteCharacteristics = []) :
    IndexInv (addRemoteServiceToDevice env st g).1.mDeviceServicesMap := by
  have hg : ServiceSynced g := by
    intro rc hrc
    rw [hfresh] at hrc
    simp at hrc
  unfold addRemoteServiceToDevice
  cases hdev : env.findDeviceByObjectPath g.parentObjectPath with
  | none => exact h
  | some addr =>
    dsimp only
    cases hf : UMap.find st.mDeviceServicesMap (convertAddressToLowerCase addr) with
    | none =>
      dsimp only
      intro p hp
      rcases UMap.mem_insert hp with h' | h'
      · exact h p h'
      · subst h'
        refine ⟨convertAddressToLowerCase_idem addr, ?_⟩
        intro s hs
        rw [List.mem_singleton] at hs
        rw [hs]
        exact hg
    | some l =>
      dsimp only
      cases hu : l.find? (fun d => decide (d.service.uuid = g.service.uuid)) with
      | some d => exact h
      | none =>
        dsimp only
        rw [updateRemoteDeviceServices_index]
        obtain ⟨hk, hl⟩ := indexInv_find h hf
        refine indexInv_set h _ _ hk ?_
        intro s hs
        rcases List.mem_append.mp hs with h1 | h1
        · exact hl s h1
        · rw [List.mem_singleton] at h1
          rw [h1]
          exact hg

theorem indexInv_removeRemoteGattService (env : Env) (st : Bluez5ProfileGatt) (path : String)
    (h : IndexInv st.mDeviceServicesMap) :
    IndexInv (removeRemoteGattService env st path).1.mDeviceServicesMap := by
  unfold removeRemoteGattService
  cases hdev : env.findDeviceByObjectPath (splitInPathAndName path).1 with
  | none => exact h
  | some addr =>
    dsimp only
    cases hf : UMap.find st.mDeviceServicesMap (convertAddressToLowerCase addr) with
    | none => exact h
    | some l =>
      dsimp only
      obtain ⟨hk, hl⟩ := indexInv_find h hf
      split
      · intro p hp
        exact h p (UMap.mem_erase hp)
      · refine indexInv_set h _ _ hk ?_
        intro s hs
        exact hl s (List.mem_of_mem_eraseP hs)

theorem getRemoteGattService_synced (env : Env) (st : Bluez5ProfileGatt) (path : String)
    (s : GattRemoteService) (h : IndexInv st.mDeviceServicesMap)
    (hget : getRemoteGattService env st path = some s) : ServiceSynced s := by
  unfold getRemoteGattService at hget
  cases hdev : env.findDeviceByObjectPath (splitInPathAndName path).1 with
  | none => simp [hdev] at hget
  | some addr =>
    cases hf : UMap.find st.mDeviceServicesMap (convertAddressToLowerCase addr) with
    | none => simp [hdev, hf] at hget
    | some l =>
      simp only [hdev, hf] at hget
      exact (indexInv_find h hf).2 s (List.mem_of_find?_eq_some hget)

theorem indexInv_setRemoteGattService (env : Env) (st : Bluez5ProfileGatt) (path : String)
    (s : GattRemoteService) (h : IndexInv st.mDeviceServicesMap) (hs : ServiceSynced s) :
    IndexInv (setRemoteGattService env st path s).mDeviceServicesMap := by
  unfold setRemoteGattService
  cases hdev : env.findDeviceByObjectPath (splitInPathAndName path).1 with
  | none => exact h
  | some addr =>
    dsimp only
    cases hf : UMap.find st.mDeviceServicesMap (convertAddressToLowerCase addr) with
    | none => exact h
    | some l => exact indexInv_replace h hf _ s hs

theorem findService_synced (st : Bluez5ProfileGatt) (address : String) (service : BluetoothUuid)
    (s : GattRemoteService) (h : IndexInv st.mDeviceServicesMap)
    (hfind : findService st address service = some s) : ServiceSynced s := by
  unfold findService at hfind
  cases hf : UMap.find st.mDeviceServicesMap address with
  | none => simp [hf] at hfind
  | some l =>
    simp only [hf] at hfind
    exact (indexInv_find h hf).2 s (List.mem_of_find?_eq_some hfind)

theorem indexInv_setFoundService (st : Bluez5ProfileGatt) (address : String)
    (service : BluetoothUuid) (s : GattRemoteService) (h : IndexInv st.mDeviceServicesMap)
    (hs : ServiceSynced s) :
    IndexInv (setFoundService st address service s).mDeviceServicesMap := by
  unfold setFoundService
  cases hf : UMap.find st.mDeviceServicesMap address with
  | none => exact h
  | some l => exact indexInv_replace h hf _ s hs

theorem indexInv_addRemoteCharacteristicToService (env : Env) (st : Bluez5ProfileGatt)
    (c : GattRemoteCharacteristic) (h : IndexInv st.mDeviceServicesMap) :
    IndexInv (addRemoteCharacteristicToService env st c).mDeviceServicesMap := by
  unfold addRemoteCharacteristicToService
  cases hget : getRemoteGattService env st c.parentObjectPath with
  | none => exact h
  | some s =>
    dsimp only
    have hs := getRemoteGattService_synced env st _ s h hget
    refine indexInv_setRemoteGattService env st _ _ h ?_
    intro rc hrc
    simp only [BluetoothGattService.addCharacteristic, List.map_append, List.mem_append,
      List.map_cons, List.map_nil, List.mem_singleton] at hrc ⊢
    rcases hrc with h1 | h1
    · exact Or.inl (hs rc h1)
    · exact Or.inr (by rw [h1])

theorem indexInv_removeRemoteGattCharacteristic (env : Env) (st : Bluez5ProfileGatt)
    (path : String) (h : IndexInv st.mDeviceServicesMap) :
    IndexInv (removeRemoteGattCharacteristic env st path).mDeviceServicesMap := by
  unfold removeRemoteGattCharacteristic
  dsimp only
  cases hget : getRemoteGattService env st (splitInPathAndName path).1 with
  | none => exact h
  | some s =>
    dsimp only
    have hs := getRemoteGattService_synced env st _ s h hget
    refine indexInv_setRemoteGattService env st _ _ h ?_
    intro rc hrc
    exact hs rc (List.mem_of_mem_eraseP hrc)

theorem indexInv_addRemoteDescriptorToCharacteristic (env : Env) (st : Bluez5ProfileGatt)
    (d : GattRemoteDescriptor) (result : Bluez5ProfileGatt × List Effect)
    (h : IndexInv st.mDeviceServicesMap)
    (hres : addRemoteDescriptorToCharacteristic env st d = some result) :
    IndexInv result.1.mDeviceServicesMap := by
  unfold addRemoteDescriptorToCharacteristic at hres
  dsimp only at hres
  cases hget : getRemoteGattService env st (splitInPathAndName d.parentObjectPath).1 with
  | none =>
    rw [hget] at hres
    simp only [Option.some.injEq] at hres
    rw [← hres]
    exact h
  | some s =>
    rw [hget] at hres
    dsimp only at hres
    have hs := getRemoteGattService_synced env st _ s h hget
    cases hc : s.gattRemoteCharacteristics.find?
        (fun characteristic => decide (characteristic.objectPath = d.parentObjectPath)) with
    | none =>
      rw [hc] at hres
      simp at hres
    | some c =>
      rw [hc] at hres
      simp only [Option.some.injEq] at hres
      rw [← hres]
      refine indexInv_setRemoteGattService env st _ _ h ?_
      refine serviceSynced_of hs ?_ ?_
      · intro rc hrc
        rcases mem_modifyFirst hrc with h1 | ⟨x, _, _, h1⟩
        · exact ⟨rc, h1, rfl⟩
        · refine ⟨c, List.mem_of_find?_eq_some hc, ?_⟩
          rw [h1]
          rfl
      · intro u hu
        dsimp only
        split
        · dsimp only
          rw [map_modifyFirst]
          · exact hu
          · intro x
            rfl
        · exact hu

theorem indexInv_readCharacteristic (env : Env) (st : Bluez5ProfileGatt) (address : String)
    (service characteristic : BluetoothUuid) (h : IndexInv st.mDeviceServicesMap) :
    IndexInv (readCharacteristic env st address service characteristic).1.mDeviceServicesMap := by
  unfold readCharacteristic
  dsimp only
  cases hfs : findService st address service with
  | none => exact h
  | some rs =>
    dsimp only
    have hs := findService_synced st address service rs h hfs
    cases hfc : findCharacteristic rs characteristic with
    | none => exact h
    | some rc =>
      dsimp only
      split
      · refine indexInv_setFoundService st address service _ h ?_
        refine serviceSynced_of hs (fun rc' hrc' => ⟨rc', hrc', rfl⟩) ?_
        intro u hu
        simp only [BluetoothGattService.updateCharacteristicValue]
        rw [map_modifyFirst]
        · exact hu
        · intro x
          rfl
      · exact h

theorem indexInv_writeCharacteristic (env : Env) (st : Bluez5ProfileGatt) (address : String)
    (service : BluetoothUuid) (characteristic : BluetoothGattCharacteristic)
    (h : IndexInv st.mDeviceServicesMap) :
    IndexInv (writeCharacteristic env st address service characteristic).1.mDeviceServicesMap := by
  unfold writeCharacteristic
  cases hfs : findService st address service with
  | none => exact h
  | some rs =>
    dsimp only
    have hs := findService_synced st address service rs h hfs
    cases hfc : findCharacteristic rs characteristic.uuid with
    | none => exact h
    | some rc =>
      dsimp only
      split
      · split
        · refine indexInv_setFoundService st address service _ h ?_
          refine serviceSynced_of hs (fun rc' hrc' => ⟨rc', hrc', rfl⟩) ?_
          intro u hu
          simp only [BluetoothGattService.updateCharacteristicValue]
          rw [map_modifyFirst]
          · exact hu
          · intro x
            rfl
        · exact h
      · exact h

theorem serviceSynced_setFoundCharacteristic (rs : GattRemoteService)
    (characteristic : BluetoothUuid) (rc rc' : GattRemoteCharacteristic)
    (hs : ServiceSynced rs) (hfc : findCharacteristic rs characteristic = some rc)
    (hu : rc'.characteristic.uuid = rc.characteristic.uuid) :
    ServiceSynced (setFoundCharacteristic rs characteristic rc') := by
  refine serviceSynced_of hs ?_ (fun u hu' => hu')
  intro x hx
  rcases mem_modifyFirst hx with h1 | ⟨y, _, _, h1⟩
  · exact ⟨x, h1, rfl⟩
  · refine ⟨rc, List.mem_of_find?_eq_some hfc, ?_⟩
    rw [h1, hu]

theorem indexInv_readDescriptor (env : Env) (st : Bluez5ProfileGatt) (address : String)
    (service characteristic descriptor : BluetoothUuid) (h : IndexInv st.mDeviceServicesMap) :
    IndexInv
      (readDescriptor env st address service characteristic descriptor).1.mDeviceServicesMap := by
  unfold readDescriptor
  dsimp only
  cases hfs : findService st address service with
  | none => exact h
  | some rs =>
    dsimp only
    have hs := findService_synced st address service rs h hfs
    cases hfc : findCharacteristic rs characteristic with
    | none => exact h
    | some rc =>
      dsimp only
      split
      · cases hfd : findDescriptor rc descriptor with
        | none => exact h
        | some rd =>
          exact indexInv_setFoundService st address service _ h
            (serviceSynced_setFoundCharacteristic rs characteristic rc _ hs hfc rfl)
      · exact h

theorem indexInv_writeDescriptor (env : Env) (st : Bluez5ProfileGatt) (address : String)
    (service characteristic : BluetoothUuid) (descriptor : BluetoothGattDescriptor)
    (h : IndexInv st.mDeviceServicesMap) :
    IndexInv
      (writeDescriptor env st address service characteristic descriptor).1.mDeviceServicesMap := by
  unfold writeDescriptor
  cases hfs : findService st address service with
  | none => exact h
  | some rs =>
    dsimp only
    have hs := findService_synced st address service rs h hfs
    cases hfc : findCharacteristic rs characteristic with
    | none => exact h
    | some rc =>
      dsimp only
      split
      · cases hfd : findDescriptor rc descriptor.uuid with
        | none => exact h
        | some rd =>
          dsimp only
          split
          · exact indexInv_setFoundService st address service _ h
              (serviceSynced_setFoundCharacteristic rs characteristic rc _ hs hfc rfl)
          · exact h
      · exact h

theorem indexInv_of_reachable {st : Bluez5ProfileGatt} (h : Reachable st) :
    IndexInv st.mDeviceServicesMap := by
  induction h with
  | initial =>
    intro p hp
    simp [initial] at hp
  | addRemoteServiceToDevice env st g _ hfresh _ ih =>
    exact indexInv_addRemoteServiceToDevice env st g ih hfresh
  | removeRemoteGattService env st path _ ih =>
    exact indexInv_removeRemoteGattService env st path ih
  | addRemoteCharacteristicToService env st c _ ih =>
    exact indexInv_addRemoteCharacteristicToService env st c ih
  | removeRemoteGattCharacteristic env st path _ ih =>
    exact indexInv_removeRemoteGattCharacteristic env st path ih
  | addRemoteDescriptorToCharacteristic env st d result _ hres ih =>
    exact indexInv_addRemoteDescriptorToCharacteristic env st d result ih hres
  | readCharacteristic env st address service characteristic _ ih =>
    exact indexInv_readCharacteristic env st address service characteristic ih
  | writeCharacteristic env st address service characteristic _ ih =>
    exact indexInv_writeCharacteristic env st address service characteristic ih
  | readDescriptor env st address service characteristic descriptor _ ih =>
    exact indexInv_readDescriptor env st address service characteristic descriptor ih
  | writeDescriptor env st address service characteristic descriptor _ ih =>
    exact indexInv_writeDescriptor env st address service characteristic descriptor ih
  | other st st' _ hsame ih =>
    rw [hsame]
    exact ih

/-! ## Write-back of a written characteristic value -/

theorem getService_after_refresh (st : Bluez5ProfileGatt) (address : String)
    (service : BluetoothUuid) (l : List GattRemoteService) (rs : GattRemoteService)
    (hlow : convertAddressToLowerCase address = address)
    (hf : UMap.find st.mDeviceServicesMap address = some l)
    (hs : l.find? (fun serviceIt => decide (serviceIt.service.uuid = service)) = some rs) :
    getService (discoverServicesAddress st address).1 address service = rs.service := by
  unfold getService discoverServicesAddress
  simp only [hf, hlow, UMap.set, UMap.find, if_true]
  rw [List.find?_map]
  have : ((fun service_1 : BluetoothGattService => decide (service_1.uuid = service)) ∘
      fun devService : GattRemoteService => devService.service) =
      fun serviceIt => decide (serviceIt.service.uuid = service) := rfl
  rw [this, hs]
  rfl

theorem find?_isSome_of_uuid_mem (l : List BluetoothGattCharacteristic) (uuid : BluetoothUuid)
    (h : uuid ∈ l.map (fun c => c.uuid)) :
    ∃ c, l.find? (fun c => decide (c.uuid = uuid)) = some c := by
  induction l with
  | nil => simp at h
  | cons a t ih =>
    by_cases ha : a.uuid = uuid
    · exact ⟨a, by simp [List.find?, ha]⟩
    · simp only [List.map_cons, List.mem_cons] at h
      rcases h with h | h
      · exact absurd h.symm ha
      · obtain ⟨c, hc⟩ := ih h
        exact ⟨c, by simp [List.find?, ha, hc]⟩

/-- C5. In every reachable state, when `writeCharacteristic(address, service, characteristic)`
reports success, then after the per-device refresh `discoverServices(address)` (no bus event in
between) the service returned by `getService(address, service)` caches the written value for the
characteristic with the written uuid. -/
theorem written_characteristic_value_read_back (env : Env) (st : Bluez5ProfileGatt)
    (address : String) (service : BluetoothUuid) (characteristic : BluetoothGattCharacteristic)
    (hreach : Reachable st)
    (hok : Effect.resultCallback BluetoothError.NONE ∈
      (writeCharacteristic env st address service characteristic).2) :
    cachedCharacteristicValue
        (getService
          (discoverServicesAddress (writeCharacteristic env st address service characteristic).1
            address).1
          address service)
        characteristic.uuid =
      some characteristic.value := by
  have hinv := indexInv_of_reachable hreach
  unfold writeCharacteristic at hok ⊢
  cases hfs : findService st address service with
  | none =>
    rw [hfs] at hok
    simp at hok
  | some rs =>
    rw [hfs] at hok
    dsimp only at hok ⊢
    cases hfc : findCharacteristic rs characteristic.uuid with
    | none =>
      rw [hfc] at hok
      simp at hok
    | some rc =>
      rw [hfc] at hok
      dsimp only at hok ⊢
      by_cases hp : rc.characteristic.isPropertySet PROPERTY_WRITE = true
      · rw [if_pos hp] at hok ⊢
        by_cases hw : env.characteristicWriteValue rc.objectPath characteristic.value = true
        · rw [if_pos hw]
          have hsync := findService_synced st address service rs hinv hfs
          unfold findService at hfs
          cases hf : UMap.find st.mDeviceServicesMap address with
          | none => simp [hf] at hfs
          | some l =>
            simp only [hf] at hfs
            have hlow := (indexInv_find hinv hf).1
            have huuid : rs.service.uuid = service := by
              simpa using List.find?_some hfs
            have hf' : UMap.find
                (setFoundService st address service
                  { rs with
                    service :=
                      rs.service.updateCharacteristicValue characteristic.uuid
                        characteristic.value }).mDeviceServicesMap address =
                some (modifyFirst (fun serviceIt => decide (serviceIt.service.uuid = service))
                  (fun _ =>
                    { rs with
                      service :=
                        rs.service.updateCharacteristicValue characteristic.uuid
                          characteristic.value }) l) := by
              simp [setFoundService, hf, UMap.find_set_self]
            have hs' : (modifyFirst (fun serviceIt => decide (serviceIt.service.uuid = service))
                  (fun _ =>
                    { rs with
                      service :=
                        rs.service.updateCharacteristicValue characteristic.uuid
                          characteristic.value }) l).find?
                (fun serviceIt => decide (serviceIt.service.uuid = service)) =
                some { rs with
                      service :=
                        rs.service.updateCharacteristicValue characteristic.uuid
                          characteristic.value } := by
              rw [find?_modifyFirst, hfs]
              · rfl
              · intro x _
                simpa [BluetoothGattService.updateCharacteristicValue] using huuid
            rw [getService_after_refresh _ address service _ _ hlow hf' hs']
            have hrc : rc ∈ rs.gattRemoteCharacteristics := List.mem_of_find?_eq_some hfc
            have hrcu : rc.characteristic.uuid = characteristic.uuid := by
              simpa using List.find?_some hfc
            have hmem := hsync rc hrc
            rw [hrcu] at hmem
            obtain ⟨c, hc⟩ := find?_isSome_of_uuid_mem _ _ hmem
            simp only [cachedCharacteristicValue, BluetoothGattService.updateCharacteristicValue]
            rw [find?_modifyFirst, hc]
            · rfl
            · intro x hx
              exact hx
        · rw [if_neg hw] at hok
          simp at hok
      · rw [if_neg hp] at hok
        simp at hok

/-- C5 at a concrete state: the device mirrors service `1801` with the writable characteristic
`2a05`; the bytes 1, 2 are written and read back through `getService` after the refresh. -/
theorem written_characteristic_value_read_back_witness :
    cachedCharacteristicValue
        (getService
          (discoverServicesAddress
            (writeCharacteristic exampleEnv exampleWritableState "aa:bb" "1801"
              { uuid := "2a05", value := [1, 2] }).1
            "aa:bb").1
          "aa:bb" "1801")
        "2a05" =
      some [1, 2] :=
  written_characteristic_value_read_back exampleEnv exampleWritableState "aa:bb" "1801"
    { uuid := "2a05", value := [1, 2] }
    (Reachable.addRemoteCharacteristicToService exampleEnv _ exampleWritableCharacteristic
      (Reachable.addRemoteServiceToDevice exampleEnv initial exampleServiceA Reachable.initial
        rfl rfl))
    (by decide)

/-- C6 fails on the code. The mirror is built by bus events: the service `1801`, its
characteristic `2a05` advertising `write` (the property bitset is `PROPERTY_WRITE`) and the
descriptor `2902`, cached with no bytes. `writeDescriptor` with the bytes 1, 0 calls the remote
write, which succeeds, and reports `NONE`, but it stores the value in the descriptor copy of the
live characteristic node only; after the per-device refresh `getService` still returns the
descriptor with no bytes. -/
theorem written_descriptor_value_not_read_back :
    exampleWriteOnlyState.mDeviceServicesMap =
      [("aa:bb",
        [{ parentObjectPath := "/org/bluez/hci0/dev_AA_BB"
           objectPath := "/org/bluez/hci0/dev_AA_BB/service0001"
           service :=
             { uuid := "1801"
               characteristics :=
                 [{ uuid := "2a05", properties := PROPERTY_WRITE,
                    descriptors := [{ uuid := "2902" }] }] }
           gattRemoteCharacteristics :=
             [{ parentObjectPath := "/org/bluez/hci0/dev_AA_BB/service0001"
                objectPath := "/org/bluez/hci0/dev_AA_BB/service0001/char0002"
                characteristic :=
                  { uuid := "2a05", properties := PROPERTY_WRITE,
                    descriptors := [{ uuid := "2902" }] }
                gattRemoteDescriptors :=
                  [{ parentObjectPath := "/org/bluez/hci0/dev_AA_BB/service0001/char0002"
                     objectPath := "/org/bluez/hci0/dev_AA_BB/service0001/char0002/desc0004"
                     descriptor := { uuid := "2902" } }] }] }])] ∧
    (writeDescriptor exampleEnv exampleWriteOnlyState "aa:bb" "1801" "2a05"
        { uuid := "2902", value := [1, 0] }).2 =
      [Effect.callDescriptorWriteValue
          "/org/bluez/hci0/dev_AA_BB/service0001/char0002/desc0004" [1, 0],
        Effect.resultCallback BluetoothError.NONE] ∧
    cachedDescriptorValue
        (getService
          (discoverServicesAddress
            (writeDescriptor exampleEnv exampleWriteOnlyState "aa:bb" "1801" "2a05"
              { uuid := "2902", value := [1, 0] }).1
            "aa:bb").1
          "aa:bb" "1801")
        "2a05" "2902" =
      some [] := by
  decide

/-! ## Identifier allocator -/

theorem serviceCallStep_counter (st : Bluez5ProfileGatt) (call : ServiceCall) :
    ((serviceCallStep st call).2.2 = none ∧
      (serviceCallStep st call).1.nextServiceIdCounter = st.nextServiceIdCounter) ∨
    ((∃ appId service registered, call = ServiceCall.addService appId service registered) ∧
      (serviceCallStep st call).2.2 = some st.nextServiceIdCounter ∧
      (serviceCallStep st call).1.nextServiceIdCounter =
        (st.nextServiceIdCounter + 1) % 65536) := by
  cases call with
  | addService appId service registered =>
    cases hroot : st.mObjectManagerGattServer with
    | none =>
      left
      simp [serviceCallStep, addService, hroot]
    | some objPath =>
      right
      refine ⟨⟨appId, service, registered, rfl⟩, ?_, ?_⟩
      · simp [serviceCallStep, addService, hroot, nextServiceId]
      · simp only [serviceCallStep, addService, hroot, nextServiceId, addServiceRegisterCallback]
        split
        · split <;> rfl
        · rfl
  | removeService appId serviceId registered =>
    left
    simp only [serviceCallStep, removeService, removeServiceRegisterCallback]
    cases st.mObjectManagerGattServer with
    | none => exact ⟨rfl, rfl⟩
    | some objPath =>
      dsimp only
      cases UMap.find st.mGattLocalApplications appId with
      | none => exact ⟨rfl, rfl⟩
      | some application =>
        dsimp only
        cases UMap.find application.mGattLocalServices serviceId with
        | none => exact ⟨rfl, rfl⟩
        | some s => exact ⟨rfl, rfl⟩

theorem issuedServiceIds_increasing (calls : List ServiceCall) :
    ∀ st : Bluez5ProfileGatt, st.nextServiceIdCounter + countAddService calls ≤ 65536 →
      (∀ id ∈ issuedServiceIds st calls, st.nextServiceIdCounter ≤ id) ∧
      (issuedServiceIds st calls).Pairwise (fun earlier later => earlier < later) := by
  induction calls with
  | nil =>
    intro st _
    simp [issuedServiceIds]
  | cons call rest ih =>
    intro st hbound
    rcases serviceCallStep_counter st call with ⟨hnone, hsame⟩ | ⟨⟨a, s, r, hcall⟩, hsome, hnext⟩
    · have hle : countAddService rest ≤ countAddService (call :: rest) := by
        cases call <;> simp [countAddService]
      have := ih (serviceCallStep st call).1 (by rw [hsame]; omega)
      simp only [issuedServiceIds, hnone]
      rw [hsame] at this
      exact this
    · subst hcall
      simp only [countAddService] at hbound
      simp only [issuedServiceIds, hsome]
      by_cases hlast : countAddService rest = 0
      · have hrest : ∀ (calls : List ServiceCall), countAddService calls = 0 →
            ∀ st' : Bluez5ProfileGatt, issuedServiceIds st' calls = [] := by
          intro calls
          induction calls with
          | nil => intro _ _; rfl
          | cons c t iht =>
            intro hc st'
            cases c with
            | addService _ _ _ => simp [countAddService] at hc
            | removeService a' s' r' =>
              simp only [countAddService] at hc
              rcases serviceCallStep_counter st' (ServiceCall.removeService a' s' r') with
                ⟨hn, _⟩ | ⟨⟨_, _, _, hcontra⟩, _, _⟩
              · simp only [issuedServiceIds, hn]
                exact iht hc _
              · cases hcontra
        rw [hrest rest hlast]
        simp
      · have hlt : st.nextServiceIdCounter + 1 < 65536 := by omega
        have hmod : (st.nextServiceIdCounter + 1) % 65536 = st.nextServiceIdCounter + 1 :=
          Nat.mod_eq_of_lt hlt
        rw [hmod] at hnext
        have := ih (serviceCallStep st (ServiceCall.addService a s r)).1
          (by rw [hnext]; omega)
        rw [hnext] at this
        refine ⟨?_, ?_⟩
        · intro id hid
          rcases List.mem_cons.mp hid with h1 | h1
          · omega
          · have := this.1 id h1
            omega
        · rw [List.pairwise_cons]
          refine ⟨?_, this.2⟩
          intro id hid
          have := this.1 id hid
          omega

theorem issuedServiceIds_replicate (appId : Nat) (service : BluetoothGattService)
    (registered : Bool) (n : Nat) :
    ∀ (st : Bluez5ProfileGatt) (i : Nat), st.mObjectManagerGattServer.isSome = true →
      st.nextServiceIdCounter < 65536 → i < n →
      (issuedServiceIds st
        (List.replicate n (ServiceCall.addService appId service registered)))[i]? =
        some ((st.nextServiceIdCounter + i) % 65536) := by
  induction n with
  | zero => intro st i _ _ hi; omega
  | succ n ih =>
    intro st i hroot hlt hi
    obtain ⟨objPath, hobj⟩ := Option.isSome_iff_exists.mp hroot
    have hstep : (serviceCallStep st (ServiceCall.addService appId service registered)).2.2 =
        some st.nextServiceIdCounter := by
      simp [serviceCallStep, addService, hobj, nextServiceId]
    have hnext : (serviceCallStep st
        (ServiceCall.addService appId service registered)).1.nextServiceIdCounter =
        (st.nextServiceIdCounter + 1) % 65536 := by
      rcases serviceCallStep_counter st (ServiceCall.addService appId service registered) with
        ⟨hnone, _⟩ | ⟨_, _, h3⟩
      · rw [hstep] at hnone
        cases hnone
      · exact h3
    have hroot' : (serviceCallStep st
        (ServiceCall.addService appId service registered)).1.mObjectManagerGattServer.isSome =
        true := by
      simp only [serviceCallStep, addService, hobj, nextServiceId, addServiceRegisterCallback]
      split
      · split <;> simp
      · simp
    simp only [List.replicate_succ, issuedServiceIds, hstep]
    cases i with
    | zero => simp [Nat.mod_eq_of_lt hlt]
    | succ j =>
      rw [List.getElem?_cons_succ, ih _ j hroot' (by rw [hnext]; exact Nat.mod_lt _ (by decide))
        (by omega), hnext]
      congr 1
      omega

/-- C7, as stated, fails: the counter of `nextServiceId` is a `uint16_t` that wraps. Of 65536
calls of `addService` the first is issued the id 1 and the last the id 0, which is not greater
than the ids issued before it. -/
theorem service_ids_strictly_increase_counterexample :
    (issuedServiceIds exampleServerState
      (List.replicate 65536 (ServiceCall.addService 1 {} true)))[0]? = some 1 ∧
    (issuedServiceIds exampleServerState
      (List.replicate 65536 (ServiceCall.addService 1 {} true)))[65535]? = some 0 ∧
    ¬ (issuedServiceIds exampleServerState
        (List.replicate 65536 (ServiceCall.addService 1 {} true))).Pairwise
      (fun earlier later => earlier < later) := by
  have hroot : exampleServerState.mObjectManagerGattServer.isSome = true := by decide
  have hctr : exampleServerState.nextServiceIdCounter = 1 := by decide
  have h0 := issuedServiceIds_replicate 1 {} true 65536 exampleServerState 0 hroot
    (by rw [hctr]; decide) (by decide)
  have h1 := issuedServiceIds_replicate 1 {} true 65536 exampleServerState 65535 hroot
    (by rw [hctr]; decide) (by decide)
  rw [hctr] at h0 h1
  refine ⟨h0, h1, ?_⟩
  intro hpair
  obtain ⟨hi, hv0⟩ := List.getElem?_eq_some.mp h0
  obtain ⟨hj, hv1⟩ := List.getElem?_eq_some.mp h1
  have := List.pairwise_iff_getElem.mp hpair 0 65535 hi hj (by decide)
  rw [hv0, hv1] at this
  simp at this

/-- C7, amended. From a state in which `nextServiceId` has not been called (its static counter
holds the initial value 1), for every sequence of `addService` and `removeService` calls that
contains at most 65535 `addService` calls, each service id issued by `addService` is strictly
greater than every service id issued earlier in the sequence, whatever was removed in between. -/
theorem service_ids_strictly_increase (st : Bluez5ProfileGatt) (calls : List ServiceCall)
    (hstart : st.nextServiceIdCounter = 1) (hfew : countAddService calls ≤ 65535) :
    (issuedServiceIds st calls).Pairwise (fun earlier later => earlier < later) :=
  (issuedServiceIds_increasing calls st (by rw [hstart]; omega)).2

/-- C7, amended, at a concrete sequence: a service is added, removed, and another one added; the
ids issued are 1 and 2. -/
theorem service_ids_strictly_increase_witness :
    issuedServiceIds exampleServerState
        [ServiceCall.addService 1 {} true, ServiceCall.removeService 1 1 true,
          ServiceCall.addService 1 {} true] = [1, 2] ∧
    (issuedServiceIds exampleServerState
        [ServiceCall.addService 1 {} true, ServiceCall.removeService 1 1 true,
          ServiceCall.addService 1 {} true]).Pairwise (fun earlier later => earlier < later) :=
  ⟨by decide,
   service_ids_strictly_increase exampleServerState
    [ServiceCall.addService 1 {} true, ServiceCall.removeService 1 1 true,
      ServiceCall.addService 1 {} true] (by decide) (by decide)⟩

/-! ## Notification toggling -/

theorem foldl_watchStatusLoop_filter (env : Env) (service characteristic : BluetoothUuid)
    (enabled : Bool) (l : List GattRemoteService) :
    ∀ acc : Bool × List Effect,
      l.foldl (watchStatusLoop env service characteristic enabled) acc =
        (l.filter (fun s => decide (s.service.uuid = service))).foldl
          (watchStatusLoop env service characteristic enabled) acc := by
  induction l with
  | nil => intro acc; rfl
  | cons a t ih =>
    intro acc
    by_cases ha : a.service.uuid = service
    · simp only [List.foldl_cons, List.filter_cons, ha, decide_True, if_true]
      exact ih _
    · simp only [List.foldl_cons, List.filter_cons, ha, decide_False]
      rw [ih]
      simp [watchStatusLoop, ha]

/-- C8 fails on the code. The mirror is built by bus events: the service `1801` and its
characteristic `2a05` advertising `read`, so the notify bit of its property bitset is unset.
`changeCharacteristicWatchStatus` has no `isPropertySet` test: whatever the uninitialised local
`result` holds, enabling calls start-notify and disabling calls stop-notify on the proxy, and the
call succeeding, `NONE` is reported. -/
theorem watch_status_ignores_notify_bit :
    (findService exampleReadOnlyState "aa:bb" "1801").bind
        (fun service =>
          (findCharacteristic service "2a05").map
            (fun characteristic =>
              (characteristic.characteristic.properties,
               characteristic.characteristic.isPropertySet PROPERTY_NOTIFY))) =
      some (PROPERTY_READ, false) ∧
    ∀ uninitialised : Bool,
      changeCharacteristicWatchStatus exampleEnv exampleReadOnlyState "aa:bb" "1801" "2a05" true
          uninitialised =
        [Effect.callStartNotify "/org/bluez/hci0/dev_AA_BB/service0001/char0002",
          Effect.resultCallback BluetoothError.NONE] ∧
      changeCharacteristicWatchStatus exampleEnv exampleReadOnlyState "aa:bb" "1801" "2a05"
          false uninitialised =
        [Effect.callStopNotify "/org/bluez/hci0/dev_AA_BB/service0001/char0002",
          Effect.resultCallback BluetoothError.NONE] := by
  decide

/-- What `changeCharacteristicWatchStatus` does when the entry of the device holds exactly one
service with the given uuid and that service has a characteristic with the given uuid: it calls
start-notify (when enabling) or stop-notify (when disabling) on the proxy of that characteristic
once, without a look at the property bitset, and reports the outcome of the call. -/
theorem watch_status_follows_transport (env : Env) (st : Bluez5ProfileGatt) (address : String)
    (service characteristic : BluetoothUuid) (enabled uninitialised : Bool)
    (servicesList : List GattRemoteService) (rs : GattRemoteService)
    (rc : GattRemoteCharacteristic)
    (hentry : UMap.find st.mDeviceServicesMap address = some servicesList)
    (hservice : servicesList.filter (fun s => decide (s.service.uuid = service)) = [rs])
    (hchar : findCharacteristic rs characteristic = some rc) :
    changeCharacteristicWatchStatus env st address service characteristic enabled
        uninitialised =
      (if enabled then
        [Effect.callStartNotify rc.objectPath,
          Effect.resultCallback
            (if env.startNotify rc.objectPath then BluetoothError.NONE else BluetoothError.FAIL)]
       else
        [Effect.callStopNotify rc.objectPath,
          Effect.resultCallback
            (if env.stopNotify rc.objectPath then BluetoothError.NONE
             else BluetoothError.FAIL)]) := by
  have huuid : rs.service.uuid = service := by
    have hmem : rs ∈ servicesList.filter (fun s => decide (s.service.uuid = service)) := by
      rw [hservice]
      exact List.mem_singleton.mpr rfl
    simpa using (List.mem_filter.mp hmem).2
  unfold findCharacteristic at hchar
  unfold changeCharacteristicWatchStatus
  simp only [hentry]
  rw [foldl_watchStatusLoop_filter, hservice]
  cases enabled <;> simp [watchStatusLoop, huuid, hchar]

/-! ## Local registry: result callbacks -/

/-- C9 fails on the code. The application id 7 has no local application record, the export root
is present and the registration round trip succeeds: `addService` exports the object and runs the
round trip, and the lambda `registerCallback` returns at `application not present list` without
invoking the result callback. The effects of the whole call hold no callback. -/
theorem addService_unknown_application_never_calls_back :
    UMap.find exampleServerState.mGattLocalApplications 7 = none ∧
    (serviceCallStep exampleServerState (ServiceCall.addService 7 {} true)).2.1 =
      [Effect.exportObject "/org/bluez/gattApp/server/App7/Service1",
        Effect.callUnregisterApplication "/org/bluez/gattApp/server",
        Effect.callRegisterApplication "/org/bluez/gattApp/server"] := by
  decide

/-- C10 fails on the code. The application 1 owns the service 1 and no characteristic has been
added (`mLastCharId` is 0), so `getLocalDescriptorList` returns a null pointer. `addDescriptor`
invokes the callback with `PARAM_INVALID` and, for want of a `return`, goes on: it takes the
descriptor id 1 from `nextDescId`, exports an object under `Char0` and starts the registration
round trip. When the round trip fails the callback is invoked a second time, with `FAIL`; when
it succeeds the lambda inserts through the null pointer. -/
theorem addDescriptor_without_characteristic_goes_on :
    getLocalDescriptorList exampleServiceAddedState 1 1 exampleServiceAddedState.mLastCharId =
      none ∧
    addDescriptor exampleServiceAddedState 1 1 {} true true =
      some
        ({ exampleServiceAddedState with nextDescIdCounter := 2 },
         [Effect.addCallback BluetoothError.PARAM_INVALID (-1),
          Effect.exportObject "/org/bluez/gattApp/server/App1/Service1/Char0/Desc1",
          Effect.callUnregisterApplication "/org/bluez/gattApp/server",
          Effect.callRegisterApplication "/org/bluez/gattApp/server"],
         some (PendingRegistration.addDescriptor none 1
          "/org/bluez/gattApp/server/App1/Service1/Char0/Desc1")) ∧
    addDescriptorRegisterCallback { exampleServiceAddedState with nextDescIdCounter := 2 } none 1
        "/org/bluez/gattApp/server/App1/Service1/Char0/Desc1" (registrationError false) =
      some
        ({ exampleServiceAddedState with nextDescIdCounter := 2 },
         [Effect.addCallback BluetoothError.FAIL (-1)]) ∧
    addDescriptorRegisterCallback { exampleServiceAddedState with nextDescIdCounter := 2 } none 1
        "/org/bluez/gattApp/server/App1/Service1/Char0/Desc1" (registrationError true) =
      none := by
  decide

/-! ## Connection registry: result callback of `connectGatt` -/

/-- C11 fails on the code. The first `connectGatt(1, "AA:BB")` succeeds and maps the application
id 1 to `aa:bb`, with one callback `(NONE, 1)`. A second `connectGatt(1, "AA:BB")` whose connect
succeeds finds the mapping, and the lambda `isConnectCallback` ends without invoking the
callback: the effects of the whole call hold no callback. -/
theorem connectGatt_mapped_application_never_calls_back :
    connectGattCompleted exampleEnv initial 1 "AA:BB" BluetoothError.NONE =
      ({ initial with mConnectedDevices := [(1, "aa:bb")] },
       [Effect.connectCallback BluetoothError.NONE 1]) ∧
    UMap.find exampleConnectedState.mConnectedDevices 1 = some "aa:bb" ∧
    connectGattCompleted exampleEnv exampleConnectedState 1 "AA:BB" BluetoothError.NONE =
      (exampleConnectedState, []) ∧
    connectCallbackCount
      (connectGattCompleted exampleEnv exampleConnectedState 1 "AA:BB" BluetoothError.NONE).2 =
      0 := by
  decide

/-! ## Local registry: `addCharacteristic` on an unknown application or service -/

/-- C12. In every state, when `appId` has no local application record, or has one that does not
own the service `serviceId`, `addCharacteristic` only invokes its callback with
`PARAM_INVALID`: the state (registry, `mLastCharId` and the counter of `nextCharId` included) is
unchanged, nothing is exported and no registration round trip is started. -/
theorem addCharacteristic_unknown_parent (st : Bluez5ProfileGatt) (appId serviceId : Nat)
    (characteristic : BluetoothGattCharacteristic)
    (skeletonAllocated objectAllocated builderAllocated : Bool)
    (hmissing : UMap.find st.mGattLocalApplications appId = none ∨
      ∃ application, UMap.find st.mGattLocalApplications appId = some application ∧
        UMap.find application.mGattLocalServices serviceId = none) :
    addCharacteristic st appId serviceId characteristic skeletonAllocated objectAllocated
        builderAllocated =
      some (st, [Effect.addCallback BluetoothError.PARAM_INVALID (-1)], none) := by
  unfold addCharacteristic
  rcases hmissing with happ | ⟨application, happ, hservice⟩
  · simp only [happ]
  · simp only [happ, hservice]

/-- C12 at concrete states: the application 7 has no record, and the application 1 has a record
without the service 5. -/
theorem addCharacteristic_unknown_parent_witness :
    addCharacteristic exampleServiceAddedState 7 1 {} true true true =
      some (exampleServiceAddedState, [Effect.addCallback BluetoothError.PARAM_INVALID (-1)],
        none) ∧
    addCharacteristic exampleServiceAddedState 1 5 {} true true true =
      some (exampleServiceAddedState, [Effect.addCallback BluetoothError.PARAM_INVALID (-1)],
        none) :=
  ⟨addCharacteristic_unknown_parent exampleServiceAddedState 7 1 {} true true true
      (Or.inl (by decide)),
   addCharacteristic_unknown_parent exampleServiceAddedState 1 5 {} true true true
      (Or.inr ⟨{ mGattLocalServices :=
          [(1, { mServiceObject := some "/org/bluez/gattApp/server/App1/Service1",
                 mServiceInterface := true, serviceId := 1 })] },
        by decide, by decide⟩)⟩

/-! ## Error code for an unknown id -/

/-- C13, as stated, fails: the connection id 9 has no mapping in the connection registry; the
four operations addressed by connection id report `FAIL`, not `PARAM_INVALID`. -/
theorem unknown_connection_id_counterexample :
    UMap.find exampleServiceAddedState.mConnectedDevices 9 = none ∧
    (readCharacteristicByConnId exampleEnv exampleServiceAddedState 9 "1801" "2a05").2 =
      [Effect.readCharacteristicCallback BluetoothError.FAIL {}] ∧
    (writeCharacteristicByConnId exampleEnv exampleServiceAddedState 9 "1801"
      { uuid := "2a05" }).2 = [Effect.resultCallback BluetoothError.FAIL] ∧
    (readDescriptorByConnId exampleEnv exampleServiceAddedState 9 "1801" "2a05" "2902").2 =
      [Effect.readDescriptorCallback BluetoothError.FAIL {}] ∧
    (writeDescriptorByConnId exampleEnv exampleServiceAddedState 9 "1801" "2a05"
      { uuid := "2902" }).2 = [Effect.resultCallback BluetoothError.FAIL] := by
  decide

/-- C13, amended. An unknown connection id is reported as `FAIL`: in every state,
`readCharacteristic`, `writeCharacteristic`, `readDescriptor` and `writeDescriptor` called with a
connection id that has no mapping in the connection registry leave the state unchanged, make no
remote call and only invoke their callback, with `FAIL`. -/
theorem unknown_connection_id_reported_as_fail (env : Env) (st : Bluez5ProfileGatt)
    (connId : Nat) (service characteristic descriptor : BluetoothUuid)
    (characteristicValue : BluetoothGattCharacteristic)
    (descriptorValue : BluetoothGattDescriptor)
    (hconn : UMap.find st.mConnectedDevices connId = none) :
    readCharacteristicByConnId env st connId service characteristic =
      (st, [Effect.readCharacteristicCallback BluetoothError.FAIL {}]) ∧
    writeCharacteristicByConnId env st connId service characteristicValue =
      (st, [Effect.resultCallback BluetoothError.FAIL]) ∧
    readDescriptorByConnId env st connId service characteristic descriptor =
      (st, [Effect.readDescriptorCallback BluetoothError.FAIL {}]) ∧
    writeDescriptorByConnId env st connId service characteristic descriptorValue =
      (st, [Effect.resultCallback BluetoothError.FAIL]) := by
  have haddr : getAddress st connId = "" := by simp [getAddress, hconn]
  simp [readCharacteristicByConnId, writeCharacteristicByConnId, readDescriptorByConnId,
    writeDescriptorByConnId, haddr]

/-- C13, amended, at a concrete state: the connection id 9 has no mapping. -/
theorem unknown_connection_id_reported_as_fail_witness :
    UMap.find exampleServiceAddedState.mConnectedDevices 9 = none ∧
    readCharacteristicByConnId exampleEnv exampleServiceAddedState 9 "1801" "2a05" =
      (exampleServiceAddedState, [Effect.readCharacteristicCallback BluetoothError.FAIL {}]) ∧
    writeCharacteristicByConnId exampleEnv exampleServiceAddedState 9 "1801" {} =
      (exampleServiceAddedState, [Effect.resultCallback BluetoothError.FAIL]) ∧
    readDescriptorByConnId exampleEnv exampleServiceAddedState 9 "1801" "2a05" "2902" =
      (exampleServiceAddedState, [Effect.readDescriptorCallback BluetoothError.FAIL {}]) ∧
    writeDescriptorByConnId exampleEnv exampleServiceAddedState 9 "1801" "2a05" {} =
      (exampleServiceAddedState, [Effect.resultCallback BluetoothError.FAIL]) :=
  ⟨by decide,
    unknown_connection_id_reported_as_fail exampleEnv exampleServiceAddedState 9 "1801" "2a05"
      "2902" {} {} (by decide)⟩

/-! ## Local registry: the record of a service is created on success -/

theorem runServiceCalls_failed_addService (appId : Nat) (service : BluetoothGattService)
    (n : Nat) :
    ∀ st : Bluez5ProfileGatt, st.mObjectManagerGattServer.isSome = true →
      runServiceCalls st (List.replicate n (ServiceCall.addService appId service false)) =
        { st with
          nextServiceIdCounter := (Nat.iterate (fun c => (c + 1) % 65536) n
            st.nextServiceIdCounter) } := by
  induction n with
  | zero => intro st _; rfl
  | succ n ih =>
    intro st hroot
    obtain ⟨objPath, hobj⟩ := Option.isSome_iff_exists.mp hroot
    have hstep : (serviceCallStep st (ServiceCall.addService appId service false)).1 =
        { st with nextServiceIdCounter := (st.nextServiceIdCounter + 1) % 65536 } := by
      simp [serviceCallStep, addService, hobj, nextServiceId, addServiceRegisterCallback,
        registrationError]
    simp only [List.replicate_succ, runServiceCalls]
    rw [hstep, ih _ (by simpa using hroot)]
    simp [Function.iterate_succ]

theorem iterate_counter (n : Nat) :
    ∀ c : Nat, Nat.iterate (fun c => (c + 1) % 65536) n c = (c + n) % 65536 ∨ n = 0 := by
  induction n with
  | zero => intro c; exact Or.inr rfl
  | succ n ih =>
    intro c
    left
    rw [Function.iterate_succ, Function.comp_apply]
    rcases ih ((c + 1) % 65536) with h | h
    · rw [h]
      omega
    · subst h
      simp

theorem exampleWrappedServiceState_eq :
    exampleWrappedServiceState = { exampleServiceAddedState with nextServiceIdCounter := 1 } := by
  unfold exampleWrappedServiceState
  rw [runServiceCalls_failed_addService 1 {} 65535 exampleServiceAddedState (by decide)]
  have hctr : exampleServiceAddedState.nextServiceIdCounter = 2 := by decide
  rcases iterate_counter 65535 exampleServiceAddedState.nextServiceIdCounter with h | h
  · rw [h, hctr]
  · exact absurd h (by decide)

/-- C14, as stated, fails: the counter of `nextServiceId` wraps. The application 1 owns the
service 1; after 65535 further `addService` calls whose round trips fail, the next `addService`
is issued the id 1 again. Its round trip succeeds and the callback receives `(NONE, 1)`, but
`insert` finds the key 1 present: the service map of the application gains no entry. -/
theorem service_record_on_success_counterexample :
    (serviceCallStep exampleWrappedServiceState (ServiceCall.addService 1 {} true)).2.1 =
      [Effect.exportObject "/org/bluez/gattApp/server/App1/Service1",
        Effect.callUnregisterApplication "/org/bluez/gattApp/server",
        Effect.callRegisterApplication "/org/bluez/gattApp/server",
        Effect.addCallback BluetoothError.NONE 1] ∧
    UMap.find
      (serviceCallStep exampleWrappedServiceState
        (ServiceCall.addService 1 {} true)).1.mGattLocalApplications 1 =
      UMap.find exampleWrappedServiceState.mGattLocalApplications 1 ∧
    UMap.find exampleWrappedServiceState.mGattLocalApplications 1 =
      some { mGattLocalServices :=
        [(1, { mServiceObject := some "/org/bluez/gattApp/server/App1/Service1",
               mServiceInterface := true, serviceId := 1 })] } := by
  rw [exampleWrappedServiceState_eq]
  decide

/-- C14, amended. For a server application `appId` and a profile with its export root:
`addService` leaves the registry unchanged up to the completion of the round trip; when the
round trip fails the registry is still unchanged and the callback receives `FAIL`; when it
succeeds and the service id that `addService` took from `nextServiceId` is not already a key of
the service map of the application (which holds until the 16-bit counter wraps), the service map
of the application gains exactly one entry, keyed by the new service id, and the callback
receives `(NONE, that service id)`. -/
theorem service_record_on_success (st : Bluez5ProfileGatt) (appId : Nat)
    (service : BluetoothGattService) (objPath : String)
    (application : BluezGattLocalApplication)
    (hroot : st.mObjectManagerGattServer = some objPath)
    (happ : UMap.find st.mGattLocalApplications appId = some application) :
    (addService st appId service).2.2 =
      some (PendingRegistration.addService appId st.nextServiceIdCounter
        (localServiceObjPath objPath appId st.nextServiceIdCounter)) ∧
    (addService st appId service).1.mGattLocalApplications = st.mGattLocalApplications ∧
    addServiceRegisterCallback (addService st appId service).1 appId st.nextServiceIdCounter
        (localServiceObjPath objPath appId st.nextServiceIdCounter) (registrationError false) =
      ((addService st appId service).1, [Effect.addCallback BluetoothError.FAIL (-1)]) ∧
    (UMap.find application.mGattLocalServices st.nextServiceIdCounter = none →
      addServiceRegisterCallback (addService st appId service).1 appId st.nextServiceIdCounter
          (localServiceObjPath objPath appId st.nextServiceIdCounter) (registrationError true) =
        ({ (addService st appId service).1 with
           mGattLocalApplications :=
             (UMap.set st.mGattLocalApplications appId
               { application with
                 mGattLocalServices :=
                   application.mGattLocalServices ++
                     [(st.nextServiceIdCounter,
                       { mServiceObject :=
                           some (localServiceObjPath objPath appId st.nextServiceIdCounter),
                         mServiceInterface := true, serviceId := st.nextServiceIdCounter })] }) },
         [Effect.addCallback BluetoothError.NONE st.nextServiceIdCounter])) := by
  have hadd : addService st appId service =
      ((nextServiceId st).2,
       Effect.exportObject (localServiceObjPath objPath appId st.nextServiceIdCounter) ::
         registerLocalApplication objPath true,
       some (PendingRegistration.addService appId st.nextServiceIdCounter
        (localServiceObjPath objPath appId st.nextServiceIdCounter))) := by
    simp [addService, hroot, nextServiceId, localServiceObjPath]
  rw [hadd]
  refine ⟨rfl, rfl, ?_, ?_⟩
  · simp [addServiceRegisterCallback, registrationError]
  · intro hfresh
    have happ' : UMap.find (nextServiceId st).2.mGattLocalApplications appId =
        some application := happ
    simp only [addServiceRegisterCallback, registrationError, if_true, happ']
    simp [UMap.insert, hfresh, nextServiceId]

/-- C14, amended, at a concrete state: the first `addService` of the server application 1; on
success the empty service map of the application gains the entry of the service 1. -/
theorem service_record_on_success_witness :
    (addService exampleServerState 1 {}).2.2 =
      some (PendingRegistration.addService 1 exampleServerState.nextServiceIdCounter
        (localServiceObjPath "/org/bluez/gattApp/server" 1
          exampleServerState.nextServiceIdCounter)) ∧
    (addService exampleServerState 1 {}).1.mGattLocalApplications =
      exampleServerState.mGattLocalApplications ∧
    addServiceRegisterCallback (addService exampleServerState 1 {}).1 1
        exampleServerState.nextServiceIdCounter
        (localServiceObjPath "/org/bluez/gattApp/server" 1
          exampleServerState.nextServiceIdCounter) (registrationError false) =
      ((addService exampleServerState 1 {}).1, [Effect.addCallback BluetoothError.FAIL (-1)]) ∧
    addServiceRegisterCallback (addService exampleServerState 1 {}).1 1
        exampleServerState.nextServiceIdCounter
        (localServiceObjPath "/org/bluez/gattApp/server" 1
          exampleServerState.nextServiceIdCounter) (registrationError true) =
      ({ (addService exampleServerState 1 {}).1 with
         mGattLocalApplications :=
           (UMap.set exampleServerState.mGattLocalApplications 1
             { ({} : BluezGattLocalApplication) with
               mGattLocalServices :=
                 ({} : BluezGattLocalApplication).mGattLocalServices ++
                   [(exampleServerState.nextServiceIdCounter,
                     { mServiceObject :=
                         some (localServiceObjPath "/org/bluez/gattApp/server" 1
                           exampleServerState.nextServiceIdCounter),
                       mServiceInterface := true,
                       serviceId := exampleServerState.nextServiceIdCounter })] }) },
       [Effect.addCallback BluetoothError.NONE exampleServerState.nextServiceIdCounter]) :=
  have h := service_record_on_success exampleServerState 1 {} "/org/bluez/gattApp/server" {}
    (by decide) (by decide)
  ⟨h.1, h.2.1, h.2.2.1, h.2.2.2 (by decide)⟩

/-! ## The export root exists while the registry holds a service -/

theorem root_addService (st : Bluez5ProfileGatt) (appId : Nat) (service : BluetoothGattService) :
    (addService st appId service).1.mObjectManagerGattServer = st.mObjectManagerGattServer := by
  unfold addService
  cases hroot : st.mObjectManagerGattServer with
  | none => simp [hroot]
  | some objPath => simp [nextServiceId, hroot]

theorem root_removeService (st : Bluez5ProfileGatt) (appId serviceId : Nat) :
    (removeService st appId serviceId).1.mObjectManagerGattServer =
      st.mObjectManagerGattServer := by
  unfold removeService
  cases hroot : st.mObjectManagerGattServer with
  | none => simp [hroot]
  | some objPath =>
    dsimp only
    cases UMap.find st.mGattLocalApplications appId with
    | none => simp [hroot]
    | some application =>
      dsimp only
      cases UMap.find application.mGattLocalServices serviceId with
      | none => simp [hroot]
      | some service => simp [hroot]

theorem root_completeRegistration (st : Bluez5ProfileGatt) (pending : PendingRegistration)
    (error : BluetoothError) (result : Bluez5ProfileGatt × List Effect)
    (h : completeRegistration st pending error = some result) :
    result.1.mObjectManagerGattServer = st.mObjectManagerGattServer := by
  cases pending with
  | addService appId serviceId object =>
    simp only [completeRegistration, Option.some.injEq] at h
    rw [← h]
    unfold addServiceRegisterCallback
    split
    · split <;> rfl
    · rfl
  | removeService =>
    simp only [completeRegistration, Option.some.injEq] at h
    rw [← h]
    rfl
  | addCharacteristic appId serviceId charId object =>
    simp only [completeRegistration, addCharacteristicRegisterCallback] at h
    split at h
    · split at h
      · cases h
      · split at h
        · cases h
        · simp only [Option.some.injEq] at h
          rw [← h]
    · simp only [Option.some.injEq] at h
      rw [← h]
  | addDescriptor descs descId object =>
    simp only [completeRegistration, addDescriptorRegisterCallback] at h
    split at h
    · split at h
      · cases h
      · split at h
        · cases h
        · split at h
          · cases h
          · split at h
            · cases h
            · simp only [Option.some.injEq] at h
              rw [← h]
    · simp only [Option.some.injEq] at h
      rw [← h]
  | removeApplication =>
    simp only [completeRegistration, Option.some.injEq] at h
    rw [← h]

theorem root_addCharacteristic (st : Bluez5ProfileGatt) (appId serviceId : Nat)
    (characteristic : BluetoothGattCharacteristic)
    (skeletonAllocated objectAllocated builderAllocated : Bool)
    (result : Bluez5ProfileGatt × List Effect × Option PendingRegistration)
    (h : addCharacteristic st appId serviceId characteristic skeletonAllocated objectAllocated
      builderAllocated = some result) :
    result.1.mObjectManagerGattServer = st.mObjectManagerGattServer ∧
    result.1.mGattLocalApplications = st.mGattLocalApplications ∧
    (st.mObjectManagerGattServer = none → result.2.2 = none) := by
  unfold addCharacteristic at h
  cases happ : UMap.find st.mGattLocalApplications appId with
  | none =>
    simp only [happ, Option.some.injEq] at h
    rw [← h]
    exact ⟨rfl, rfl, fun _ => rfl⟩
  | some application =>
    simp only [happ] at h
    cases hservice : UMap.find application.mGattLocalServices serviceId with
    | none =>
      simp only [hservice, Option.some.injEq] at h
      rw [← h]
      exact ⟨rfl, rfl, fun _ => rfl⟩
    | some service =>
      simp only [hservice] at h
      cases skeletonAllocated with
      | false =>
        simp only [Bool.not_false, if_true, Option.some.injEq] at h
        rw [← h]
        exact ⟨rfl, rfl, fun _ => rfl⟩
      | true =>
        simp only [Bool.not_true, nextCharId] at h
        cases hroot : st.mObjectManagerGattServer with
        | none => simp [hroot] at h
        | some objPath =>
          simp only [hroot] at h
          cases objectAllocated with
          | false =>
            simp at h
            rw [← h]
            exact ⟨rfl, rfl, fun hh => by cases hh⟩
          | true =>
            cases builderAllocated with
            | false =>
              simp at h
              rw [← h]
              exact ⟨rfl, rfl, fun hh => by cases hh⟩
            | true =>
              simp at h
              rw [← h]
              exact ⟨rfl, rfl, fun hh => by cases hh⟩

theorem root_addDescriptor (st : Bluez5ProfileGatt) (appId serviceId : Nat)
    (descriptor : BluetoothGattDescriptor) (skeletonAllocated objectAllocated : Bool)
    (result : Bluez5ProfileGatt × List Effect × Option PendingRegistration)
    (h : addDescriptor st appId serviceId descriptor skeletonAllocated objectAllocated =
      some result) :
    result.1.mObjectManagerGattServer = st.mObjectManagerGattServer ∧
    result.1.mGattLocalApplications = st.mGattLocalApplications ∧
    (st.mObjectManagerGattServer = none → result.2.2 = none) := by
  unfold addDescriptor at h
  cases skeletonAllocated with
  | false =>
    simp only [Bool.not_false, if_true, Option.some.injEq] at h
    rw [← h]
    exact ⟨rfl, rfl, fun _ => rfl⟩
  | true =>
    simp only [Bool.not_true, nextDescId] at h
    cases hroot : st.mObjectManagerGattServer with
    | none => simp [hroot] at h
    | some objPath =>
      simp only [hroot] at h
      cases objectAllocated with
      | false =>
        simp at h
        rw [← h]
        exact ⟨rfl, rfl, fun hh => by cases hh⟩
      | true =>
        simp at h
        rw [← h]
        exact ⟨rfl, rfl, fun hh => by cases hh⟩

theorem root_removeApplication (st : Bluez5ProfileGatt) (appId : Nat) (type : ApplicationType)
    (result : Bluez5ProfileGatt × List Effect × Option PendingRegistration)
    (h : removeApplication st appId type = some result) :
    result.1.mObjectManagerGattServer = st.mObjectManagerGattServer ∧
    (st.mObjectManagerGattServer = none → result.1 = st ∧ result.2.2 = none) := by
  unfold removeApplication at h
  cases type with
  | CLIENT =>
    simp only [Option.some.injEq] at h
    rw [← h]
    exact ⟨rfl, fun _ => ⟨rfl, rfl⟩⟩
  | SERVER =>
    cases hroot : st.mObjectManagerGattServer with
    | none => simp [hroot] at h
    | some objPath =>
      simp only [hroot] at h
      cases happ : UMap.find st.mGattLocalApplications appId with
      | none =>
        simp only [happ, Option.some.injEq] at h
        rw [← h]
        exact ⟨hroot, fun hh => by cases hh⟩
      | some application =>
        simp only [happ, Option.some.injEq] at h
        rw [← h]
        exact ⟨rfl, fun hh => by cases hh⟩

theorem rootInv_of_reachable {st : Bluez5ProfileGatt} {ps : List PendingRegistration}
    (h : RegistryReachable st ps) : RootInv st ps := by
  induction h with
  | initial =>
    right
    exact ⟨rfl, fun p hp => by simp [initial] at hp⟩
  | createObjectManagers st ps _ _ =>
    left
    rfl
  | addApplication st ps type _ ih =>
    rcases ih with h1 | ⟨h1, h2⟩
    · left
      cases type <;> exact h1
    · right
      refine ⟨h1, ?_⟩
      intro p hp
      cases type with
      | CLIENT => exact h2 p hp
      | SERVER =>
        rcases UMap.mem_insert hp with h3 | h3
        · exact h2 p h3
        · rw [h3]
  | addService st ps appId service _ ih =>
    cases hroot : st.mObjectManagerGattServer with
    | none =>
      have hres : addService st appId service =
          (st, [Effect.addCallback BluetoothError.FAIL (-1)], none) := by
        simp [addService, hroot]
      rw [hres]
      simpa using ih
    | some objPath =>
      left
      rw [root_addService, hroot]
      rfl
  | removeService st ps appId serviceId _ ih =>
    cases hroot : st.mObjectManagerGattServer with
    | none =>
      have hres : removeService st appId serviceId =
          (st, [Effect.resultCallback BluetoothError.FAIL], none) := by
        simp [removeService, hroot]
      rw [hres]
      simpa using ih
    | some objPath =>
      left
      rw [root_removeService, hroot]
      rfl
  | addCharacteristic st ps appId serviceId characteristic sk ob bu result _ hres ih =>
    obtain ⟨h1, h2, h3⟩ := root_addCharacteristic st appId serviceId characteristic sk ob bu
      result hres
    cases hroot : st.mObjectManagerGattServer with
    | none =>
      rcases ih with h4 | ⟨h4, h5⟩
      · rw [hroot] at h4
        cases h4
      · right
        rw [h3 hroot, h2]
        exact ⟨by simpa using h4, h5⟩
    | some objPath =>
      left
      rw [h1, hroot]
      rfl
  | addDescriptor st ps appId serviceId descriptor sk ob result _ hres ih =>
    obtain ⟨h1, h2, h3⟩ := root_addDescriptor st appId serviceId descriptor sk ob result hres
    cases hroot : st.mObjectManagerGattServer with
    | none =>
      rcases ih with h4 | ⟨h4, h5⟩
      · rw [hroot] at h4
        cases h4
      · right
        rw [h3 hroot, h2]
        exact ⟨by simpa using h4, h5⟩
    | some objPath =>
      left
      rw [h1, hroot]
      rfl
  | removeApplication st ps appId type result _ hres ih =>
    obtain ⟨h1, h2⟩ := root_removeApplication st appId type result hres
    cases hroot : st.mObjectManagerGattServer with
    | none =>
      obtain ⟨h3, h4⟩ := h2 hroot
      rw [h3, h4]
      simpa using ih
    | some objPath =>
      left
      rw [h1, hroot]
      rfl
  | completed st ps pending registered result _ hmem hres ih =>
    left
    rw [root_completeRegistration st pending _ result hres]
    rcases ih with h1 | ⟨h1, _⟩
    · exact h1
    · rw [h1] at hmem
      simp at hmem
  | other st st' ps _ happs hroot ih =>
    rcases ih with h1 | ⟨h1, h2⟩
    · left
      rw [hroot]
      exact h1
    · right
      refine ⟨h1, ?_⟩
      rw [happs]
      exact h2

theorem root_of_service {st : Bluez5ProfileGatt} {ps : List PendingRegistration}
    (h : RegistryReachable st ps) {appId serviceId : Nat}
    {application : BluezGattLocalApplication} {service : Bluez5GattLocalService}
    (happ : UMap.find st.mGattLocalApplications appId = some application)
    (hservice : UMap.find application.mGattLocalServices serviceId = some service) :
    ∃ objPath, st.mObjectManagerGattServer = some objPath := by
  rcases rootInv_of_reachable h with h1 | ⟨_, h2⟩
  · exact Option.isSome_iff_exists.mp h1
  · have := h2 _ (UMap.mem_of_find happ)
    simp only at this
    rw [this] at hservice
    simp [UMap.find] at hservice
/-! ## Local registry: `removeService` erases one service -/

/-- C15. In every reachable state of the registry: when the application `appId` owns the service
`serviceId`, after `removeService(appId, serviceId)` the service map of the application has no
entry for `serviceId`, every other service of the application is unchanged and every other
application is unchanged; when `appId` or `serviceId` is not in the registry the state is
unchanged, the only effect is the `FAIL` callback (no object is unexported) and no registration
round trip is started. -/
theorem removeService_erases_exactly_one (st : Bluez5ProfileGatt)
    (ps : List PendingRegistration) (appId serviceId : Nat)
    (hreach : RegistryReachable st ps) :
    (∀ application service,
      UMap.find st.mGattLocalApplications appId = some application →
      UMap.find application.mGattLocalServices serviceId = some service →
      (∃ application',
        UMap.find (removeService st appId serviceId).1.mGattLocalApplications appId =
          some application' ∧
        UMap.find application'.mGattLocalServices serviceId = none ∧
        ∀ other, other ≠ serviceId →
          UMap.find application'.mGattLocalServices other =
            UMap.find application.mGattLocalServices other) ∧
      ∀ otherApp, otherApp ≠ appId →
        UMap.find (removeService st appId serviceId).1.mGattLocalApplications otherApp =
          UMap.find st.mGattLocalApplications otherApp) ∧
    ((UMap.find st.mGattLocalApplications appId = none ∨
        ∃ application, UMap.find st.mGattLocalApplications appId = some application ∧
          UMap.find application.mGattLocalServices serviceId = none) →
      removeService st appId serviceId =
        (st, [Effect.resultCallback BluetoothError.FAIL], none)) := by
  constructor
  · intro application service happ hservice
    obtain ⟨objPath, hroot⟩ := root_of_service hreach happ hservice
    have hres : (removeService st appId serviceId).1.mGattLocalApplications =
        UMap.set st.mGattLocalApplications appId
          { application with
            mGattLocalServices := UMap.erase application.mGattLocalServices serviceId } := by
      simp [removeService, hroot, happ, hservice]
    rw [hres]
    refine ⟨⟨_, UMap.find_set_self _ _ _, UMap.find_erase_self _ _, ?_⟩, ?_⟩
    · intro other hother
      exact UMap.find_erase_ne _ _ _ (fun hh => hother hh.symm)
    · intro otherApp hother
      exact UMap.find_set_ne _ _ _ _ (fun hh => hother hh.symm)
  · intro hmissing
    unfold removeService
    cases st.mObjectManagerGattServer with
    | none => rfl
    | some objPath =>
      rcases hmissing with happ | ⟨application, happ, hservice⟩
      · simp only [happ]
      · simp only [happ, hservice]

/-- C15 at a concrete reachable state: the application 1 owns the service 1, which is removed;
the service 5 is not in the registry. -/
theorem removeService_erases_exactly_one_witness :
    (∃ application',
      UMap.find (removeService exampleServiceAddedState 1 1).1.mGattLocalApplications 1 =
        some application' ∧
      UMap.find application'.mGattLocalServices 1 = none) ∧
    removeService exampleServiceAddedState 1 5 =
      (exampleServiceAddedState, [Effect.resultCallback BluetoothError.FAIL], none) :=
  have hreach : RegistryReachable exampleServiceAddedState
      (([] ++ (addService exampleServerState 1 {}).2.2.toList).erase
        (PendingRegistration.addService 1 1 "/org/bluez/gattApp/server/App1/Service1")) :=
    RegistryReachable.completed (addService exampleServerState 1 {}).1 _
      (PendingRegistration.addService 1 1 "/org/bluez/gattApp/server/App1/Service1") true
      (addServiceRegisterCallback (addService exampleServerState 1 {}).1 1 1
        "/org/bluez/gattApp/server/App1/Service1" BluetoothError.NONE)
      (RegistryReachable.addService exampleServerState [] 1 {}
        (RegistryReachable.addApplication (createObjectManagers initial) []
          ApplicationType.SERVER
          (RegistryReachable.createObjectManagers initial [] RegistryReachable.initial)))
      (by decide) (by decide)
  have h := removeService_erases_exactly_one exampleServiceAddedState _ 1 1 hreach
  have h5 := removeService_erases_exactly_one exampleServiceAddedState _ 1 5 hreach
  ⟨(h.1 { mGattLocalServices :=
            [(1, { mServiceObject := some "/org/bluez/gattApp/server/App1/Service1",
                   mServiceInterface := true, serviceId := 1 })] }
          { mServiceObject := some "/org/bluez/gattApp/server/App1/Service1",
            mServiceInterface := true, serviceId := 1 }
          (by decide) (by decide)).1.imp (fun _ hh => ⟨hh.1, hh.2.1⟩),
   h5.2 (Or.inr ⟨{ mGattLocalServices :=
            [(1, { mServiceObject := some "/org/bluez/gattApp/server/App1/Service1",
                   mServiceInterface := true, serviceId := 1 })] }, by decide, by decide⟩)⟩

/-! ## Local registry: order of the teardown -/

theorem unexportedPaths_append (xs ys : List Effect) :
    unexportedPaths (xs ++ ys) = unexportedPaths xs ++ unexportedPaths ys := by
  induction xs with
  | nil => rfl
  | cons x rest ih => cases x <;> simp [unexportedPaths, ih]

theorem unexportedPaths_registerLocalApplication (objPath : String) (unRegisterFirst : Bool) :
    unexportedPaths (registerLocalApplication objPath unRegisterFirst) = [] := by
  cases unRegisterFirst <;> rfl

theorem unexportedPaths_removeLocalDescriptors
    (characteristic : Bluez5GattLocalCharacteristic) :
    unexportedPaths (removeLocalDescriptors characteristic).2 =
      descriptorObjects characteristic := by
  unfold removeLocalDescriptors descriptorObjects
  simp only
  induction characteristic.mDescriptors with
  | nil => rfl
  | cons it rest ih =>
    cases hobj : it.2.mDescObject with
    | none => simp [List.filterMap_cons, hobj, ih]
    | some path => simp [List.filterMap_cons, hobj, unexportedPaths, ih]

theorem unexportedPaths_removeLocalCharacteristic
    (characteristic : Bluez5GattLocalCharacteristic) :
    unexportedPaths (removeLocalCharacteristic characteristic) =
      descriptorObjects characteristic ++ characteristic.mCharObject.toList := by
  unfold removeLocalCharacteristic
  rw [unexportedPaths_append, unexportedPaths_removeLocalDescriptors]
  cases characteristic.mCharObject <;> rfl

theorem unexportedPaths_removeLocalCharacteristics
    (chars : UMap Nat Bluez5GattLocalCharacteristic) :
    unexportedPaths (chars.map (fun it => removeLocalCharacteristic it.2)).flatten =
      (chars.map (fun it => descriptorObjects it.2 ++ it.2.mCharObject.toList)).flatten := by
  induction chars with
  | nil => rfl
  | cons it rest ih =>
    simp only [List.map_cons, List.flatten_cons, unexportedPaths_append, ih,
      unexportedPaths_removeLocalCharacteristic]

theorem unexportedPaths_removeLocalServices (service : Bluez5GattLocalService) (path : String)
    (hobj : service.mServiceObject = some path) :
    unexportedPaths (removeLocalServices service).2 =
      (service.mCharacteristics.map
        (fun it => descriptorObjects it.2 ++ it.2.mCharObject.toList)).flatten ++ [path] := by
  unfold removeLocalServices
  simp only [hobj, removeLocalCharacteristics, unexportedPaths_append,
    unexportedPaths_removeLocalCharacteristics]
  rfl

theorem flatten_blocks_perm (chars : UMap Nat Bluez5GattLocalCharacteristic) :
    (chars.map (fun it => descriptorObjects it.2 ++ it.2.mCharObject.toList)).flatten.Perm
      (chars.map (fun it => it.2.mCharObject.toList ++ descriptorObjects it.2)).flatten := by
  induction chars with
  | nil => exact List.Perm.refl _
  | cons it rest ih =>
    simp only [List.map_cons, List.flatten_cons]
    exact List.Perm.append List.perm_append_comm ih
theorem unexportedPaths_removeService (st : Bluez5ProfileGatt) (appId serviceId : Nat)
    (objPath : String) (application : BluezGattLocalApplication)
    (service : Bluez5GattLocalService)
    (hroot : st.mObjectManagerGattServer = some objPath)
    (happ : UMap.find st.mGattLocalApplications appId = some application)
    (hservice : UMap.find application.mGattLocalServices serviceId = some service) :
    unexportedPaths (removeService st appId serviceId).2.1 =
      unexportedPaths (removeLocalServices service).2 := by
  simp [removeService, hroot, happ, hservice, unexportedPaths_append,
    unexportedPaths_registerLocalApplication]

/-- C16, as stated, fails: `removeLocalServices` skips the whole subtree when the object of the
service is already released. After `removeApplication(1, SERVER)` the record of the service 1
stays in the registry without its object; `addCharacteristic(1, 1, ...)` then exports the
characteristic 1 under it. `removeService(1, 1)` unexports nothing, although the subtree of the
service holds the object of the characteristic. -/
theorem teardown_children_first_counterexample :
    UMap.find exampleOrphanCharacteristicState.mGattLocalApplications 1 =
      some { mGattLocalServices :=
        [(1, { mServiceObject := none
               mCharacteristics :=
                 [(1, { mCharObject := some "/org/bluez/gattApp/server/App1/Service1/Char1",
                        mInterface := true })]
               mServiceInterface := false
               serviceId := 1 })] } ∧
    subtreeObjects
      { mServiceObject := none
        mCharacteristics :=
          [(1, { mCharObject := some "/org/bluez/gattApp/server/App1/Service1/Char1",
                 mInterface := true })]
        mServiceInterface := false
        serviceId := 1 } = ["/org/bluez/gattApp/server/App1/Service1/Char1"] ∧
    (removeService exampleOrphanCharacteristicState 1 1).2.1 =
      [Effect.callUnregisterApplication "/org/bluez/gattApp/server",
        Effect.callRegisterApplication "/org/bluez/gattApp/server"] ∧
    unexportedPaths (removeService exampleOrphanCharacteristicState 1 1).2.1 = [] := by
  decide

/-- C16, amended. For every local service whose own object is still exported
(`mServiceObject` is not null), with any number of characteristics and descriptors, the
teardown performed by `removeService` unexports every object of the subtree of the service
exactly once (the sequence of unexported paths is a rearrangement of the objects of the
subtree), every descriptor before its owning characteristic, every characteristic before the
service object, and the service object last. -/
theorem teardown_children_first (st : Bluez5ProfileGatt) (appId serviceId : Nat)
    (objPath path : String) (application : BluezGattLocalApplication)
    (service : Bluez5GattLocalService)
    (hroot : st.mObjectManagerGattServer = some objPath)
    (happ : UMap.find st.mGattLocalApplications appId = some application)
    (hservice : UMap.find application.mGattLocalServices serviceId = some service)
    (hobj : service.mServiceObject = some path) :
    (unexportedPaths (removeService st appId serviceId).2.1).Perm (subtreeObjects service) ∧
    (∀ characteristic ∈ service.mCharacteristics,
      ∀ descriptor ∈ characteristic.2.mDescriptors, ∀ descPath charPath,
        descriptor.2.mDescObject = some descPath →
        characteristic.2.mCharObject = some charPath →
        OccursBefore descPath charPath
          (unexportedPaths (removeService st appId serviceId).2.1)) ∧
    (∀ characteristic ∈ service.mCharacteristics, ∀ charPath,
      characteristic.2.mCharObject = some charPath →
      OccursBefore charPath path (unexportedPaths (removeService st appId serviceId).2.1)) ∧
    (unexportedPaths (removeService st appId serviceId).2.1).getLast? = some path := by
  rw [unexportedPaths_removeService st appId serviceId objPath application service hroot happ
    hservice, unexportedPaths_removeLocalServices service path hobj]
  refine ⟨?_, ?_, ?_, ?_⟩
  · unfold subtreeObjects
    rw [hobj]
    exact List.perm_append_comm.trans
      (List.Perm.append_left _ (flatten_blocks_perm service.mCharacteristics))
  · intro characteristic hc descriptor hd descPath charPath hdp hcp
    obtain ⟨pre, post, hsplit⟩ := List.append_of_mem hc
    have hmem : descPath ∈ descriptorObjects characteristic.2 := by
      unfold descriptorObjects
      exact List.mem_filterMap.mpr ⟨descriptor, hd, hdp⟩
    obtain ⟨d1, d2, hdsplit⟩ := List.append_of_mem hmem
    refine ⟨(pre.map (fun it => descriptorObjects it.2 ++ it.2.mCharObject.toList)).flatten ++ d1,
      d2,
      (post.map (fun it => descriptorObjects it.2 ++ it.2.mCharObject.toList)).flatten ++ [path],
      ?_⟩
    rw [hsplit]
    simp [hdsplit, hcp]
  · intro characteristic hc charPath hcp
    obtain ⟨pre, post, hsplit⟩ := List.append_of_mem hc
    refine ⟨(pre.map (fun it => descriptorObjects it.2 ++ it.2.mCharObject.toList)).flatten ++
        descriptorObjects characteristic.2,
      (post.map (fun it => descriptorObjects it.2 ++ it.2.mCharObject.toList)).flatten, [], ?_⟩
    rw [hsplit]
    simp [hcp]
  · simp

/-- C16, amended, at a concrete state: the service 1 owns the characteristic 1, which owns the
descriptor 1; `removeService(1, 1)` unexports the descriptor, then the characteristic, then the
service. -/
theorem teardown_children_first_witness :
    unexportedPaths (removeService exampleDescriptorAddedState 1 1).2.1 =
      ["/org/bluez/gattApp/server/App1/Service1/Char1/Desc1",
        "/org/bluez/gattApp/server/App1/Service1/Char1",
        "/org/bluez/gattApp/server/App1/Service1"] ∧
    (unexportedPaths (removeService exampleDescriptorAddedState 1 1).2.1).Perm
      (subtreeObjects exampleFullService) ∧
    (unexportedPaths (removeService exampleDescriptorAddedState 1 1).2.1).getLast? =
      some "/org/bluez/gattApp/server/App1/Service1" :=
  have h := teardown_children_first exampleDescriptorAddedState 1 1 "/org/bluez/gattApp/server"
    "/org/bluez/gattApp/server/App1/Service1" { mGattLocalServices := [(1, exampleFullService)] }
    exampleFullService (by decide) (by decide) (by decide) (by decide)
  ⟨by decide, h.1, h.2.2.2⟩

/-! ## Local registry: removing an application -/

/-- C17 fails on the code. The application 1 owns the service 1, which owns the characteristic 1
with the descriptor 1, and the export root is present. `removeApplication(1, SERVER)` unexports
the three objects, children first, and starts one registration round trip with unregister-first,
but it never erases the service records: after the call the application 1 still owns the service
id 1, as a record whose objects are released. The sibling path `removeService(1, 1)` does erase
the record. -/
theorem removeApplication_keeps_service_records :
    (removeApplication exampleDescriptorAddedState 1 ApplicationType.SERVER).map
        (fun result => (result.2.1, result.2.2)) =
      some
        ([Effect.unexportObject "/org/bluez/gattApp/server/App1/Service1/Char1/Desc1",
          Effect.unexportObject "/org/bluez/gattApp/server/App1/Service1/Char1",
          Effect.unexportObject "/org/bluez/gattApp/server/App1/Service1",
          Effect.callUnregisterApplication "/org/bluez/gattApp/server",
          Effect.callRegisterApplication "/org/bluez/gattApp/server"],
         some PendingRegistration.removeApplication) ∧
    (removeApplication exampleDescriptorAddedState 1 ApplicationType.SERVER).map
        (fun result =>
          (UMap.find result.1.mGattLocalApplications 1).map
            (fun application => application.mGattLocalServices.map Prod.fst)) =
      some (some [1]) ∧
    (removeApplication exampleDescriptorAddedState 1 ApplicationType.SERVER).map
        (fun result =>
          (UMap.find result.1.mGattLocalApplications 1).bind
            (fun application =>
              (UMap.find application.mGattLocalServices 1).map
                (fun service => (service.mServiceObject, service.mCharacteristics)))) =
      some (some (none, [])) ∧
    (UMap.find (removeService exampleDescriptorAddedState 1 1).1.mGattLocalApplications 1).map
        (fun application => application.mGattLocalServices.map Prod.fst) =
      some [] := by
  decide

/-! ## Local registry: the current characteristic -/

theorem UMap.find_insert_isSome {κ ν : Type} [DecidableEq κ] (m : UMap κ ν) (k : κ) (v : ν) :
    (UMap.find (UMap.insert m k v) k).isSome = true := by
  cases h : UMap.find m k with
  | none => rw [UMap.find_insert_self m k v h]; rfl
  | some w => simp [UMap.insert, h]

/-- The descriptor maps after the descriptor map of one characteristic has been replaced through
the three nested references. -/
theorem getLocalDescriptorList_update (st : Bluez5ProfileGatt) (appId serviceId charId : Nat)
    (application : BluezGattLocalApplication) (service : Bluez5GattLocalService)
    (characteristic : Bluez5GattLocalCharacteristic)
    (descs : UMap Nat Bluez5GattLocalDescriptor) (a s k : Nat) :
    getLocalDescriptorList
        { st with
          mGattLocalApplications :=
            (UMap.set st.mGattLocalApplications appId
              { application with
                mGattLocalServices :=
                  (UMap.set application.mGattLocalServices serviceId
                    { service with
                      mCharacteristics :=
                        (UMap.set service.mCharacteristics charId
                          { characteristic with mDescriptors := descs }) }) }) } a s k =
      if a = appId then
        if s = serviceId then
          if k = charId then some descs
          else
            match UMap.find service.mCharacteristics k with
            | none => none
            | some other => some other.mDescriptors
        else
          match UMap.find application.mGattLocalServices s with
          | none => none
          | some otherService =>
            match UMap.find otherService.mCharacteristics k with
            | none => none
            | some other => some other.mDescriptors
      else getLocalDescriptorList st a s k := by
  unfold getLocalDescriptorList
  by_cases ha : a = appId
  · subst ha
    simp only [UMap.find_set_self, if_true]
    by_cases hs : s = serviceId
    · subst hs
      simp only [UMap.find_set_self, if_true]
      by_cases hk : k = charId
      · subst hk
        simp only [UMap.find_set_self, if_true]
      · simp only [hk, if_false]
        rw [UMap.find_set_ne _ _ _ _ (fun h => hk h.symm)]
    · simp only [hs, if_false]
      rw [UMap.find_set_ne _ _ _ _ (fun h => hs h.symm)]
  · simp only [ha, if_false]
    rw [UMap.find_set_ne _ _ _ _ (fun h => ha h.symm)]
/-- What `getLocalDescriptorList` found, unfolded: the three records on the way to the
descriptor map. -/
theorem getLocalDescriptorList_some {st : Bluez5ProfileGatt} {appId serviceId charId : Nat}
    {old : UMap Nat Bluez5GattLocalDescriptor}
    (h : getLocalDescriptorList st appId serviceId charId = some old) :
    ∃ application service characteristic,
      UMap.find st.mGattLocalApplications appId = some application ∧
      UMap.find application.mGattLocalServices serviceId = some service ∧
      UMap.find service.mCharacteristics charId = some characteristic ∧
      characteristic.mDescriptors = old := by
  unfold getLocalDescriptorList at h
  cases happ : UMap.find st.mGattLocalApplications appId with
  | none => simp [happ] at h
  | some application =>
    simp only [happ] at h
    cases hservice : UMap.find application.mGattLocalServices serviceId with
    | none => simp [hservice] at h
    | some service =>
      simp only [hservice] at h
      cases hchar : UMap.find service.mCharacteristics charId with
      | none => simp [hchar] at h
      | some characteristic =>
        simp only [hchar, Option.some.injEq] at h
        exact ⟨application, service, characteristic, rfl, hservice, hchar, h⟩

/-- With the export root present and the characteristic `mLastCharId` in the registry under
`(appId, serviceId)`, `addDescriptor` exports under the path of that characteristic and the
success of its round trip inserts into the descriptor map of that characteristic only. -/
theorem addDescriptor_current_characteristic (st2 : Bluez5ProfileGatt) (appId serviceId : Nat)
    (descriptor : BluetoothGattDescriptor) (objPath : String)
    (old : UMap Nat Bluez5GattLocalDescriptor)
    (hroot : st2.mObjectManagerGattServer = some objPath)
    (hold : getLocalDescriptorList st2 appId serviceId st2.mLastCharId = some old) :
    ∃ st3 st4,
      addDescriptor st2 appId serviceId descriptor true true =
        some (st3,
          Effect.exportObject
              (localCharObjPath objPath appId serviceId st2.mLastCharId ++ "/Desc" ++
                toString (nextDescId st2).1) ::
            registerLocalApplication objPath true,
          some (PendingRegistration.addDescriptor (some (appId, serviceId, st2.mLastCharId))
            (nextDescId st2).1
            (localDescObjPath objPath appId serviceId st2.mLastCharId (nextDescId st2).1))) ∧
      completeRegistration st3
          (PendingRegistration.addDescriptor (some (appId, serviceId, st2.mLastCharId))
            (nextDescId st2).1
            (localDescObjPath objPath appId serviceId st2.mLastCharId (nextDescId st2).1))
          BluetoothError.NONE =
        some (st4, [Effect.addCallback BluetoothError.NONE (nextDescId st2).1]) ∧
      getLocalDescriptorList st4 appId serviceId st2.mLastCharId =
        some (UMap.insert old (nextDescId st2).1
          { mDescObject :=
              some (localDescObjPath objPath appId serviceId st2.mLastCharId (nextDescId st2).1)
            mInterface := true }) ∧
      ∀ a s k, ¬ (a = appId ∧ s = serviceId ∧ k = st2.mLastCharId) →
        getLocalDescriptorList st4 a s k = getLocalDescriptorList st2 a s k := by
  obtain ⟨application, service, characteristic, happ, hservice, hchar, hdescs⟩ :=
    getLocalDescriptorList_some hold
  subst hdescs
  refine ⟨(nextDescId st2).2,
    { (nextDescId st2).2 with
      mGattLocalApplications :=
        (UMap.set (nextDescId st2).2.mGattLocalApplications appId
          { application with
            mGattLocalServices :=
              (UMap.set application.mGattLocalServices serviceId
                { service with
                  mCharacteristics :=
                    (UMap.set service.mCharacteristics st2.mLastCharId
                      { characteristic with
                        mDescriptors :=
                          (UMap.insert characteristic.mDescriptors (nextDescId st2).1
                            { mDescObject :=
                                some (localDescObjPath objPath appId serviceId st2.mLastCharId
                                  (nextDescId st2).1)
                              mInterface := true }) }) }) }) }, ?_, ?_, ?_, ?_⟩
  · simp [addDescriptor, hold, hroot, localDescObjPath, localCharObjPath, localServiceObjPath]
  · have happ' : UMap.find (nextDescId st2).2.mGattLocalApplications appId = some application :=
      happ
    simp only [completeRegistration, addDescriptorRegisterCallback, happ', hservice, hchar,
      if_true]
  · rw [getLocalDescriptorList_update]
    simp
  · intro a s k hne
    rw [getLocalDescriptorList_update]
    by_cases ha : a = appId
    · subst ha
      by_cases hs : s = serviceId
      · subst hs
        have hk : k ≠ st2.mLastCharId := fun hk => hne ⟨rfl, rfl, hk⟩
        simp only [if_true, hk, if_false]
        simp [getLocalDescriptorList, happ, hservice]
      · simp only [if_true, hs, if_false]
        simp [getLocalDescriptorList, happ]
    · simp only [ha, if_false]
      rfl

/-- C18, amended. Let `addCharacteristic` under `(appId, serviceId)` start its round trip from
any state (`pending1` is its closure and `(nextCharId st).1` the identifier `c` it took). When
the round trip fails, the closure invokes the callback with `FAIL` and `mLastCharId` is what it
was before the call. When it succeeds, the closure reports `c`, `mLastCharId` is `c` and the
characteristic `c` is in the registry with some descriptor map `old`; a following
`addDescriptor(appId, serviceId)` then exports its object under the path of `c` without a
`PARAM_INVALID` callback, and the success of its round trip reports its identifier `d` and leaves
the descriptor map of every other characteristic as it was; when `d` is not already a key of
`old` (which holds until the 16-bit counters wrap), the descriptor map of the characteristic `c`
is `old` with the new descriptor appended under the key `d`. -/
theorem descriptor_joins_last_added_characteristic (st : Bluez5ProfileGatt)
    (appId serviceId : Nat) (characteristic : BluetoothGattCharacteristic)
    (descriptor : BluetoothGattDescriptor)
    (skeletonAllocated objectAllocated builderAllocated : Bool)
    (st1 : Bluez5ProfileGatt) (eff1 : List Effect) (pending1 : PendingRegistration)
    (h : addCharacteristic st appId serviceId characteristic skeletonAllocated objectAllocated
        builderAllocated = some (st1, eff1, some pending1)) :
    ∃ objPath : String,
      st.mObjectManagerGattServer = some objPath ∧
      pending1 = PendingRegistration.addCharacteristic appId serviceId (nextCharId st).1
        (localCharObjPath objPath appId serviceId (nextCharId st).1) ∧
      (∀ error, error ≠ BluetoothError.NONE →
        ∃ st2, completeRegistration st1 pending1 error =
            some (st2, [Effect.addCallback BluetoothError.FAIL (-1)]) ∧
          st2.mLastCharId = st.mLastCharId) ∧
      ∃ st2 old,
        completeRegistration st1 pending1 BluetoothError.NONE =
          some (st2, [Effect.addCallback BluetoothError.NONE (nextCharId st).1]) ∧
        st2.mLastCharId = (nextCharId st).1 ∧
        getLocalDescriptorList st2 appId serviceId (nextCharId st).1 = some old ∧
        ∃ st3 st4,
          addDescriptor st2 appId serviceId descriptor true true =
            some (st3,
              Effect.exportObject
                  (localCharObjPath objPath appId serviceId (nextCharId st).1 ++ "/Desc" ++
                    toString (nextDescId st2).1) ::
                registerLocalApplication objPath true,
              some (PendingRegistration.addDescriptor (some (appId, serviceId, (nextCharId st).1))
                (nextDescId st2).1
                (localDescObjPath objPath appId serviceId (nextCharId st).1
                  (nextDescId st2).1))) ∧
          completeRegistration st3
              (PendingRegistration.addDescriptor (some (appId, serviceId, (nextCharId st).1))
                (nextDescId st2).1
                (localDescObjPath objPath appId serviceId (nextCharId st).1 (nextDescId st2).1))
              BluetoothError.NONE =
            some (st4, [Effect.addCallback BluetoothError.NONE (nextDescId st2).1]) ∧
          (UMap.find old (nextDescId st2).1 = none →
            getLocalDescriptorList st4 appId serviceId (nextCharId st).1 =
              some (old ++
                [((nextDescId st2).1,
                  { mDescObject :=
                      some (localDescObjPath objPath appId serviceId (nextCharId st).1
                        (nextDescId st2).1)
                    mInterface := true })])) ∧
          ∀ a s k, ¬ (a = appId ∧ s = serviceId ∧ k = (nextCharId st).1) →
            getLocalDescriptorList st4 a s k = getLocalDescriptorList st2 a s k := by
  unfold addCharacteristic at h
  cases happ : UMap.find st.mGattLocalApplications appId with
  | none => simp [happ] at h
  | some application =>
    simp only [happ] at h
    cases hservice : UMap.find application.mGattLocalServices serviceId with
    | none => simp [hservice] at h
    | some service =>
      simp only [hservice] at h
      cases skeletonAllocated with
      | false => simp at h
      | true =>
        cases hroot : st.mObjectManagerGattServer with
        | none => simp [hroot] at h
        | some objPath =>
          cases objectAllocated with
          | false => simp [hroot] at h
          | true =>
            cases builderAllocated with
            | false => simp [hroot] at h
            | true =>
              simp [hroot] at h
              obtain ⟨h1, -, h3⟩ := h
              subst h1
              subst h3
              have happ1 : UMap.find (nextCharId st).2.mGattLocalApplications appId =
                  some application := happ
              refine ⟨objPath, rfl, rfl, ?_, ?_⟩
              · intro error herror
                refine ⟨(nextCharId st).2, ?_, rfl⟩
                simp [completeRegistration, addCharacteristicRegisterCallback, herror]
              · obtain ⟨inserted, hinserted⟩ := Option.isSome_iff_exists.mp
                  (UMap.find_insert_isSome service.mCharacteristics (nextCharId st).1
                    { mCharObject := some (localCharObjPath objPath appId serviceId
                        (nextCharId st).1)
                      mInterface := true })
                obtain ⟨st2, hst2⟩ : ∃ st2 : Bluez5ProfileGatt, st2 =
                    { (nextCharId st).2 with
                      mGattLocalApplications :=
                        (UMap.set (nextCharId st).2.mGattLocalApplications appId
                          { application with
                            mGattLocalServices :=
                              (UMap.set application.mGattLocalServices serviceId
                                { service with
                                  mCharacteristics :=
                                    (UMap.insert service.mCharacteristics (nextCharId st).1
                                      { mCharObject :=
                                          some (localCharObjPath objPath appId serviceId
                                            (nextCharId st).1)
                                        mInterface := true }) }) })
                      mLastCharId := (nextCharId st).1 } := ⟨_, rfl⟩
                have hlast : st2.mLastCharId = (nextCharId st).1 := by rw [hst2]
                have hroot2 : st2.mObjectManagerGattServer = some objPath := by rw [hst2]; exact hroot
                have hold : getLocalDescriptorList st2 appId serviceId st2.mLastCharId =
                    some inserted.mDescriptors := by
                  rw [hlast, hst2]
                  simp [getLocalDescriptorList, UMap.find_set_self, hinserted]
                obtain ⟨st3, st4, hadd, hdone, hmap, hother⟩ :=
                  addDescriptor_current_characteristic st2 appId serviceId descriptor objPath
                    inserted.mDescriptors hroot2 hold
                rw [hlast] at hadd hdone hmap hother hold
                refine ⟨st2, inserted.mDescriptors, ?_, hlast, hold, st3, st4, hadd, hdone,
                  fun hfresh => by rw [hmap]; simp [UMap.insert, hfresh], hother⟩
                rw [hst2]
                simp [completeRegistration, addCharacteristicRegisterCallback, happ1, hservice]

/-- C18, amended, at a concrete state: the application 1 owns the service 1;
`addCharacteristic(1, 1)` starts its round trip with the identifier 1, its success makes 1 the
current characteristic, and the following `addDescriptor(1, 1)` puts the descriptor 1 into the
empty descriptor map of the characteristic 1. -/
theorem descriptor_joins_last_added_characteristic_witness :
    addCharacteristic exampleServiceAddedState 1 1 {} true true true =
      some ((nextCharId exampleServiceAddedState).2,
        [Effect.exportObject "/org/bluez/gattApp/server/App1/Service1/Char1",
          Effect.callUnregisterApplication "/org/bluez/gattApp/server",
          Effect.callRegisterApplication "/org/bluez/gattApp/server"],
        some (PendingRegistration.addCharacteristic 1 1 1
          "/org/bluez/gattApp/server/App1/Service1/Char1")) ∧
    completeRegistration (nextCharId exampleServiceAddedState).2
        (PendingRegistration.addCharacteristic 1 1 1
          "/org/bluez/gattApp/server/App1/Service1/Char1") BluetoothError.NONE =
      some (exampleCharacteristicAddedState, [Effect.addCallback BluetoothError.NONE 1]) ∧
    exampleCharacteristicAddedState.mLastCharId = 1 ∧
    getLocalDescriptorList exampleCharacteristicAddedState 1 1 1 = some [] ∧
    ∃ st3 st4,
      addDescriptor exampleCharacteristicAddedState 1 1 {} true true =
        some (st3,
          [Effect.exportObject "/org/bluez/gattApp/server/App1/Service1/Char1/Desc1",
            Effect.callUnregisterApplication "/org/bluez/gattApp/server",
            Effect.callRegisterApplication "/org/bluez/gattApp/server"],
          some (PendingRegistration.addDescriptor (some (1, 1, 1)) 1
            "/org/bluez/gattApp/server/App1/Service1/Char1/Desc1")) ∧
      completeRegistration st3
          (PendingRegistration.addDescriptor (some (1, 1, 1)) 1
            "/org/bluez/gattApp/server/App1/Service1/Char1/Desc1") BluetoothError.NONE =
        some (st4, [Effect.addCallback BluetoothError.NONE 1]) ∧
      getLocalDescriptorList st4 1 1 1 =
        some [(1, { mDescObject := some "/org/bluez/gattApp/server/App1/Service1/Char1/Desc1",
                    mInterface := true })] := by
  obtain ⟨objPath, hroot, -, -, st2, old, hdone, hlast, hold, st3, st4, hadd, hdone2, hmap, -⟩ :=
    descriptor_joins_last_added_characteristic exampleServiceAddedState 1 1 {} {} true true true
      (nextCharId exampleServiceAddedState).2
      [Effect.exportObject "/org/bluez/gattApp/server/App1/Service1/Char1",
        Effect.callUnregisterApplication "/org/bluez/gattApp/server",
        Effect.callRegisterApplication "/org/bluez/gattApp/server"]
      (PendingRegistration.addCharacteristic 1 1 1
        "/org/bluez/gattApp/server/App1/Service1/Char1") (by decide)
  have hobj : objPath = "/org/bluez/gattApp/server" :=
    Option.some.inj (hroot.symm.trans (by decide))
  subst hobj
  have hcompleted : completeRegistration (nextCharId exampleServiceAddedState).2
      (PendingRegistration.addCharacteristic 1 1 1
        "/org/bluez/gattApp/server/App1/Service1/Char1") BluetoothError.NONE =
      some (exampleCharacteristicAddedState, [Effect.addCallback BluetoothError.NONE 1]) := by
    decide
  have hst2 : st2 = exampleCharacteristicAddedState :=
    congrArg Prod.fst (Option.some.inj (hdone.symm.trans hcompleted))
  subst hst2
  have hempty : getLocalDescriptorList exampleCharacteristicAddedState 1 1 1 = some [] := by
    decide
  have hold' : old = [] := (Option.some.inj (hold.symm.trans hempty))
  subst hold'
  exact ⟨by decide, hcompleted, by decide, hempty, st3, st4, hadd, hdone2, hmap rfl⟩

/-! ## Layout of the exported object paths -/

theorem exportedPaths_registerLocalApplication (objPath : String) (unRegisterFirst : Bool) :
    exportedPaths (registerLocalApplication objPath unRegisterFirst) = [] := by
  cases unRegisterFirst <;> rfl

theorem properlyStarts_append (parent : String) (tail : String) (h : tail ≠ "") :
    ProperlyStarts parent (parent ++ tail) := by
  constructor
  · rw [String.data_append]
    exact ⟨tail.data, rfl⟩
  · intro heq
    apply h
    have hdata : parent.data = (parent ++ tail).data := congrArg String.data heq
    rw [String.data_append] at hdata
    have : tail.data = [] := by
      have := List.append_right_eq_self.mp hdata.symm
      exact this
    exact String.ext this

theorem toString_eq_decimalDigits (n : Nat) : toString n = decimalDigits n := rfl

theorem localServiceObjPath_eq (objPath : String) (appId serviceId : Nat) :
    localServiceObjPath objPath appId serviceId = layoutServicePath objPath appId serviceId := rfl

theorem localCharObjPath_eq (objPath : String) (appId serviceId charId : Nat) :
    localCharObjPath objPath appId serviceId charId =
      layoutCharPath objPath appId serviceId charId := rfl

theorem localDescObjPath_eq (objPath : String) (appId serviceId charId descId : Nat) :
    localDescObjPath objPath appId serviceId charId descId =
      layoutDescPath objPath appId serviceId charId descId := rfl

theorem append_ne_empty_of_ne (a b : String) (h : a ≠ "") : a ++ b ≠ "" := by
  intro heq
  apply h
  have hdata : (a ++ b).data = [] := congrArg String.data heq
  rw [String.data_append] at hdata
  exact String.ext (List.append_eq_nil.mp hdata).1

/-- C19. With the export root `objPath` present, from any state: `addService` exports exactly
one object, at `<root>/App<appId>/Service<serviceId>` with the identifier taken from
`nextServiceId`; `addCharacteristic` under a known application and service exports exactly one
object, at `<root>/App<appId>/Service<serviceId>/Char<charId>` with the identifier taken from
`nextCharId`; `addDescriptor` exports exactly one object, at
`<root>/App<appId>/Service<serviceId>/Char<mLastCharId>/Desc<descId>` with the identifier taken
from `nextDescId`. Every identifier is rendered as the string of its base-10 digits. The service
path declared on the characteristic is the layout path of the service and a proper initial
segment of the characteristic path; the characteristic path declared on the descriptor is the
layout path of the characteristic `mLastCharId` and a proper initial segment of the descriptor
path. -/
theorem exported_paths_follow_layout (st : Bluez5ProfileGatt) (objPath : String)
    (appId serviceId : Nat) (service : BluetoothGattService)
    (characteristic : BluetoothGattCharacteristic) (descriptor : BluetoothGattDescriptor)
    (hroot : st.mObjectManagerGattServer = some objPath) :
    exportedPaths (addService st appId service).2.1 =
      [layoutServicePath objPath appId (nextServiceId st).1] ∧
    (∀ application localService,
      UMap.find st.mGattLocalApplications appId = some application →
      UMap.find application.mGattLocalServices serviceId = some localService →
      (addCharacteristic st appId serviceId characteristic true true true).map
          (fun result => exportedPaths result.2.1) =
        some [layoutCharPath objPath appId serviceId (nextCharId st).1]) ∧
    (addDescriptor st appId serviceId descriptor true true).map
        (fun result => exportedPaths result.2.1) =
      some [layoutDescPath objPath appId serviceId st.mLastCharId (nextDescId st).1] ∧
    characteristicDeclaredService objPath appId serviceId =
      layoutServicePath objPath appId serviceId ∧
    (∀ charId, ProperlyStarts (characteristicDeclaredService objPath appId serviceId)
      (layoutCharPath objPath appId serviceId charId)) ∧
    descriptorDeclaredCharacteristic st objPath appId serviceId =
      layoutCharPath objPath appId serviceId st.mLastCharId ∧
    (∀ descId, ProperlyStarts (descriptorDeclaredCharacteristic st objPath appId serviceId)
      (layoutDescPath objPath appId serviceId st.mLastCharId descId)) := by
  refine ⟨?_, ?_, ?_, rfl, ?_, rfl, ?_⟩
  · simp only [addService, hroot, nextServiceId, exportedPaths,
      exportedPaths_registerLocalApplication]
    rfl
  · intro application localService happ hservice
    simp only [addCharacteristic, happ, hservice, hroot, nextCharId, Bool.not_true,
      Bool.false_eq_true, if_false, Option.map_some', exportedPaths,
      exportedPaths_registerLocalApplication]
    rfl
  · unfold addDescriptor
    simp only [hroot, nextDescId, Bool.not_true, Bool.false_eq_true, if_false, Option.map_some']
    cases (getLocalDescriptorList st appId serviceId st.mLastCharId).isNone <;>
      simp only [if_true, if_false, Bool.false_eq_true, List.nil_append, List.singleton_append,
        exportedPaths, exportedPaths_registerLocalApplication] <;> rfl
  · intro charId
    have h := properlyStarts_append (layoutServicePath objPath appId serviceId)
      ("/Char" ++ decimalDigits charId) (append_ne_empty_of_ne _ _ (by decide))
    have heq : layoutServicePath objPath appId serviceId ++ ("/Char" ++ decimalDigits charId) =
        layoutCharPath objPath appId serviceId charId := by
      simp only [layoutCharPath, layoutServicePath, String.append_assoc]
    rw [heq] at h
    exact h
  · intro descId
    have h := properlyStarts_append (layoutCharPath objPath appId serviceId st.mLastCharId)
      ("/Desc" ++ decimalDigits descId) (append_ne_empty_of_ne _ _ (by decide))
    have heq : layoutCharPath objPath appId serviceId st.mLastCharId ++
          ("/Desc" ++ decimalDigits descId) =
        layoutDescPath objPath appId serviceId st.mLastCharId descId := by
      simp only [layoutCharPath, layoutDescPath, String.append_assoc]
    rw [heq] at h
    exact h

/-- C19 at a concrete state: the application 1 owns the service 1, which owns the characteristic
1 (the current one); the three methods export at `App1/Service2`, `App1/Service1/Char2` and
`App1/Service1/Char1/Desc1` under the root. -/
theorem exported_paths_follow_layout_witness :
    exampleCharacteristicAddedState.mObjectManagerGattServer =
      some "/org/bluez/gattApp/server" ∧
    exportedPaths (addService exampleCharacteristicAddedState 1 {}).2.1 =
      ["/org/bluez/gattApp/server/App1/Service2"] ∧
    (addCharacteristic exampleCharacteristicAddedState 1 1 {} true true true).map
        (fun result => exportedPaths result.2.1) =
      some ["/org/bluez/gattApp/server/App1/Service1/Char2"] ∧
    (addDescriptor exampleCharacteristicAddedState 1 1 {} true true).map
        (fun result => exportedPaths result.2.1) =
      some ["/org/bluez/gattApp/server/App1/Service1/Char1/Desc1"] ∧
    ProperlyStarts "/org/bluez/gattApp/server/App1/Service1"
      "/org/bluez/gattApp/server/App1/Service1/Char2" ∧
    ProperlyStarts "/org/bluez/gattApp/server/App1/Service1/Char1"
      "/org/bluez/gattApp/server/App1/Service1/Char1/Desc1" :=
  have h := exported_paths_follow_layout exampleCharacteristicAddedState
    "/org/bluez/gattApp/server" 1 1 {} {} {} (by decide)
  ⟨by decide, h.1,
    h.2.1 { mGattLocalServices := [(1, exampleCharacteristicService)] }
      exampleCharacteristicService (by decide) (by decide),
    h.2.2.1, h.2.2.2.2.1 2, h.2.2.2.2.2.2 1⟩

/-! ## Flag helpers -/

theorem characteristicPropertyMap_eq : characteristicPropertyMap = propertyFlagOrder := by
  decide

theorem descriptorPermissionMap_eq : descriptorPermissionMap = permissionFlagOrder := by
  decide

/-- The loop of the flag helpers from `index` on: when the array has room for the strings of
the set bits, they are stored from `index` on in table order and nothing else changes. -/
theorem flagLoop_spec (isSet : Nat → Bool) (table : List (Nat × String)) :
    ∀ (flags : List (Option String)) (index : Nat),
      index + (setFlags table isSet).length ≤ flags.length →
      table.foldl (flagLoopStep isSet) (some (flags, index)) =
        some (flags.take index ++ (setFlags table isSet).map some ++
            flags.drop (index + (setFlags table isSet).length),
          index + (setFlags table isSet).length) := by
  induction table with
  | nil =>
    intro flags index _
    simp [setFlags]
  | cons entry rest ih =>
    intro flags index hroom
    by_cases hset : isSet entry.1 = true
    · have hflags : setFlags (entry :: rest) isSet = entry.2 :: setFlags rest isSet := by
        simp [setFlags, hset]
      rw [hflags] at hroom ⊢
      simp only [List.length_cons] at hroom
      have hlt : index < flags.length := by omega
      simp only [List.foldl_cons, flagLoopStep, hset, if_true, storeFlag, hlt]
      rw [ih (flags.set index (some entry.2)) (index + 1) (by simp; omega)]
      have htake : (flags.set index (some entry.2)).take (index + 1) =
          flags.take index ++ [some entry.2] := by
        rw [List.set_eq_take_append_cons_drop, if_pos hlt]
        rw [List.take_append_eq_append_take]
        simp [List.take_take, List.length_take, Nat.min_eq_left (Nat.le_of_lt hlt)]
      have hdrop : (flags.set index (some entry.2)).drop
            (index + 1 + (setFlags rest isSet).length) =
          flags.drop (index + ((setFlags rest isSet).length + 1)) := by
        rw [List.drop_set_of_lt _ _ (by omega)]
        congr 1
        omega
      rw [htake, hdrop]
      simp only [List.map_cons, List.length_cons, List.append_assoc, List.singleton_append]
      have hindex : index + 1 + (setFlags rest isSet).length =
          index + ((setFlags rest isSet).length + 1) := by omega
      rw [hindex]
    · have hflags : setFlags (entry :: rest) isSet = setFlags rest isSet := by
        simp [setFlags, hset]
      rw [hflags] at hroom ⊢
      simp only [List.foldl_cons, flagLoopStep, hset]
      exact ih flags index hroom

theorem setFlags_length_le (table : List (Nat × String)) (isSet : Nat → Bool) :
    (setFlags table isSet).length ≤ table.length := by
  unfold setFlags
  rw [List.length_map]
  exact List.length_filter_le _ _

theorem setFlags_nodup (table : List (Nat × String)) (isSet : Nat → Bool)
    (h : (table.map Prod.snd).Nodup) : (setFlags table isSet).Nodup := by
  unfold setFlags
  exact List.Sublist.nodup (List.Sublist.map _ (List.filter_sublist _)) h

/-- The whole of a flag helper on an array with room for the table and the terminator. -/
theorem flagLoop_terminated (isSet : Nat → Bool) (table : List (Nat × String))
    (flags : List (Option String)) (hroom : flags.length = table.length + 1) :
    (match table.foldl (flagLoopStep isSet) (some (flags, 0)) with
      | none => none
      | some (written, index) => (storeFlag written index none).map some) =
      some (some ((setFlags table isSet).map some ++ none ::
        flags.drop ((setFlags table isSet).length + 1))) := by
  have hle := setFlags_length_le table isSet
  rw [flagLoop_spec isSet table flags 0 (by omega)]
  simp only [List.take_zero, List.nil_append, Nat.zero_add, storeFlag, List.length_append,
    List.length_map, List.length_drop]
  rw [if_pos (by omega)]
  simp only [Option.map_some']
  congr 2
  rw [List.set_eq_take_append_cons_drop]
  rw [if_pos (by simp; omega)]
  rw [List.take_append_eq_append_take, List.drop_append_eq_append_drop]
  simp [List.drop_drop]
  rw [List.take_of_length_le (by simp), List.drop_eq_nil_of_le (by simp)]
  rfl

/-- C20. For every characteristic and every caller's array of the size the callers declare
(`characteristicPropertyMap.size() + 1` slots, whatever they hold), `updatePropertyFlags` stays
inside the array and leaves in it the strings of exactly the set bits among broadcast, read,
write-without-response, write, notify, indicate, authenticated-signed-writes, in that order,
followed by the `NULL` terminator (the slots after the terminator are untouched); no string
occurs twice and there are at most 7 of them. For every descriptor, `updatePermissionFlags` does
the same over read, encrypt-read, encrypt-authenticated-read, write, encrypt-write,
encrypt-authenticated-write, secure-write. -/
theorem flag_helpers_emit_set_bits_in_table_order
    (characteristic : BluetoothGattCharacteristic) (descriptor : BluetoothGattDescriptor)
    (propertyflags permissionflags : List (Option String))
    (hproperty : propertyflags.length = characteristicPropertyMap.length + 1)
    (hpermission : permissionflags.length = descriptorPermissionMap.length + 1) :
    updatePropertyFlags characteristic (some propertyflags) =
      some (some
        ((setFlags propertyFlagOrder (fun property => characteristic.isPropertySet property)).map
            some ++
          none :: propertyflags.drop
            ((setFlags propertyFlagOrder
              (fun property => characteristic.isPropertySet property)).length + 1))) ∧
    (setFlags propertyFlagOrder (fun property => characteristic.isPropertySet property)).Nodup ∧
    (setFlags propertyFlagOrder
      (fun property => characteristic.isPropertySet property)).length ≤ 7 ∧
    updatePermissionFlags descriptor (some permissionflags) =
      some (some
        ((setFlags permissionFlagOrder
            (fun permission => descriptor.isPermissionSet permission)).map some ++
          none :: permissionflags.drop
            ((setFlags permissionFlagOrder
              (fun permission => descriptor.isPermissionSet permission)).length + 1))) ∧
    (setFlags permissionFlagOrder
      (fun permission => descriptor.isPermissionSet permission)).Nodup ∧
    (setFlags permissionFlagOrder
      (fun permission => descriptor.isPermissionSet permission)).length ≤ 7 := by
  refine ⟨?_, setFlags_nodup _ _ (by decide), setFlags_length_le propertyFlagOrder _, ?_,
    setFlags_nodup _ _ (by decide), setFlags_length_le permissionFlagOrder _⟩
  · have h := flagLoop_terminated (fun property => characteristic.isPropertySet property)
      characteristicPropertyMap propertyflags hproperty
    rw [characteristicPropertyMap_eq] at h
    unfold updatePropertyFlags
    rw [characteristicPropertyMap_eq]
    exact h
  · have h := flagLoop_terminated (fun permission => descriptor.isPermissionSet permission)
      descriptorPermissionMap permissionflags hpermission
    rw [descriptorPermissionMap_eq] at h
    unfold updatePermissionFlags
    rw [descriptorPermissionMap_eq]
    exact h

/-- C20 at concrete inputs: a characteristic with the notify and read bits and a descriptor with
the write and read bits, each with an array of 8 slots that hold a stale string. -/
theorem flag_helpers_emit_set_bits_in_table_order_witness :
    (List.replicate 8 (some "stale")).length = characteristicPropertyMap.length + 1 ∧
    (List.replicate 8 (some "stale")).length = descriptorPermissionMap.length + 1 ∧
    updatePropertyFlags { properties := PROPERTY_NOTIFY ||| PROPERTY_READ }
        (some (List.replicate 8 (some "stale"))) =
      some (some [some "read", some "notify", none, some "stale", some "stale", some "stale",
        some "stale", some "stale"]) ∧
    updatePermissionFlags { permissions := PERMISSION_WRITE ||| PERMISSION_READ }
        (some (List.replicate 8 (some "stale"))) =
      some (some [some "read", some "write", none, some "stale", some "stale", some "stale",
        some "stale", some "stale"]) :=
  have h := flag_helpers_emit_set_bits_in_table_order
    { properties := PROPERTY_NOTIFY ||| PROPERTY_READ }
    { permissions := PERMISSION_WRITE ||| PERMISSION_READ }
    (List.replicate 8 (some "stale")) (List.replicate 8 (some "stale")) (by decide) (by decide)
  ⟨by decide, by decide, h.1, h.2.2.2.1⟩

/-! ## Remote entity mirror: the per-device refresh -/

/-- C22 fails on the code. The index and the snapshot hold the devices `aa:bb` (services `1801`,
`180d`) and `cc:dd` (service `180f`). `discoverServices("aa:bb")` clears the whole snapshot
before it rebuilds the entry of `aa:bb`: the snapshot entry of `cc:dd` is gone although the index
still holds the device, and `getServices("cc:dd")` turns from its service to the empty list. -/
theorem discoverServices_address_drops_other_devices :
    exampleTwoDeviceState.mRemoteDeviceServicesMap =
      [("aa:bb", [{ uuid := "1801" }, { uuid := "180d" }]), ("cc:dd", [{ uuid := "180f" }])] ∧
    (discoverServicesAddress exampleTwoDeviceState "aa:bb").1.mRemoteDeviceServicesMap =
      [("aa:bb", [{ uuid := "1801" }, { uuid := "180d" }])] ∧
    (discoverServicesAddress exampleTwoDeviceState "aa:bb").1.mDeviceServicesMap =
      exampleTwoDeviceState.mDeviceServicesMap ∧
    UMap.find exampleTwoDeviceState.mDeviceServicesMap "cc:dd" = some [exampleServiceD] ∧
    getServices exampleTwoDeviceState "cc:dd" = [{ uuid := "180f" }] ∧
    getServices (discoverServicesAddress exampleTwoDeviceState "aa:bb").1 "cc:dd" = [] := by
  decide

/-- The per-device refresh, for every state: afterwards the snapshot holds the flattening of the
index entry of `address` under `address` and no entry for any other key. -/
theorem discoverServicesAddress_snapshot (st : Bluez5ProfileGatt) (address other : String) :
    UMap.find (discoverServicesAddress st address).1.mRemoteDeviceServicesMap address =
      (UMap.find st.mDeviceServicesMap address).map flattenServices ∧
    (other ≠ address →
      UMap.find (discoverServicesAddress st address).1.mRemoteDeviceServicesMap other = none) := by
  unfold discoverServicesAddress
  cases hf : UMap.find st.mDeviceServicesMap address with
  | none => simp [UMap.find]
  | some servicesList =>
    refine ⟨by simp [UMap.find, UMap.set, flattenServices], ?_⟩
    intro hne
    simp [UMap.find, UMap.set]
    exact fun h => hne h.symm

/-! ## Remote entity mirror: the case of device addresses -/

/-- C23 fails on the code. The device `aa:bb` is in the index with the service `1801`, its
readable and writable characteristic `2a05` and the descriptor `2902`. Called with the address
in lower case the lookups succeed; called with `AA:BB` each of `getProperty`,
`discoverServices(address)`, `changeCharacteristicWatchStatus` and the address-addressed
`readCharacteristic`, `writeCharacteristic`, `readDescriptor`, `writeDescriptor` looks the raw
address up in the index, misses and reports not connected or `FAIL`. `getServices` and
`getService` lower-case the address and answer the same for both. -/
theorem raw_address_lookups_miss_upper_case :
    convertAddressToLowerCase "AA:BB" = "aa:bb" ∧
    (UMap.find exampleDescriptorState.mDeviceServicesMap "aa:bb").isSome = true ∧
    getProperty exampleDescriptorState "aa:bb" = true ∧
    getProperty exampleDescriptorState "AA:BB" = false ∧
    (discoverServicesAddress exampleDescriptorState "aa:bb").2 =
      [Effect.resultCallback BluetoothError.NONE] ∧
    (discoverServicesAddress exampleDescriptorState "AA:BB").2 =
      [Effect.resultCallback BluetoothError.FAIL] ∧
    changeCharacteristicWatchStatus exampleEnv exampleDescriptorState "aa:bb" "1801" "2a05" true
        false =
      [Effect.callStartNotify "/org/bluez/hci0/dev_AA_BB/service0001/char0002",
        Effect.resultCallback BluetoothError.NONE] ∧
    changeCharacteristicWatchStatus exampleEnv exampleDescriptorState "AA:BB" "1801" "2a05" true
        false =
      [Effect.resultCallback BluetoothError.FAIL] ∧
    (readCharacteristic exampleEnv exampleDescriptorState "aa:bb" "1801" "2a05").2 =
      [Effect.callCharacteristicReadValue "/org/bluez/hci0/dev_AA_BB/service0001/char0002",
        Effect.readCharacteristicCallback BluetoothError.NONE { uuid := "2a05" }] ∧
    (readCharacteristic exampleEnv exampleDescriptorState "AA:BB" "1801" "2a05").2 =
      [Effect.readCharacteristicCallback BluetoothError.FAIL {}] ∧
    (writeCharacteristic exampleEnv exampleDescriptorState "aa:bb" "1801"
        { uuid := "2a05", value := [1, 2] }).2 =
      [Effect.callCharacteristicWriteValue "/org/bluez/hci0/dev_AA_BB/service0001/char0002"
          [1, 2],
        Effect.resultCallback BluetoothError.NONE] ∧
    (writeCharacteristic exampleEnv exampleDescriptorState "AA:BB" "1801"
        { uuid := "2a05", value := [1, 2] }).2 =
      [Effect.resultCallback BluetoothError.FAIL] ∧
    (readDescriptor exampleEnv exampleDescriptorState "aa:bb" "1801" "2a05" "2902").2 =
      [Effect.callDescriptorReadValue
          "/org/bluez/hci0/dev_AA_BB/service0001/char0002/desc0004",
        Effect.readDescriptorCallback BluetoothError.NONE { uuid := "2902" }] ∧
    (readDescriptor exampleEnv exampleDescriptorState "AA:BB" "1801" "2a05" "2902").2 =
      [Effect.readDescriptorCallback BluetoothError.FAIL {}] ∧
    (writeDescriptor exampleEnv exampleDescriptorState "aa:bb" "1801" "2a05"
        { uuid := "2902", value := [1] }).2 =
      [Effect.callDescriptorWriteValue
          "/org/bluez/hci0/dev_AA_BB/service0001/char0002/desc0004" [1],
        Effect.resultCallback BluetoothError.NONE] ∧
    (writeDescriptor exampleEnv exampleDescriptorState "AA:BB" "1801" "2a05"
        { uuid := "2902", value := [1] }).2 =
      [Effect.resultCallback BluetoothError.FAIL] ∧
    getServices (updateRemoteDeviceServices exampleDescriptorState) "AA:BB" =
      getServices (updateRemoteDeviceServices exampleDescriptorState) "aa:bb" ∧
    getServices (updateRemoteDeviceServices exampleDescriptorState) "AA:BB" ≠ [] ∧
    getService (updateRemoteDeviceServices exampleDescriptorState) "AA:BB" "1801" =
      getService (updateRemoteDeviceServices exampleDescriptorState) "aa:bb" "1801" := by
  decide

/-! ## Remote entity mirror: removal of a descriptor -/

/-- C26 fails on the code. The descriptors `desc0004` and `desc0006` are mirrored under the
characteristic `char0002`. `removeRemoteGattDescriptor` of `desc0004` finds the service, the
characteristic and the descriptor, but `characteristicList` and `descriptorsList` are copies
(`auto`, not `auto &`): the descriptor is erased from the local copy only, and after the call the
descriptor list of the characteristic in the mirror still holds the descriptor with that path. -/
theorem removeRemoteGattDescriptor_keeps_descriptor :
    mirroredDescriptors exampleEnv exampleTwoDescriptorState
        "/org/bluez/hci0/dev_AA_BB/service0001/char0002" =
      some [exampleDescriptor, exampleSecondDescriptor] ∧
    exampleDescriptor.objectPath = "/org/bluez/hci0/dev_AA_BB/service0001/char0002/desc0004" ∧
    removeRemoteGattDescriptorCopy exampleEnv exampleTwoDescriptorState
        "/org/bluez/hci0/dev_AA_BB/service0001/char0002/desc0004" =
      some [exampleSecondDescriptor] ∧
    mirroredDescriptors exampleEnv
        (removeRemoteGattDescriptor exampleEnv exampleTwoDescriptorState
          "/org/bluez/hci0/dev_AA_BB/service0001/char0002/desc0004")
        "/org/bluez/hci0/dev_AA_BB/service0001/char0002" =
      some [exampleDescriptor, exampleSecondDescriptor] := by
  decide

/-! ## Remote entity mirror: a descriptor without its characteristic -/

/-- When the owning service resolves and the parent characteristic is not in its list,
`addRemoteDescriptorToCharacteristic` dereferences the end iterator: the embedding has no result
for the call. -/
theorem addRemoteDescriptorToCharacteristic_missing_characteristic (env : Env)
    (st : Bluez5ProfileGatt) (gattDescriptor : GattRemoteDescriptor)
    (remoteService : GattRemoteService)
    (hservice : getRemoteGattService env st (splitInPathAndName gattDescriptor.parentObjectPath).1 =
      some remoteService)
    (hmissing : remoteService.gattRemoteCharacteristics.find?
      (fun characteristic =>
        decide (characteristic.objectPath = gattDescriptor.parentObjectPath)) = none) :
    addRemoteDescriptorToCharacteristic env st gattDescriptor = none := by
  simp [addRemoteDescriptorToCharacteristic, hservice, hmissing]

/-- C29 fails on the code. The service `service0001` is mirrored without characteristics and a
descriptor arrives whose parent is `service0001/char0002`. The search over the characteristic
list returns the end iterator, and the source reads
`(*characteristicIter)->characteristic.isPropertySet(...)` before it tests
`characteristicIter != characteristicList.end()`: the absent element is accessed and the
behaviour is undefined, where the claim has a checked search and an unchanged mirror. -/
theorem addRemoteDescriptorToCharacteristic_reads_end_iterator :
    getRemoteGattService exampleEnv (addRemoteServiceToDevice exampleEnv initial exampleServiceA).1
        (splitInPathAndName exampleDescriptor.parentObjectPath).1 =
      some exampleServiceA ∧
    exampleServiceA.gattRemoteCharacteristics.find?
        (fun characteristic =>
          decide (characteristic.objectPath = exampleDescriptor.parentObjectPath)) =
      none ∧
    addRemoteDescriptorToCharacteristic exampleEnv
        (addRemoteServiceToDevice exampleEnv initial exampleServiceA).1 exampleDescriptor =
      none := by
  decide

/-! ## Keys of unordered maps -/

theorem UMap.find_eq_none_iff {κ ν : Type} [DecidableEq κ] (m : UMap κ ν) (k : κ) :
    UMap.find m k = none ↔ k ∉ m.map Prod.fst := by
  induction m with
  | nil => simp [UMap.find]
  | cons p rest ih =>
    obtain ⟨a, b⟩ := p
    by_cases h : a = k
    · simp [UMap.find, h]
    · simp only [UMap.find, h, if_false, List.map_cons, List.mem_cons, not_or]
      rw [ih]
      exact ⟨fun hr => ⟨fun hk => h hk.symm, hr⟩, fun hr => hr.2⟩

theorem UMap.set_of_not_mem {κ ν : Type} [DecidableEq κ] (m : UMap κ ν) (k : κ) (v : ν)
    (h : k ∉ m.map Prod.fst) : UMap.set m k v = m ++ [(k, v)] := by
  induction m with
  | nil => rfl
  | cons p rest ih =>
    obtain ⟨a, b⟩ := p
    simp only [List.map_cons, List.mem_cons, not_or] at h
    have hne : ¬ a = k := fun hk => h.1 hk.symm
    simp [UMap.set, hne, ih h.2]

theorem UMap.keys_set_of_mem {κ ν : Type} [DecidableEq κ] (m : UMap κ ν) (k : κ) (v : ν)
    (h : k ∈ m.map Prod.fst) : (UMap.set m k v).map Prod.fst = m.map Prod.fst := by
  induction m with
  | nil => simp at h
  | cons p rest ih =>
    obtain ⟨a, b⟩ := p
    by_cases hk : a = k
    · simp [UMap.set, hk]
    · simp only [List.map_cons, List.mem_cons] at h
      have hrest : k ∈ rest.map Prod.fst := by
        rcases h with h | h
        · exact absurd h.symm hk
        · exact h
      simp [UMap.set, hk, ih hrest]

theorem UMap.keysDistinct_set {κ ν : Type} [DecidableEq κ] {m : UMap κ ν}
    (h : UMap.KeysDistinct m) (k : κ) (v : ν) : UMap.KeysDistinct (UMap.set m k v) := by
  unfold UMap.KeysDistinct at h ⊢
  by_cases hk : k ∈ m.map Prod.fst
  · rw [UMap.keys_set_of_mem m k v hk]
    exact h
  · rw [UMap.set_of_not_mem m k v hk, List.map_append]
    refine List.Nodup.append h (by simp) ?_
    intro a ha hb
    simp only [List.map_cons, List.map_nil, List.mem_singleton] at hb
    exact hk (hb ▸ ha)

theorem UMap.keysDistinct_insert {κ ν : Type} [DecidableEq κ] {m : UMap κ ν}
    (h : UMap.KeysDistinct m) (k : κ) (v : ν) : UMap.KeysDistinct (UMap.insert m k v) := by
  unfold UMap.insert
  cases hf : UMap.find m k with
  | some w => exact h
  | none =>
    have hk := (UMap.find_eq_none_iff m k).mp hf
    have hset := UMap.keysDistinct_set h k v
    rw [UMap.set_of_not_mem m k v hk] at hset
    exact hset

theorem UMap.keysDistinct_erase {κ ν : Type} [DecidableEq κ] {m : UMap κ ν}
    (h : UMap.KeysDistinct m) (k : κ) : UMap.KeysDistinct (UMap.erase m k) := by
  unfold UMap.KeysDistinct UMap.erase at *
  exact List.Sublist.nodup (List.Sublist.map _ (List.filter_sublist _)) h

theorem UMap.find_map_values {κ ν μ : Type} [DecidableEq κ] (m : UMap κ ν) (f : ν → μ) (k : κ) :
    UMap.find (m.map (fun entry => (entry.1, f entry.2))) k = (UMap.find m k).map f := by
  induction m with
  | nil => rfl
  | cons p rest ih =>
    obtain ⟨a, b⟩ := p
    by_cases h : a = k
    · simp [UMap.find, h]
    · simp [UMap.find, h, ih]

/-! ## Remote entity mirror: the global refresh -/

/-- The loop of `updateRemoteDeviceServices` over entries with pairwise distinct keys that are
not yet in the snapshot appends the flattened entries in order. -/
theorem refresh_loop (m : UMap String (List GattRemoteService)) :
    ∀ snapshot : UMap String (List BluetoothGattService),
      (snapshot.map Prod.fst ++ m.map Prod.fst).Nodup →
      m.foldl
          (fun snapshot entry =>
            UMap.set snapshot entry.1 (entry.2.map (fun s => s.service))) snapshot =
        snapshot ++ m.map (fun entry => (entry.1, flattenServices entry.2)) := by
  induction m with
  | nil => intro snapshot _; simp
  | cons p rest ih =>
    intro snapshot hnodup
    obtain ⟨k, l⟩ := p
    simp only [List.map_cons, List.foldl_cons]
    have hk : k ∉ snapshot.map Prod.fst := by
      intro hmem
      rw [List.nodup_append] at hnodup
      exact hnodup.2.2 hmem (List.mem_cons_self _ _)
    rw [UMap.set_of_not_mem snapshot k _ hk]
    rw [ih (snapshot ++ [(k, l.map (fun s => s.service))]) (by
      simpa [List.append_assoc] using hnodup)]
    simp [flattenServices]

/-- C21. For every mirror state (the keys of the index pairwise distinct, as the keys of an
`std::unordered_map` are), after `updateRemoteDeviceServices` the snapshot consists of exactly
the device addresses of the index, each with the flattening of its service list in list order:
looking an address up in the snapshot gives the flattening of its index entry, and nothing when
the index has no entry, whatever the snapshot held before. The index is unchanged and a second
refresh changes nothing. -/
theorem global_refresh_flattens_mirror (st : Bluez5ProfileGatt)
    (hkeys : UMap.KeysDistinct st.mDeviceServicesMap) :
    (updateRemoteDeviceServices st).mRemoteDeviceServicesMap =
      st.mDeviceServicesMap.map (fun entry => (entry.1, flattenServices entry.2)) ∧
    (∀ address,
      UMap.find (updateRemoteDeviceServices st).mRemoteDeviceServicesMap address =
        (UMap.find st.mDeviceServicesMap address).map flattenServices) ∧
    (updateRemoteDeviceServices st).mDeviceServicesMap = st.mDeviceServicesMap ∧
    updateRemoteDeviceServices (updateRemoteDeviceServices st) = updateRemoteDeviceServices st := by
  have hsnap : (updateRemoteDeviceServices st).mRemoteDeviceServicesMap =
      st.mDeviceServicesMap.map (fun entry => (entry.1, flattenServices entry.2)) := by
    unfold updateRemoteDeviceServices
    simp only
    rw [refresh_loop st.mDeviceServicesMap [] (by simpa using hkeys)]
    rfl
  refine ⟨hsnap, ?_, rfl, rfl⟩
  intro address
  rw [hsnap]
  exact UMap.find_map_values _ _ _

/-- C21 at a concrete state: the index holds the devices `aa:bb` and `cc:dd` and the snapshot is
still empty; the refresh publishes both. -/
theorem global_refresh_flattens_mirror_witness :
    exampleStaleSnapshotState.mRemoteDeviceServicesMap = [] ∧
    (updateRemoteDeviceServices exampleStaleSnapshotState).mRemoteDeviceServicesMap =
      [("aa:bb", [{ uuid := "1801" }]), ("cc:dd", [{ uuid := "180f" }])] ∧
    UMap.find (updateRemoteDeviceServices exampleStaleSnapshotState).mRemoteDeviceServicesMap
        "cc:dd" =
      some [{ uuid := "180f" }] :=
  have h := global_refresh_flattens_mirror exampleStaleSnapshotState (by decide)
  ⟨by decide, h.1, h.2.1 "cc:dd"⟩

/-! ## Well-formedness of the mirror index -/

theorem modifyFirst_const_map {α β : Type} (p : α → Bool) (s' : α) (g : α → β) (l : List α)
    (x : α) (hfind : l.find? p = some x) (hg : g s' = g x) :
    (modifyFirst p (fun _ => s') l).map g = l.map g := by
  induction l with
  | nil => simp at hfind
  | cons a t ih =>
    by_cases hp : p a = true
    · simp [List.find?, hp] at hfind
      subst hfind
      simp [modifyFirst, hp, hg]
    · simp [List.find?, hp] at hfind
      simp [modifyFirst, hp, ih hfind]

theorem mirrorInv_set {m : UMap String (List GattRemoteService)} (h : MirrorInv m) (k : String)
    (l : List GattRemoteService) (hne : l ≠ [])
    (hnodup : (l.map (fun devService => devService.service.uuid)).Nodup) :
    MirrorInv (UMap.set m k l) := by
  refine ⟨UMap.keysDistinct_set h.1 k l, ?_⟩
  intro entry hentry
  rcases UMap.mem_set hentry with h' | h'
  · exact h.2 entry h'
  · subst h'
    exact ⟨hne, hnodup⟩

theorem mirrorInv_replace {m : UMap String (List GattRemoteService)} (h : MirrorInv m)
    {k : String} {l : List GattRemoteService} (hf : UMap.find m k = some l)
    (p : GattRemoteService → Bool) (s' x : GattRemoteService) (hfind : l.find? p = some x)
    (huuid : s'.service.uuid = x.service.uuid) :
    MirrorInv (UMap.set m k (modifyFirst p (fun _ => s') l)) := by
  obtain ⟨hne, hnodup⟩ := h.2 (k, l) (UMap.mem_of_find hf)
  have hmap := modifyFirst_const_map p s' (fun devService => devService.service.uuid) l x hfind
    huuid
  refine mirrorInv_set h k _ ?_ ?_
  · intro hnil
    rw [hnil] at hmap
    simp at hmap
    exact hne hmap
  · rw [hmap]
    exact hnodup

theorem mirrorInv_setRemoteGattService (env : Env) (st : Bluez5ProfileGatt) (path : String)
    (s s' : GattRemoteService) (h : MirrorInv st.mDeviceServicesMap)
    (hget : getRemoteGattService env st path = some s)
    (huuid : s'.service.uuid = s.service.uuid) :
    MirrorInv (setRemoteGattService env st path s').mDeviceServicesMap := by
  unfold getRemoteGattService at hget
  unfold setRemoteGattService
  cases hdev : env.findDeviceByObjectPath (splitInPathAndName path).1 with
  | none => exact h
  | some addr =>
    dsimp only
    cases hf : UMap.find st.mDeviceServicesMap (convertAddressToLowerCase addr) with
    | none => exact h
    | some l =>
      simp only [hdev, hf] at hget
      exact mirrorInv_replace h hf _ s' s hget huuid

theorem mirrorInv_setFoundService (st : Bluez5ProfileGatt) (address : String)
    (service : BluetoothUuid) (s s' : GattRemoteService) (h : MirrorInv st.mDeviceServicesMap)
    (hfind : findService st address service = some s)
    (huuid : s'.service.uuid = s.service.uuid) :
    MirrorInv (setFoundService st address service s').mDeviceServicesMap := by
  unfold findService at hfind
  unfold setFoundService
  cases hf : UMap.find st.mDeviceServicesMap address with
  | none => exact h
  | some l =>
    simp only [hf] at hfind
    exact mirrorInv_replace h hf _ s' s hfind huuid

theorem mirrorInv_addRemoteServiceToDevice (env : Env) (st : Bluez5ProfileGatt)
    (g : GattRemoteService) (h : MirrorInv st.mDeviceServicesMap) :
    MirrorInv (addRemoteServiceToDevice env st g).1.mDeviceServicesMap := by
  unfold addRemoteServiceToDevice
  cases hdev : env.findDeviceByObjectPath g.parentObjectPath with
  | none => exact h
  | some addr =>
    dsimp only
    cases hf : UMap.find st.mDeviceServicesMap (convertAddressToLowerCase addr) with
    | none =>
      dsimp only
      refine ⟨UMap.keysDistinct_insert h.1 _ _, ?_⟩
      intro entry hentry
      rcases UMap.mem_insert hentry with h' | h'
      · exact h.2 entry h'
      · subst h'
        exact ⟨by simp, by simp⟩
    | some l =>
      dsimp only
      cases hu : l.find? (fun d => decide (d.service.uuid = g.service.uuid)) with
      | some d => exact h
      | none =>
        dsimp only
        rw [updateRemoteDeviceServices_index]
        obtain ⟨_, hnodup⟩ := h.2 _ (UMap.mem_of_find hf)
        refine mirrorInv_set h _ _ (by simp) ?_
        rw [List.map_append, List.map_cons, List.map_nil]
        refine List.Nodup.append hnodup (by simp) ?_
        intro u hu1 hu2
        rw [List.mem_singleton] at hu2
        subst hu2
        obtain ⟨d, hd, hdu⟩ := List.mem_map.mp hu1
        have := List.find?_eq_none.mp hu d hd
        simp at this
        exact this hdu

theorem mirrorInv_removeRemoteGattService (env : Env) (st : Bluez5ProfileGatt) (path : String)
    (h : MirrorInv st.mDeviceServicesMap) :
    MirrorInv (removeRemoteGattService env st path).1.mDeviceServicesMap := by
  unfold removeRemoteGattService
  cases hdev : env.findDeviceByObjectPath (splitInPathAndName path).1 with
  | none => exact h
  | some addr =>
    dsimp only
    cases hf : UMap.find st.mDeviceServicesMap (convertAddressToLowerCase addr) with
    | none => exact h
    | some l =>
      dsimp only
      obtain ⟨_, hnodup⟩ := h.2 _ (UMap.mem_of_find hf)
      split
      · exact ⟨UMap.keysDistinct_erase h.1 _, fun entry hentry => h.2 entry (UMap.mem_erase hentry)⟩
      · rename_i hlen
        refine mirrorInv_set h _ _ ?_ ?_
        · intro hnil
          rw [hnil] at hlen
          exact hlen rfl
        · exact List.Sublist.nodup (List.Sublist.map _ (List.eraseP_sublist _)) hnodup

theorem mirrorInv_addRemoteCharacteristicToService (env : Env) (st : Bluez5ProfileGatt)
    (c : GattRemoteCharacteristic) (h : MirrorInv st.mDeviceServicesMap) :
    MirrorInv (addRemoteCharacteristicToService env st c).mDeviceServicesMap := by
  unfold addRemoteCharacteristicToService
  cases hget : getRemoteGattService env st c.parentObjectPath with
  | none => exact h
  | some s => exact mirrorInv_setRemoteGattService env st _ s _ h hget rfl

theorem mirrorInv_removeRemoteGattCharacteristic (env : Env) (st : Bluez5ProfileGatt)
    (path : String) (h : MirrorInv st.mDeviceServicesMap) :
    MirrorInv (removeRemoteGattCharacteristic env st path).mDeviceServicesMap := by
  unfold removeRemoteGattCharacteristic
  dsimp only
  cases hget : getRemoteGattService env st (splitInPathAndName path).1 with
  | none => exact h
  | some s => exact mirrorInv_setRemoteGattService env st _ s _ h hget rfl

theorem mirrorInv_addRemoteDescriptorToCharacteristic (env : Env) (st : Bluez5ProfileGatt)
    (d : GattRemoteDescriptor) (result : Bluez5ProfileGatt × List Effect)
    (h : MirrorInv st.mDeviceServicesMap)
    (hres : addRemoteDescriptorToCharacteristic env st d = some result) :
    MirrorInv result.1.mDeviceServicesMap := by
  unfold addRemoteDescriptorToCharacteristic at hres
  dsimp only at hres
  cases hget : getRemoteGattService env st (splitInPathAndName d.parentObjectPath).1 with
  | none =>
    rw [hget] at hres
    simp only [Option.some.injEq] at hres
    rw [← hres]
    exact h
  | some s =>
    rw [hget] at hres
    dsimp only at hres
    cases hc : s.gattRemoteCharacteristics.find?
        (fun characteristic => decide (characteristic.objectPath = d.parentObjectPath)) with
    | none =>
      rw [hc] at hres
      simp at hres
    | some c =>
      rw [hc] at hres
      simp only [Option.some.injEq] at hres
      rw [← hres]
      refine mirrorInv_setRemoteGattService env st _ s _ h hget ?_
      dsimp only
      split <;> rfl

theorem mirrorInv_readCharacteristic (env : Env) (st : Bluez5ProfileGatt) (address : String)
    (service characteristic : BluetoothUuid) (h : MirrorInv st.mDeviceServicesMap) :
    MirrorInv (readCharacteristic env st address service characteristic).1.mDeviceServicesMap := by
  unfold readCharacteristic
  dsimp only
  cases hfs : findService st address service with
  | none => exact h
  | some rs =>
    dsimp only
    cases hfc : findCharacteristic rs characteristic with
    | none => exact h
    | some rc =>
      dsimp only
      split
      · exact mirrorInv_setFoundService st address service rs _ h hfs rfl
      · exact h

theorem mirrorInv_writeCharacteristic (env : Env) (st : Bluez5ProfileGatt) (address : String)
    (service : BluetoothUuid) (characteristic : BluetoothGattCharacteristic)
    (h : MirrorInv st.mDeviceServicesMap) :
    MirrorInv
      (writeCharacteristic env st address service characteristic).1.mDeviceServicesMap := by
  unfold writeCharacteristic
  cases hfs : findService st address service with
  | none => exact h
  | some rs =>
    dsimp only
    cases hfc : findCharacteristic rs characteristic.uuid with
    | none => exact h
    | some rc =>
      dsimp only
      split
      · split
        · exact mirrorInv_setFoundService st address service rs _ h hfs rfl
        · exact h
      · exact h

theorem mirrorInv_readDescriptor (env : Env) (st : Bluez5ProfileGatt) (address : String)
    (service characteristic descriptor : BluetoothUuid) (h : MirrorInv st.mDeviceServicesMap) :
    MirrorInv
      (readDescriptor env st address service characteristic descriptor).1.mDeviceServicesMap := by
  unfold readDescriptor
  dsimp only
  cases hfs : findService st address service with
  | none => exact h
  | some rs =>
    dsimp only
    cases hfc : findCharacteristic rs characteristic with
    | none => exact h
    | some rc =>
      dsimp only
      split
      · cases hfd : findDescriptor rc descriptor with
        | none => exact h
        | some rd => exact mirrorInv_setFoundService st address service rs _ h hfs rfl
      · exact h

theorem mirrorInv_writeDescriptor (env : Env) (st : Bluez5ProfileGatt) (address : String)
    (service characteristic : BluetoothUuid) (descriptor : BluetoothGattDescriptor)
    (h : MirrorInv st.mDeviceServicesMap) :
    MirrorInv
      (writeDescriptor env st address service characteristic descriptor).1.mDeviceServicesMap := by
  unfold writeDescriptor
  cases hfs : findService st address service with
  | none => exact h
  | some rs =>
    dsimp only
    cases hfc : findCharacteristic rs characteristic with
    | none => exact h
    | some rc =>
      dsimp only
      split
      · cases hfd : findDescriptor rc descriptor.uuid with
        | none => exact h
        | some rd =>
          dsimp only
          split
          · exact mirrorInv_setFoundService st address service rs _ h hfs rfl
          · exact h
      · exact h

theorem mirrorInv_of_reachable {st : Bluez5ProfileGatt} (h : Reachable st) :
    MirrorInv st.mDeviceServicesMap := by
  induction h with
  | initial => exact ⟨by simp [UMap.KeysDistinct, initial], fun entry hentry => by
      simp [initial] at hentry⟩
  | addRemoteServiceToDevice env st g _ _ _ ih =>
    exact mirrorInv_addRemoteServiceToDevice env st g ih
  | removeRemoteGattService env st path _ ih =>
    exact mirrorInv_removeRemoteGattService env st path ih
  | addRemoteCharacteristicToService env st c _ ih =>
    exact mirrorInv_addRemoteCharacteristicToService env st c ih
  | removeRemoteGattCharacteristic env st path _ ih =>
    exact mirrorInv_removeRemoteGattCharacteristic env st path ih
  | addRemoteDescriptorToCharacteristic env st d result _ hres ih =>
    exact mirrorInv_addRemoteDescriptorToCharacteristic env st d result ih hres
  | readCharacteristic env st address service characteristic _ ih =>
    exact mirrorInv_readCharacteristic env st address service characteristic ih
  | writeCharacteristic env st address service characteristic _ ih =>
    exact mirrorInv_writeCharacteristic env st address service characteristic ih
  | readDescriptor env st address service characteristic descriptor _ ih =>
    exact mirrorInv_readDescriptor env st address service characteristic descriptor ih
  | writeDescriptor env st address service characteristic descriptor _ ih =>
    exact mirrorInv_writeDescriptor env st address service characteristic descriptor ih
  | other st st' _ hsame ih =>
    rw [hsame]
    exact ih

theorem filter_length_le_one_of_nodup {α β : Type} [DecidableEq β] (g : α → β) (l : List α)
    (h : (l.map g).Nodup) (b : β) : (l.filter (fun x => decide (g x = b))).length ≤ 1 := by
  induction l with
  | nil => simp
  | cons a t ih =>
    rw [List.map_cons, List.nodup_cons] at h
    by_cases ha : g a = b
    · have hnone : t.filter (fun x => decide (g x = b)) = [] := by
        rw [List.filter_eq_nil_iff]
        intro x hx hgx
        simp at hgx
        exact h.1 (List.mem_map.mpr ⟨x, hx, hgx.trans ha.symm⟩)
      simp [List.filter_cons, ha, hnone]
    · simpa [List.filter_cons, ha] using ih h.2

/-- C28. In every state reachable from the empty mirror through service, characteristic and
descriptor added and removed events (and the dispatcher operations that write to the mirror),
every device entry of the index has a non-empty service list whose services have pairwise
distinct uuids; hence at most one service of a device matches a given uuid. -/
theorem mirror_index_well_formed (st : Bluez5ProfileGatt) (hreach : Reachable st) :
    ∀ entry ∈ st.mDeviceServicesMap,
      entry.2 ≠ [] ∧
      (entry.2.map (fun devService => devService.service.uuid)).Nodup ∧
      ∀ service : BluetoothUuid,
        (entry.2.filter (fun devService => decide (devService.service.uuid = service))).length
          ≤ 1 := by
  intro entry hentry
  obtain ⟨hne, hnodup⟩ := (mirrorInv_of_reachable hreach).2 entry hentry
  exact ⟨hne, hnodup, filter_length_le_one_of_nodup _ _ hnodup⟩

/-- C28 at a concrete reachable state: the device announced the services `1801`, `1801` again at
another path, and `180d`; its entry holds the two services with distinct uuids. -/
theorem mirror_index_well_formed_witness :
    exampleDedupState.mDeviceServicesMap = [("aa:bb", [exampleServiceA, exampleServiceC])] ∧
    [exampleServiceA, exampleServiceC] ≠ [] ∧
    ([exampleServiceA, exampleServiceC].map (fun devService => devService.service.uuid)).Nodup ∧
    ∀ service : BluetoothUuid,
      ([exampleServiceA, exampleServiceC].filter
        (fun devService => decide (devService.service.uuid = service))).length ≤ 1 :=
  have hreach : Reachable exampleDedupState :=
    Reachable.addRemoteServiceToDevice exampleEnv _ exampleServiceC
      (Reachable.addRemoteServiceToDevice exampleEnv _ exampleServiceB
        (Reachable.addRemoteServiceToDevice exampleEnv _ exampleServiceA Reachable.initial
          rfl rfl)
        rfl rfl)
      rfl rfl
  ⟨by decide,
    mirror_index_well_formed exampleDedupState hreach
      ("aa:bb", [exampleServiceA, exampleServiceC]) (by decide)⟩

/-! ## Connection registry: lookups in both directions -/

theorem UMap.find_of_mem {κ ν : Type} [DecidableEq κ] {m : UMap κ ν} (h : UMap.KeysDistinct m)
    {k : κ} {v : ν} (hmem : (k, v) ∈ m) : UMap.find m k = some v := by
  induction m with
  | nil => simp at hmem
  | cons p rest ih =>
    obtain ⟨a, b⟩ := p
    unfold UMap.KeysDistinct at h
    rw [List.map_cons, List.nodup_cons] at h
    rcases List.mem_cons.mp hmem with heq | hrest
    · simp only [Prod.mk.injEq] at heq
      simp [UMap.find, heq.1, heq.2]
    · have hne : ¬ a = k := by
        intro hak
        apply h.1
        rw [hak]
        exact List.mem_map.mpr ⟨(k, v), hrest, rfl⟩
      simp only [UMap.find, hne, if_false]
      exact ih h.2 hrest

theorem connectionInv_of_reachable {st : Bluez5ProfileGatt} (h : ConnectionReachable st) :
    ConnectionInv st.mConnectedDevices := by
  induction h with
  | initial => exact ⟨by simp [UMap.KeysDistinct, initial], fun entry hentry => by
      simp [initial] at hentry⟩
  | connectGatt env st appId address deviceAddress error _ _ ih =>
    unfold isConnectCallback
    split
    · exact ih
    · cases hf : UMap.find st.mConnectedDevices appId with
      | some _ => exact ih
      | none =>
        refine ⟨UMap.keysDistinct_insert ih.1 _ _, ?_⟩
        intro entry hentry
        rcases UMap.mem_insert hentry with h' | h'
        · exact ih.2 entry h'
        · subst h'
          exact convertAddressToLowerCase_idem deviceAddress
  | disconnectGatt st deviceInfo error result _ hres ih =>
    unfold isDisconnectCallback at hres
    split at hres
    · simp only [Option.some.injEq] at hres
      rw [← hres]
      exact ih
    · cases hf : UMap.find st.mConnectedDevices deviceInfo with
      | none => simp [hf] at hres
      | some _ =>
        simp only [hf, Option.some.injEq] at hres
        rw [← hres]
        exact ⟨UMap.keysDistinct_erase ih.1 _, fun entry hentry =>
          ih.2 entry (UMap.mem_erase hentry)⟩
  | other st st' _ hsame ih =>
    rw [hsame]
    exact ih

/-- C24, as stated, fails: after `connectGatt(1, "AA:BB")` and `connectGatt(2, "AA:BB")` both
succeeded, the ids 1 and 2 are mapped to `aa:bb`; the scan of `getConnectId` stops at the first
entry with that address, so `getConnectId(getAddress(2))` is 1. With the two entries iterated in
the other order it is `getConnectId(getAddress(1))` that gives 2. -/
theorem connection_round_trip_counterexample :
    exampleSharedDeviceState.mConnectedDevices = [(1, "aa:bb"), (2, "aa:bb")] ∧
    getAddress exampleSharedDeviceState 2 = "aa:bb" ∧
    getConnectId exampleSharedDeviceState (getAddress exampleSharedDeviceState 2) = 1 ∧
    getConnectId
        { exampleSharedDeviceState with
          mConnectedDevices := exampleSharedDeviceState.mConnectedDevices.reverse }
        (getAddress
          { exampleSharedDeviceState with
            mConnectedDevices := exampleSharedDeviceState.mConnectedDevices.reverse } 1) =
      2 := by
  decide

/-- C24, amended. In every registry state reachable through `connectGatt` and `disconnectGatt`:
every mapped application id whose address no other application id is mapped to satisfies
`getConnectId(getAddress(id)) = id`, and every address `a` that some id is mapped to satisfies
`getAddress(getConnectId(a)) =` the lower-cased `a`. -/
theorem connection_round_trip (st : Bluez5ProfileGatt) (hreach : ConnectionReachable st)
    (id : Nat) (a : String) (hmapped : UMap.find st.mConnectedDevices id = some a) :
    ((∀ other, UMap.find st.mConnectedDevices other = some a → other = id) →
      getConnectId st (getAddress st id) = id) ∧
    getAddress st (getConnectId st a) = convertAddressToLowerCase a := by
  obtain ⟨hkeys, hlower⟩ := connectionInv_of_reachable hreach
  have hmem := UMap.mem_of_find hmapped
  have ha : convertAddressToLowerCase a = a := hlower _ hmem
  have hsome : ∃ entry, st.mConnectedDevices.find?
      (fun entry => decide (convertAddressToLowerCase a = entry.2)) = some entry := by
    cases hf : st.mConnectedDevices.find?
        (fun entry => decide (convertAddressToLowerCase a = entry.2)) with
    | some entry => exact ⟨entry, rfl⟩
    | none =>
      have := List.find?_eq_none.mp hf (id, a) hmem
      simp [ha] at this
  obtain ⟨entry, hentry⟩ := hsome
  have hentry2 : convertAddressToLowerCase a = entry.2 := by
    have := List.find?_some hentry
    simpa using this
  have hfind : UMap.find st.mConnectedDevices entry.1 = some entry.2 :=
    UMap.find_of_mem hkeys (List.mem_of_find?_eq_some hentry)
  have hid : getConnectId st a = entry.1 := by
    unfold getConnectId
    rw [hentry]
  refine ⟨?_, ?_⟩
  · intro hunique
    have haddr : getAddress st id = a := by
      unfold getAddress
      rw [hmapped]
    rw [haddr, hid]
    apply hunique
    rw [hfind, ← hentry2, ha]
  · rw [hid]
    unfold getAddress
    rw [hfind, hentry2]

/-- C24, amended, at a concrete reachable state: the id 1 is mapped to `aa:bb` and no other id
is. -/
theorem connection_round_trip_witness :
    UMap.find exampleConnectedState.mConnectedDevices 1 = some "aa:bb" ∧
    getConnectId exampleConnectedState (getAddress exampleConnectedState 1) = 1 ∧
    getAddress exampleConnectedState (getConnectId exampleConnectedState "aa:bb") = "aa:bb" :=
  have hreach : ConnectionReachable exampleConnectedState :=
    ConnectionReachable.connectGatt exampleEnv initial 1 "AA:BB" "AA:BB" BluetoothError.NONE
      ConnectionReachable.initial (by decide)
  have hmap : exampleConnectedState.mConnectedDevices = [(1, "aa:bb")] := by decide
  have hunique : ∀ other,
      UMap.find exampleConnectedState.mConnectedDevices other = some "aa:bb" → other = 1 := by
    intro other hother
    rw [hmap] at hother
    by_cases h1 : 1 = other
    · exact h1.symm
    · simp [UMap.find, h1] at hother
  have h := connection_round_trip exampleConnectedState hreach 1 "aa:bb" (by decide)
  ⟨by decide, h.1 hunique, h.2⟩

/-! ## Remote entity mirror: the eager read -/

/-- C25 fails on the code. The service `service0001` is mirrored and a characteristic arrives
that advertises `["notify", "read"]`; remote reads return the byte 7. The flag loop runs
`sizeof(characteristicFlags)/sizeof(char*)` = 1 times and sees `notify` only:
`PROPERTY_READ` is not set, no read is issued and the cached value stays empty. With `read` in
the first position the characteristic is read and seeded (and `notify` is the flag that is
lost). -/
theorem eager_read_sees_first_flag_only :
    parseCharacteristicFlags ["notify", "read"] = some PROPERTY_NOTIFY ∧
    (createRemoteGattCharacteristic exampleReadingEnv
        (addRemoteServiceToDevice exampleReadingEnv initial exampleServiceA).1
        "/org/bluez/hci0/dev_AA_BB/service0001/char0002" (some exampleNotifyReadProxy) true).map
        (fun result =>
          (mirroredCharacteristics exampleReadingEnv result.1
            "/org/bluez/hci0/dev_AA_BB/service0001", result.2)) =
      some
        ([{ parentObjectPath := "/org/bluez/hci0/dev_AA_BB/service0001"
            objectPath := "/org/bluez/hci0/dev_AA_BB/service0001/char0002"
            characteristic := { uuid := "2a05", value := [], properties := PROPERTY_NOTIFY } }],
         []) ∧
    BluetoothGattCharacteristic.isPropertySet
        { uuid := "2a05", value := [], properties := PROPERTY_NOTIFY } PROPERTY_READ =
      false ∧
    (createRemoteGattCharacteristic exampleReadingEnv
        (addRemoteServiceToDevice exampleReadingEnv initial exampleServiceA).1
        "/org/bluez/hci0/dev_AA_BB/service0001/char0002" (some exampleReadNotifyProxy) true).map
        (fun result =>
          (mirroredCharacteristics exampleReadingEnv result.1
            "/org/bluez/hci0/dev_AA_BB/service0001", result.2)) =
      some
        ([{ parentObjectPath := "/org/bluez/hci0/dev_AA_BB/service0001"
            objectPath := "/org/bluez/hci0/dev_AA_BB/service0001/char0002"
            characteristic := { uuid := "2a05", value := [7], properties := PROPERTY_READ } }],
         [Effect.callCharacteristicReadValue
           "/org/bluez/hci0/dev_AA_BB/service0001/char0002"]) := by
  decide

/-! ## Remote entity mirror: descriptors in the live tree and in the snapshot -/

/-- C27 fails on the code. The service `service0001` has the characteristics `char0002` and
`char0005`, both with the uuid `2a05`, and the descriptor `2902` of `char0005` arrives (service,
characteristics, descriptor: parent before child). The live node of `char0005` gets the
descriptor; the injection into the snapshot searches the aggregated characteristics by uuid and
stops at the first, the copy of `char0002`. The second characteristic has the descriptor in the
live tree and none in the snapshot, the first the other way round. -/
theorem snapshot_descriptor_lands_on_first_uuid_match :
    (getRemoteGattService exampleEnv exampleTwinState
        "/org/bluez/hci0/dev_AA_BB/service0001").map
        (fun service =>
          (service.gattRemoteCharacteristics.map (fun characteristic => characteristic.objectPath),
           service.service.characteristics.map (fun characteristic => characteristic.uuid))) =
      some
        (["/org/bluez/hci0/dev_AA_BB/service0001/char0002",
          "/org/bluez/hci0/dev_AA_BB/service0001/char0005"],
         ["2a05", "2a05"]) ∧
    (addRemoteDescriptorToCharacteristic exampleEnv exampleTwinState exampleTwinDescriptor).bind
        (fun result =>
          (getRemoteGattService exampleEnv result.1
            "/org/bluez/hci0/dev_AA_BB/service0001").map
            (fun service => (liveDescriptorUuids service, snapshotDescriptorUuids service))) =
      some ([[], ["2902"]], [["2902"], []]) := by
  decide

/-! ## Decimal rendering of identifiers -/

theorem toDigitsCore_append (fuel : Nat) :
    ∀ (n : Nat) (ds : List Char),
      Nat.toDigitsCore 10 fuel n ds = Nat.toDigitsCore 10 fuel n [] ++ ds := by
  induction fuel with
  | zero => intro n ds; simp [Nat.toDigitsCore]
  | succ fuel ih =>
    intro n ds
    simp only [Nat.toDigitsCore]
    by_cases h : n / 10 = 0
    · simp [h]
    · simp only [h, if_false]
      rw [ih (n / 10) (Nat.digitChar (n % 10) :: ds), ih (n / 10) [Nat.digitChar (n % 10)]]
      simp

theorem toDigitsCore_fuel (fuel : Nat) :
    ∀ (fuel' n : Nat) (ds : List Char), n < fuel → n < fuel' →
      Nat.toDigitsCore 10 fuel n ds = Nat.toDigitsCore 10 fuel' n ds := by
  induction fuel with
  | zero => intro fuel' n ds h; omega
  | succ fuel ih =>
    intro fuel' n ds h h'
    cases fuel' with
    | zero => omega
    | succ fuel' =>
      simp only [Nat.toDigitsCore]
      by_cases hz : n / 10 = 0
      · simp [hz]
      · simp only [hz, if_false]
        have hlt : n / 10 < n := by omega
        exact ih fuel' (n / 10) _ (by omega) (by omega)

theorem toDigits_step (n : Nat) :
    Nat.toDigits 10 n =
      if n < 10 then [Nat.digitChar n]
      else Nat.toDigits 10 (n / 10) ++ [Nat.digitChar (n % 10)] := by
  have hunfold : Nat.toDigits 10 n =
      if n / 10 = 0 then [Nat.digitChar (n % 10)]
      else Nat.toDigitsCore 10 n (n / 10) [Nat.digitChar (n % 10)] := by
    unfold Nat.toDigits
    rw [Nat.toDigitsCore]
  rw [hunfold]
  by_cases h : n < 10
  · have hz : n / 10 = 0 := by omega
    have hm : n % 10 = n := by omega
    simp [h, hz, hm]
  · have hz : ¬ n / 10 = 0 := by omega
    simp only [h, hz, if_false]
    rw [toDigitsCore_append n (n / 10) [Nat.digitChar (n % 10)]]
    rw [toDigitsCore_fuel n (n / 10 + 1) (n / 10) [] (by omega) (by omega)]
    rfl

theorem toDigits_ne_nil (n : Nat) : Nat.toDigits 10 n ≠ [] := by
  rw [toDigits_step]
  split <;> simp

theorem digitChar_isDigit : ∀ n, n < 10 → (Nat.digitChar n).isDigit = true := by
  decide

theorem digitChar_injective : ∀ m, m < 10 → ∀ n, n < 10 →
    Nat.digitChar m = Nat.digitChar n → m = n := by
  decide

theorem toDigits_isDigit (n : Nat) : ∀ ch ∈ Nat.toDigits 10 n, ch.isDigit = true := by
  induction n using Nat.strong_induction_on with
  | _ n ih =>
    rw [toDigits_step]
    by_cases h : n < 10
    · simp only [h, if_true, List.mem_singleton]
      intro ch hch
      rw [hch]
      exact digitChar_isDigit n h
    · simp only [h, if_false, List.mem_append, List.mem_singleton]
      intro ch hch
      rcases hch with hch | hch
      · exact ih (n / 10) (by omega) ch hch
      · rw [hch]
        exact digitChar_isDigit _ (by omega)

theorem toDigits_injective (m : Nat) : ∀ n, Nat.toDigits 10 m = Nat.toDigits 10 n → m = n := by
  induction m using Nat.strong_induction_on with
  | _ m ih =>
    intro n heq
    rw [toDigits_step m, toDigits_step n] at heq
    by_cases hm : m < 10
    · by_cases hn : n < 10
      · simp only [hm, hn, if_true, List.cons.injEq, and_true] at heq
        exact digitChar_injective m hm n hn heq
      · simp only [hm, hn, if_true, if_false] at heq
        have hlen := congrArg List.length heq
        have hpos : 0 < (Nat.toDigits 10 (n / 10)).length :=
          List.length_pos.mpr (toDigits_ne_nil _)
        simp only [List.length_append, List.length_singleton, List.length_cons,
          List.length_nil] at hlen
        omega
    · by_cases hn : n < 10
      · simp only [hm, hn, if_true, if_false] at heq
        have hlen := congrArg List.length heq
        have hpos : 0 < (Nat.toDigits 10 (m / 10)).length :=
          List.length_pos.mpr (toDigits_ne_nil _)
        simp only [List.length_append, List.length_singleton, List.length_cons,
          List.length_nil] at hlen
        omega
      · simp only [hm, hn, if_false] at heq
        have hsplit := List.append_inj' heq rfl
        have hdiv := ih (m / 10) (by omega) (n / 10) hsplit.1
        have hmod : m % 10 = n % 10 := by
          have := hsplit.2
          simp only [List.cons.injEq, and_true] at this
          exact digitChar_injective _ (by omega) _ (by omega) this
        omega

/-! ## Injectivity of the local object paths -/

theorem digits_split (ds1 : List Char) :
    ∀ (ds2 r1 r2 : List Char),
      (∀ ch ∈ ds1, ch.isDigit = true) → (∀ ch ∈ ds2, ch.isDigit = true) →
      (∀ ch ∈ r1.head?, ch.isDigit = false) → (∀ ch ∈ r2.head?, ch.isDigit = false) →
      ds1 ++ r1 = ds2 ++ r2 → ds1 = ds2 ∧ r1 = r2 := by
  induction ds1 with
  | nil =>
    intro ds2 r1 r2 _ h2 hr1 _ heq
    cases ds2 with
    | nil => exact ⟨rfl, by simpa using heq⟩
    | cons c t =>
      simp only [List.nil_append, List.cons_append] at heq
      have hd := hr1 c (by rw [heq]; simp)
      have := h2 c (List.mem_cons_self _ _)
      rw [hd] at this
      exact absurd this (by decide)
  | cons c t ih =>
    intro ds2 r1 r2 h1 h2 hr1 hr2 heq
    cases ds2 with
    | nil =>
      simp only [List.nil_append, List.cons_append] at heq
      have hd := hr2 c (by rw [← heq]; simp)
      have := h1 c (List.mem_cons_self _ _)
      rw [hd] at this
      exact absurd this (by decide)
    | cons c' t' =>
      simp only [List.cons_append, List.cons.injEq] at heq
      obtain ⟨hc, hrest⟩ := heq
      obtain ⟨ht, hr⟩ := ih t' r1 r2 (fun ch hch => h1 ch (List.mem_cons_of_mem _ hch))
        (fun ch hch => h2 ch (List.mem_cons_of_mem _ hch)) hr1 hr2 hrest
      exact ⟨by rw [hc, ht], hr⟩

theorem toString_data (n : Nat) : (toString n).data = Nat.toDigits 10 n := rfl

/-- A number between two fixed segments: the rest of a path after a fixed segment, a decimal
number and a tail that is empty or starts with a slash determines the number and the tail. -/
theorem segment_split (segment : List Char) (m n : Nat) (t t' : List Char)
    (ht : ∀ ch ∈ t.head?, ch.isDigit = false) (ht' : ∀ ch ∈ t'.head?, ch.isDigit = false)
    (heq : segment ++ (Nat.toDigits 10 m ++ t) = segment ++ (Nat.toDigits 10 n ++ t')) :
    m = n ∧ t = t' := by
  have h := digits_split _ _ _ _ (toDigits_isDigit m) (toDigits_isDigit n) ht ht'
    (List.append_cancel_left heq)
  exact ⟨toDigits_injective m n h.1, h.2⟩

theorem localServiceObjPath_data (objPath : String) (a s : Nat) :
    (localServiceObjPath objPath a s).data =
      objPath.data ++ ("/App".data ++ (Nat.toDigits 10 a ++
        ("/Service".data ++ (Nat.toDigits 10 s ++ [])))) := by
  simp only [localServiceObjPath, String.data_append, toString_data, List.append_assoc,
    List.append_nil]

theorem localCharObjPath_data (objPath : String) (a s c : Nat) :
    (localCharObjPath objPath a s c).data =
      objPath.data ++ ("/App".data ++ (Nat.toDigits 10 a ++
        ("/Service".data ++ (Nat.toDigits 10 s ++
          ("/Char".data ++ (Nat.toDigits 10 c ++ [])))))) := by
  simp only [localCharObjPath, localServiceObjPath, String.data_append, toString_data,
    List.append_assoc, List.append_nil]

theorem localDescObjPath_data (objPath : String) (a s c d : Nat) :
    (localDescObjPath objPath a s c d).data =
      objPath.data ++ ("/App".data ++ (Nat.toDigits 10 a ++
        ("/Service".data ++ (Nat.toDigits 10 s ++
          ("/Char".data ++ (Nat.toDigits 10 c ++
            ("/Desc".data ++ (Nat.toDigits 10 d ++ [])))))))) := by
  simp only [localDescObjPath, localCharObjPath, localServiceObjPath, String.data_append,
    toString_data, List.append_assoc, List.append_nil]

/-- The common part of the three layouts: the application id, the service id and the rest. -/
theorem service_level_split (root : List Char) (a s a' s' : Nat) (t t' : List Char)
    (ht : ∀ ch ∈ t.head?, ch.isDigit = false) (ht' : ∀ ch ∈ t'.head?, ch.isDigit = false)
    (heq : root ++ ("/App".data ++ (Nat.toDigits 10 a ++
        ("/Service".data ++ (Nat.toDigits 10 s ++ t)))) =
      root ++ ("/App".data ++ (Nat.toDigits 10 a' ++
        ("/Service".data ++ (Nat.toDigits 10 s' ++ t'))))) :
    a = a' ∧ s = s' ∧ t = t' := by
  have h1 := segment_split "/App".data a a' _ _ (by intro ch hch; simp at hch; rw [← hch]; decide)
    (by intro ch hch; simp at hch; rw [← hch]; decide) (List.append_cancel_left heq)
  have h2 := segment_split "/Service".data s s' t t' ht ht' h1.2
  exact ⟨h1.1, h2.1, h2.2⟩

/-- For a fixed export root, the paths that `addService`, `addCharacteristic` and
`addDescriptor` build from identifiers rendered in decimal determine their level and their
identifiers: two service paths, two characteristic paths or two descriptor paths are equal only
if all their identifiers are equal, and paths of different levels are never equal. -/
theorem local_paths_injective (objPath : String) (a s c d a' s' c' d' : Nat) :
    (localServiceObjPath objPath a s = localServiceObjPath objPath a' s' → a = a' ∧ s = s') ∧
    (localCharObjPath objPath a s c = localCharObjPath objPath a' s' c' →
      a = a' ∧ s = s' ∧ c = c') ∧
    (localDescObjPath objPath a s c d = localDescObjPath objPath a' s' c' d' →
      a = a' ∧ s = s' ∧ c = c' ∧ d = d') ∧
    localServiceObjPath objPath a s ≠ localCharObjPath objPath a' s' c' ∧
    localServiceObjPath objPath a s ≠ localDescObjPath objPath a' s' c' d' ∧
    localCharObjPath objPath a s c ≠ localDescObjPath objPath a' s' c' d' := by
  have hnil : ∀ ch ∈ ([] : List Char).head?, ch.isDigit = false := by
    intro ch hch
    simp at hch
  have hslash : ∀ (rest : List Char) (name : String), name.data.head? = some '/' →
      ∀ ch ∈ (name.data ++ rest).head?, ch.isDigit = false := by
    intro rest name hname ch hch
    rw [List.head?_append, hname] at hch
    simp at hch
    rw [← hch]
    decide
  refine ⟨?_, ?_, ?_, ?_, ?_, ?_⟩
  · intro heq
    have hdata := congrArg String.data heq
    rw [localServiceObjPath_data, localServiceObjPath_data] at hdata
    have h := service_level_split _ a s a' s' [] [] hnil hnil hdata
    exact ⟨h.1, h.2.1⟩
  · intro heq
    have hdata := congrArg String.data heq
    rw [localCharObjPath_data, localCharObjPath_data] at hdata
    have h := service_level_split _ a s a' s' _ _ (hslash _ "/Char" rfl) (hslash _ "/Char" rfl)
      hdata
    have h2 := segment_split "/Char".data c c' [] [] hnil hnil h.2.2
    exact ⟨h.1, h.2.1, h2.1⟩
  · intro heq
    have hdata := congrArg String.data heq
    rw [localDescObjPath_data, localDescObjPath_data] at hdata
    have h := service_level_split _ a s a' s' _ _ (hslash _ "/Char" rfl) (hslash _ "/Char" rfl)
      hdata
    have h2 := segment_split "/Char".data c c' _ _ (hslash _ "/Desc" rfl) (hslash _ "/Desc" rfl)
      h.2.2
    have h3 := segment_split "/Desc".data d d' [] [] hnil hnil h2.2
    exact ⟨h.1, h.2.1, h2.1, h3.1⟩
  · intro heq
    have hdata := congrArg String.data heq
    rw [localServiceObjPath_data, localCharObjPath_data] at hdata
    have h := service_level_split _ a s a' s' [] _ hnil (hslash _ "/Char" rfl) hdata
    have hlen := congrArg List.length h.2.2
    simp at hlen
  · intro heq
    have hdata := congrArg String.data heq
    rw [localServiceObjPath_data, localDescObjPath_data] at hdata
    have h := service_level_split _ a s a' s' [] _ hnil (hslash _ "/Char" rfl) hdata
    have hlen := congrArg List.length h.2.2
    simp at hlen
  · intro heq
    have hdata := congrArg String.data heq
    rw [localCharObjPath_data, localDescObjPath_data] at hdata
    have h := service_level_split _ a s a' s' _ _ (hslash _ "/Char" rfl) (hslash _ "/Char" rfl)
      hdata
    have h2 := segment_split "/Char".data c c' [] _ hnil (hslash _ "/Desc" rfl) h.2.2
    have hlen := congrArg List.length h2.2
    simp at hlen

/-! ## Local registry: the descriptor identifier after a wrap -/

theorem afterFailedCharacteristic_eq (appId serviceId : Nat) (st : Bluez5ProfileGatt)
    (hroot : st.mObjectManagerGattServer.isSome = true)
    (hservice : ((UMap.find st.mGattLocalApplications appId).bind
      (fun application => UMap.find application.mGattLocalServices serviceId)).isSome = true) :
    afterFailedCharacteristic appId serviceId st =
      { st with nextCharIdCounter := (st.nextCharIdCounter + 1) % 65536 } := by
  obtain ⟨objPath, hobj⟩ := Option.isSome_iff_exists.mp hroot
  cases happ : UMap.find st.mGattLocalApplications appId with
  | none => simp [happ] at hservice
  | some application =>
    cases hs : UMap.find application.mGattLocalServices serviceId with
    | none => simp [happ, hs] at hservice
    | some service =>
      simp [afterFailedCharacteristic, addCharacteristicCompleted, addCharacteristic, happ, hs,
        hobj, nextCharId, completeRegistration, addCharacteristicRegisterCallback]

theorem iterate_afterFailedCharacteristic (appId serviceId : Nat) (n : Nat) :
    ∀ st : Bluez5ProfileGatt, st.mObjectManagerGattServer.isSome = true →
      ((UMap.find st.mGattLocalApplications appId).bind
        (fun application => UMap.find application.mGattLocalServices serviceId)).isSome = true →
      Nat.iterate (afterFailedCharacteristic appId serviceId) n st =
        { st with
          nextCharIdCounter :=
            (Nat.iterate (fun c => (c + 1) % 65536) n st.nextCharIdCounter) } := by
  induction n with
  | zero => intro st _ _; rfl
  | succ n ih =>
    intro st hroot hservice
    rw [Function.iterate_succ, Function.comp_apply,
      afterFailedCharacteristic_eq appId serviceId st hroot hservice]
    rw [ih _ (by simpa using hroot) (by simpa using hservice)]
    simp [Function.iterate_succ]

theorem afterFailedDescriptor_eq (appId serviceId : Nat) (st : Bluez5ProfileGatt)
    (hroot : st.mObjectManagerGattServer.isSome = true) :
    afterFailedDescriptor appId serviceId st =
      { st with nextDescIdCounter := (st.nextDescIdCounter + 1) % 65536 } := by
  obtain ⟨objPath, hobj⟩ := Option.isSome_iff_exists.mp hroot
  simp [afterFailedDescriptor, addDescriptorCompleted, addDescriptor, hobj, nextDescId,
    completeRegistration, addDescriptorRegisterCallback]

theorem iterate_afterFailedDescriptor (appId serviceId : Nat) (n : Nat) :
    ∀ st : Bluez5ProfileGatt, st.mObjectManagerGattServer.isSome = true →
      Nat.iterate (afterFailedDescriptor appId serviceId) n st =
        { st with
          nextDescIdCounter :=
            (Nat.iterate (fun c => (c + 1) % 65536) n st.nextDescIdCounter) } := by
  induction n with
  | zero => intro st _; rfl
  | succ n ih =>
    intro st hroot
    rw [Function.iterate_succ, Function.comp_apply, afterFailedDescriptor_eq appId serviceId st hroot]
    rw [ih _ (by simpa using hroot)]
    simp [Function.iterate_succ]

theorem exampleWrappedDescriptorState_eq :
    exampleWrappedDescriptorState =
      { exampleDescriptorAddedState with nextCharIdCounter := 1, nextDescIdCounter := 1 } := by
  unfold exampleWrappedDescriptorState
  rw [iterate_afterFailedCharacteristic 1 1 65535 exampleDescriptorAddedState (by decide)
    (by decide)]
  rw [iterate_afterFailedDescriptor 1 1 65535 _ (by decide)]
  have hc : exampleDescriptorAddedState.nextCharIdCounter = 2 := by decide
  have hd : exampleDescriptorAddedState.nextDescIdCounter = 2 := by decide
  rcases iterate_counter 65535 2 with h | h
  · simp only [hc, hd, h]
  · exact absurd h (by decide)

/-- C18, as stated, fails: the counters of `nextCharId` and `nextDescId` wrap. The service 1 of
the application 1 owns the characteristic 1 with its descriptor 1, and both counters are back at
1. `addCharacteristic(1, 1)` completes with success and the id 1, and the following
`addDescriptor(1, 1)` exports `Char1/Desc1` and completes with success and the id 1, but
`insert` finds the key 1 present in the descriptor map of the characteristic 1: the map holds the
one entry it held before, the new descriptor is not inserted. -/
theorem descriptor_not_inserted_after_wrap_counterexample :
    getLocalDescriptorList exampleWrappedDescriptorState 1 1 1 =
      some [(1, { mDescObject := some "/org/bluez/gattApp/server/App1/Service1/Char1/Desc1",
                  mInterface := true })] ∧
    (addCharacteristicCompleted exampleWrappedDescriptorState 1 1 {} BluetoothError.NONE).map
        (fun result => (result.2, result.1.mLastCharId)) =
      some
        ([Effect.exportObject "/org/bluez/gattApp/server/App1/Service1/Char1",
          Effect.callUnregisterApplication "/org/bluez/gattApp/server",
          Effect.callRegisterApplication "/org/bluez/gattApp/server",
          Effect.addCallback BluetoothError.NONE 1], 1) ∧
    ((addCharacteristicCompleted exampleWrappedDescriptorState 1 1 {} BluetoothError.NONE).bind
        (fun result => addDescriptorCompleted result.1 1 1 {} BluetoothError.NONE)).map
        (fun result => (result.2, getLocalDescriptorList result.1 1 1 1)) =
      some
        ([Effect.exportObject "/org/bluez/gattApp/server/App1/Service1/Char1/Desc1",
          Effect.callUnregisterApplication "/org/bluez/gattApp/server",
          Effect.callRegisterApplication "/org/bluez/gattApp/server",
          Effect.addCallback BluetoothError.NONE 1],
         some [(1, { mDescObject := some "/org/bluez/gattApp/server/App1/Service1/Char1/Desc1",
                     mInterface := true })]) := by
  rw [exampleWrappedDescriptorState_eq]
  decide

/-! ## Local registry: exports and the entities behind them -/

theorem LocalEntity.objectPath_injective (objPath : String) (e e' : LocalEntity)
    (h : LocalEntity.objectPath objPath e = LocalEntity.objectPath objPath e') : e = e' := by
  cases e with
  | service a s =>
    cases e' with
    | service a' s' =>
      obtain ⟨ha, hs⟩ := (local_paths_injective objPath a s 0 0 a' s' 0 0).1 h
      rw [ha, hs]
    | characteristic a' s' c' =>
      exact absurd h (local_paths_injective objPath a s 0 0 a' s' c' 0).2.2.2.1
    | descriptor a' s' c' d' =>
      exact absurd h (local_paths_injective objPath a s 0 0 a' s' c' d').2.2.2.2.1
  | characteristic a s c =>
    cases e' with
    | service a' s' =>
      exact absurd h.symm (local_paths_injective objPath a' s' 0 0 a s c 0).2.2.2.1
    | characteristic a' s' c' =>
      obtain ⟨ha, hs, hc⟩ := (local_paths_injective objPath a s c 0 a' s' c' 0).2.1 h
      rw [ha, hs, hc]
    | descriptor a' s' c' d' =>
      exact absurd h (local_paths_injective objPath a s c 0 a' s' c' d').2.2.2.2.2
  | descriptor a s c d =>
    cases e' with
    | service a' s' =>
      exact absurd h.symm (local_paths_injective objPath a' s' 0 0 a s c d).2.2.2.2.1
    | characteristic a' s' c' =>
      exact absurd h.symm (local_paths_injective objPath a' s' c' 0 a s c d).2.2.2.2.2
    | descriptor a' s' c' d' =>
      obtain ⟨ha, hs, hc, hd⟩ := (local_paths_injective objPath a s c d a' s' c' d').2.2.1 h
      rw [ha, hs, hc, hd]

theorem exportedPaths_append (xs ys : List Effect) :
    exportedPaths (xs ++ ys) = exportedPaths xs ++ exportedPaths ys := by
  induction xs with
  | nil => rfl
  | cons x rest ih =>
    cases x <;> simp [exportedPaths, ih]

/-- Every path that an add call exports is the path of the entity the call builds. -/
theorem ExportCall.exports_entity (objPath : String) (st : Bluez5ProfileGatt) (call : ExportCall)
    (hroot : st.mObjectManagerGattServer = some objPath) (path : String)
    (h : path ∈ ExportCall.exports st call) :
    path = LocalEntity.objectPath objPath (ExportCall.entity st call) := by
  cases call with
  | serviceCall appId service =>
    simp only [ExportCall.exports, addService, hroot, nextServiceId, exportedPaths,
      exportedPaths_registerLocalApplication, List.mem_singleton] at h
    rw [h]
    rfl
  | characteristicCall appId serviceId characteristic sk ob bu =>
    unfold ExportCall.exports at h
    unfold addCharacteristic at h
    cases happ : UMap.find st.mGattLocalApplications appId with
    | none => simp [happ, exportedPaths] at h
    | some application =>
      cases hs : UMap.find application.mGattLocalServices serviceId with
      | none => simp [happ, hs, exportedPaths] at h
      | some service =>
        cases sk <;> cases ob <;> cases bu <;>
          simp [happ, hs, hroot, nextCharId, exportedPaths,
            exportedPaths_registerLocalApplication] at h
        rw [h]
        rfl
  | descriptorCall appId serviceId descriptor sk ob =>
    unfold ExportCall.exports at h
    unfold addDescriptor at h
    cases sk <;> cases ob <;>
      cases hnone : (getLocalDescriptorList st appId serviceId st.mLastCharId).isNone <;>
      simp [hnone, hroot, nextDescId, exportedPaths, exportedPaths_append,
        exportedPaths_registerLocalApplication] at h
    all_goals
      rw [h]
      rfl

/-- C30, as stated, fails in its consequence: the counter of `nextServiceId` wraps. The
application 1 owns the service 1, exported at `App1/Service1` and still in the registry with that
object, and the counter is back at 1: `addService(1)` builds a second service object and exports
it at `App1/Service1` as well. -/
theorem exported_path_reused_after_wrap_counterexample :
    (UMap.find exampleWrappedServiceState.mGattLocalApplications 1).map
        (fun application => application.mGattLocalServices) =
      some [(1, { mServiceObject := some "/org/bluez/gattApp/server/App1/Service1"
                  mServiceInterface := true
                  serviceId := 1 })] ∧
    ExportCall.exports exampleWrappedServiceState (ExportCall.serviceCall 1 {}) =
      ["/org/bluez/gattApp/server/App1/Service1"] := by
  rw [exampleWrappedServiceState_eq]
  decide

/-- C30, amended. For a fixed export root `objPath`, the path derivation is injective on the
level and the identifiers: two entities (a service with its two ids, a characteristic with its
three, a descriptor with its four) have the same path only if they are of the same level and all
their ids are equal. Every path that `addService`, `addCharacteristic` or `addDescriptor` exports
(from any state with that root, whatever the arguments and the outcome of the allocations) is
the path of the entity given by the ids of the caller, the id that the counter issues and, for a
descriptor, `mLastCharId`. So two add calls, from any two states with that root, that export at
the same path build entities of the same level with the same ids: entities whose level or ids
differ are never exported at the same path. -/
theorem exports_at_one_path_share_level_and_ids (objPath : String) :
    (∀ e e' : LocalEntity,
      LocalEntity.objectPath objPath e = LocalEntity.objectPath objPath e' → e = e') ∧
    (∀ (st : Bluez5ProfileGatt) (call : ExportCall),
      st.mObjectManagerGattServer = some objPath →
      ∀ path ∈ ExportCall.exports st call,
        path = LocalEntity.objectPath objPath (ExportCall.entity st call)) ∧
    (∀ (st st' : Bluez5ProfileGatt) (call call' : ExportCall) (path : String),
      st.mObjectManagerGattServer = some objPath →
      st'.mObjectManagerGattServer = some objPath →
      path ∈ ExportCall.exports st call →
      path ∈ ExportCall.exports st' call' →
      ExportCall.entity st call = ExportCall.entity st' call') := by
  refine ⟨LocalEntity.objectPath_injective objPath, ?_, ?_⟩
  · intro st call hroot path h
    exact ExportCall.exports_entity objPath st call hroot path h
  · intro st st' call call' path hroot hroot' h h'
    apply LocalEntity.objectPath_injective objPath
    rw [← ExportCall.exports_entity objPath st call hroot path h,
      ← ExportCall.exports_entity objPath st' call' hroot' path h']

/-- C30, amended, at concrete states: under the root `/org/bluez/gattApp/server` the service
`(1, 12)` and the service `(11, 2)` have different paths; `addDescriptor(1, 1)` after the
characteristic 1 was added exports at the path of the descriptor `(1, 1, 1, 1)`; `addService(1)`
exports at `App1/Service1` both from the state with a fresh server application and from the
state in which the application owns the service 1 and the counter of `nextServiceId` is back at
1, and both calls build the entity `service (1, 1)`. -/
theorem exports_at_one_path_share_level_and_ids_witness :
    LocalEntity.objectPath "/org/bluez/gattApp/server" (LocalEntity.service 1 12) ≠
      LocalEntity.objectPath "/org/bluez/gattApp/server" (LocalEntity.service 11 2) ∧
    "/org/bluez/gattApp/server/App1/Service1/Char1/Desc1" ∈
      ExportCall.exports exampleCharacteristicAddedState
        (ExportCall.descriptorCall 1 1 {} true true) ∧
    "/org/bluez/gattApp/server/App1/Service1/Char1/Desc1" =
      LocalEntity.objectPath "/org/bluez/gattApp/server"
        (ExportCall.entity exampleCharacteristicAddedState
          (ExportCall.descriptorCall 1 1 {} true true)) ∧
    "/org/bluez/gattApp/server/App1/Service1" ∈
      ExportCall.exports exampleServerState (ExportCall.serviceCall 1 {}) ∧
    "/org/bluez/gattApp/server/App1/Service1" ∈
      ExportCall.exports { exampleServiceAddedState with nextServiceIdCounter := 1 }
        (ExportCall.serviceCall 1 {}) ∧
    ExportCall.entity exampleServerState (ExportCall.serviceCall 1 {}) =
      ExportCall.entity { exampleServiceAddedState with nextServiceIdCounter := 1 }
        (ExportCall.serviceCall 1 {}) :=
  have h := exports_at_one_path_share_level_and_ids "/org/bluez/gattApp/server"
  ⟨fun heq => absurd (h.1 _ _ heq) (by decide),
    by decide,
    h.2.1 exampleCharacteristicAddedState (ExportCall.descriptorCall 1 1 {} true true)
      (by decide) _ (by decide),
    by decide, by decide,
    h.2.2 exampleServerState { exampleServiceAddedState with nextServiceIdCounter := 1 }
      (ExportCall.serviceCall 1 {}) (ExportCall.serviceCall 1 {})
      "/org/bluez/gattApp/server/App1/Service1" (by decide) (by decide) (by decide) (by decide)⟩

end Bluez5
